import Mathlib

/-!
The program container-network: state tracker and policy reconciler.

A shallow embedding of `pkg/handler/handler.go` and `pkg/watcher/watcher.go`
of the `wireguard/container-network` program, followed by theorems about it.

Conventions of the embedding

* Go `string` is `String`, a text in valid UTF-8; the functions of the Go
  standard library that the program calls are modelled on `List Char`
  (namespaces `unicode`, `strings`, `strconv`).
* `uint16` values are `Nat`; the one conversion in the program
  (`uint16(portNum)`) is written `% 65536`.
* a Go `map[string]T` is an association list read with `List.lookup`.
* external actions (connection attempts, `iptables` invocations, log entries)
  are collected in a trace of `Effect`s; their outcomes are parameters.
* a panic is a result of its own (`none` for the handlers and for
  `extractContainerInfo`, `Ended.panic` for the watcher); the case taken by a
  `select` that sends a transition is a parameter.
-/

set_option linter.dupNamespace false

/-! ## Standard-library functions used by the program -/

namespace unicode

/-- Model of Go `unicode.IsSpace`: the code points with the White_Space
property. -/
def IsSpace (c : Char) : Bool :=
  let n := c.toNat
  (9 ≤ n && n ≤ 13) || n == 32 || n == 0x85 || n == 0xA0 || n == 0x1680 ||
  (0x2000 ≤ n && n ≤ 0x200A) || n == 0x2028 || n == 0x2029 || n == 0x202F ||
  n == 0x205F || n == 0x3000

/-- The lower-case mappings of the table `unicode.CaseRanges` of Go (Unicode
15.0.0, the simple case mappings of the Unicode Character Database), in
ascending order. An entry `(lo, hi, stride, low)` says that the code points
`lo`, `lo + stride`, .., `hi` are mapped to `low`, `low + stride`, ..; the code
points in between (for `stride = 2`) and outside all entries have no lower-case
mapping. -/
def lowerRanges : List (Nat × Nat × Nat × Nat) :=
  [(0x41, 0x5A, 1, 0x61), (0xC0, 0xD6, 1, 0xE0), (0xD8, 0xDE, 1, 0xF8),
   (0x100, 0x12E, 2, 0x101), (0x130, 0x130, 1, 0x69), (0x132, 0x136, 2, 0x133),
   (0x139, 0x147, 2, 0x13A), (0x14A, 0x176, 2, 0x14B), (0x178, 0x178, 1, 0xFF),
   (0x179, 0x17D, 2, 0x17A), (0x181, 0x181, 1, 0x253), (0x182, 0x184, 2, 0x183),
   (0x186, 0x186, 1, 0x254), (0x187, 0x187, 1, 0x188), (0x189, 0x18A, 1, 0x256),
   (0x18B, 0x18B, 1, 0x18C), (0x18E, 0x18E, 1, 0x1DD), (0x18F, 0x18F, 1, 0x259),
   (0x190, 0x190, 1, 0x25B), (0x191, 0x191, 1, 0x192), (0x193, 0x193, 1, 0x260),
   (0x194, 0x194, 1, 0x263), (0x196, 0x196, 1, 0x269), (0x197, 0x197, 1, 0x268),
   (0x198, 0x198, 1, 0x199), (0x19C, 0x19C, 1, 0x26F), (0x19D, 0x19D, 1, 0x272),
   (0x19F, 0x19F, 1, 0x275), (0x1A0, 0x1A4, 2, 0x1A1), (0x1A6, 0x1A6, 1, 0x280),
   (0x1A7, 0x1A7, 1, 0x1A8), (0x1A9, 0x1A9, 1, 0x283), (0x1AC, 0x1AC, 1, 0x1AD),
   (0x1AE, 0x1AE, 1, 0x288), (0x1AF, 0x1AF, 1, 0x1B0), (0x1B1, 0x1B2, 1, 0x28A),
   (0x1B3, 0x1B5, 2, 0x1B4), (0x1B7, 0x1B7, 1, 0x292), (0x1B8, 0x1B8, 1, 0x1B9),
   (0x1BC, 0x1BC, 1, 0x1BD), (0x1C4, 0x1C4, 1, 0x1C6), (0x1C5, 0x1C5, 1, 0x1C6),
   (0x1C7, 0x1C7, 1, 0x1C9), (0x1C8, 0x1C8, 1, 0x1C9), (0x1CA, 0x1CA, 1, 0x1CC),
   (0x1CB, 0x1DB, 2, 0x1CC), (0x1DE, 0x1EE, 2, 0x1DF), (0x1F1, 0x1F1, 1, 0x1F3),
   (0x1F2, 0x1F4, 2, 0x1F3), (0x1F6, 0x1F6, 1, 0x195), (0x1F7, 0x1F7, 1, 0x1BF),
   (0x1F8, 0x21E, 2, 0x1F9), (0x220, 0x220, 1, 0x19E), (0x222, 0x232, 2, 0x223),
   (0x23A, 0x23A, 1, 0x2C65), (0x23B, 0x23B, 1, 0x23C), (0x23D, 0x23D, 1, 0x19A),
   (0x23E, 0x23E, 1, 0x2C66), (0x241, 0x241, 1, 0x242), (0x243, 0x243, 1, 0x180),
   (0x244, 0x244, 1, 0x289), (0x245, 0x245, 1, 0x28C), (0x246, 0x24E, 2, 0x247),
   (0x370, 0x372, 2, 0x371), (0x376, 0x376, 1, 0x377), (0x37F, 0x37F, 1, 0x3F3),
   (0x386, 0x386, 1, 0x3AC), (0x388, 0x38A, 1, 0x3AD), (0x38C, 0x38C, 1, 0x3CC),
   (0x38E, 0x38F, 1, 0x3CD), (0x391, 0x3A1, 1, 0x3B1), (0x3A3, 0x3AB, 1, 0x3C3),
   (0x3CF, 0x3CF, 1, 0x3D7), (0x3D8, 0x3EE, 2, 0x3D9), (0x3F4, 0x3F4, 1, 0x3B8),
   (0x3F7, 0x3F7, 1, 0x3F8), (0x3F9, 0x3F9, 1, 0x3F2), (0x3FA, 0x3FA, 1, 0x3FB),
   (0x3FD, 0x3FF, 1, 0x37B), (0x400, 0x40F, 1, 0x450), (0x410, 0x42F, 1, 0x430),
   (0x460, 0x480, 2, 0x461), (0x48A, 0x4BE, 2, 0x48B), (0x4C0, 0x4C0, 1, 0x4CF),
   (0x4C1, 0x4CD, 2, 0x4C2), (0x4D0, 0x52E, 2, 0x4D1), (0x531, 0x556, 1, 0x561),
   (0x10A0, 0x10C5, 1, 0x2D00), (0x10C7, 0x10C7, 1, 0x2D27), (0x10CD, 0x10CD, 1, 0x2D2D),
   (0x13A0, 0x13EF, 1, 0xAB70), (0x13F0, 0x13F5, 1, 0x13F8), (0x1C90, 0x1CBA, 1, 0x10D0),
   (0x1CBD, 0x1CBF, 1, 0x10FD), (0x1E00, 0x1E94, 2, 0x1E01), (0x1E9E, 0x1E9E, 1, 0xDF),
   (0x1EA0, 0x1EFE, 2, 0x1EA1), (0x1F08, 0x1F0F, 1, 0x1F00), (0x1F18, 0x1F1D, 1, 0x1F10),
   (0x1F28, 0x1F2F, 1, 0x1F20), (0x1F38, 0x1F3F, 1, 0x1F30), (0x1F48, 0x1F4D, 1, 0x1F40),
   (0x1F59, 0x1F5F, 2, 0x1F51), (0x1F68, 0x1F6F, 1, 0x1F60), (0x1F88, 0x1F8F, 1, 0x1F80),
   (0x1F98, 0x1F9F, 1, 0x1F90), (0x1FA8, 0x1FAF, 1, 0x1FA0), (0x1FB8, 0x1FB9, 1, 0x1FB0),
   (0x1FBA, 0x1FBB, 1, 0x1F70), (0x1FBC, 0x1FBC, 1, 0x1FB3), (0x1FC8, 0x1FCB, 1, 0x1F72),
   (0x1FCC, 0x1FCC, 1, 0x1FC3), (0x1FD8, 0x1FD9, 1, 0x1FD0), (0x1FDA, 0x1FDB, 1, 0x1F76),
   (0x1FE8, 0x1FE9, 1, 0x1FE0), (0x1FEA, 0x1FEB, 1, 0x1F7A), (0x1FEC, 0x1FEC, 1, 0x1FE5),
   (0x1FF8, 0x1FF9, 1, 0x1F78), (0x1FFA, 0x1FFB, 1, 0x1F7C), (0x1FFC, 0x1FFC, 1, 0x1FF3),
   (0x2126, 0x2126, 1, 0x3C9), (0x212A, 0x212A, 1, 0x6B), (0x212B, 0x212B, 1, 0xE5),
   (0x2132, 0x2132, 1, 0x214E), (0x2160, 0x216F, 1, 0x2170), (0x2183, 0x2183, 1, 0x2184),
   (0x24B6, 0x24CF, 1, 0x24D0), (0x2C00, 0x2C2F, 1, 0x2C30), (0x2C60, 0x2C60, 1, 0x2C61),
   (0x2C62, 0x2C62, 1, 0x26B), (0x2C63, 0x2C63, 1, 0x1D7D), (0x2C64, 0x2C64, 1, 0x27D),
   (0x2C67, 0x2C6B, 2, 0x2C68), (0x2C6D, 0x2C6D, 1, 0x251), (0x2C6E, 0x2C6E, 1, 0x271),
   (0x2C6F, 0x2C6F, 1, 0x250), (0x2C70, 0x2C70, 1, 0x252), (0x2C72, 0x2C72, 1, 0x2C73),
   (0x2C75, 0x2C75, 1, 0x2C76), (0x2C7E, 0x2C7F, 1, 0x23F), (0x2C80, 0x2CE2, 2, 0x2C81),
   (0x2CEB, 0x2CED, 2, 0x2CEC), (0x2CF2, 0x2CF2, 1, 0x2CF3), (0xA640, 0xA66C, 2, 0xA641),
   (0xA680, 0xA69A, 2, 0xA681), (0xA722, 0xA72E, 2, 0xA723), (0xA732, 0xA76E, 2, 0xA733),
   (0xA779, 0xA77B, 2, 0xA77A), (0xA77D, 0xA77D, 1, 0x1D79), (0xA77E, 0xA786, 2, 0xA77F),
   (0xA78B, 0xA78B, 1, 0xA78C), (0xA78D, 0xA78D, 1, 0x265), (0xA790, 0xA792, 2, 0xA791),
   (0xA796, 0xA7A8, 2, 0xA797), (0xA7AA, 0xA7AA, 1, 0x266), (0xA7AB, 0xA7AB, 1, 0x25C),
   (0xA7AC, 0xA7AC, 1, 0x261), (0xA7AD, 0xA7AD, 1, 0x26C), (0xA7AE, 0xA7AE, 1, 0x26A),
   (0xA7B0, 0xA7B0, 1, 0x29E), (0xA7B1, 0xA7B1, 1, 0x287), (0xA7B2, 0xA7B2, 1, 0x29D),
   (0xA7B3, 0xA7B3, 1, 0xAB53), (0xA7B4, 0xA7C2, 2, 0xA7B5), (0xA7C4, 0xA7C4, 1, 0xA794),
   (0xA7C5, 0xA7C5, 1, 0x282), (0xA7C6, 0xA7C6, 1, 0x1D8E), (0xA7C7, 0xA7C9, 2, 0xA7C8),
   (0xA7D0, 0xA7D0, 1, 0xA7D1), (0xA7D6, 0xA7D8, 2, 0xA7D7), (0xA7F5, 0xA7F5, 1, 0xA7F6),
   (0xFF21, 0xFF3A, 1, 0xFF41), (0x10400, 0x10427, 1, 0x10428),
   (0x104B0, 0x104D3, 1, 0x104D8), (0x10570, 0x1057A, 1, 0x10597),
   (0x1057C, 0x1058A, 1, 0x105A3), (0x1058C, 0x10592, 1, 0x105B3),
   (0x10594, 0x10595, 1, 0x105BB), (0x10C80, 0x10CB2, 1, 0x10CC0),
   (0x118A0, 0x118BF, 1, 0x118C0), (0x16E40, 0x16E5F, 1, 0x16E60),
   (0x1E900, 0x1E921, 1, 0x1E922)]

/-- The lookup of a code point `n` in a table of lower-case mappings. -/
def lookupLower (n : Nat) : List (Nat × Nat × Nat × Nat) → Nat
  | [] => n
  | (lo, hi, stride, low) :: rest =>
    if n < lo then n
    else if n ≤ hi then (if (n - lo) % stride = 0 then low + (n - lo) else n)
    else lookupLower n rest

/-- Model of Go `unicode.ToLower`: the lower-case mapping of a code point, and
the code point itself when it has none. -/
def ToLower (c : Char) : Char := Char.ofNat (lookupLower c.toNat lowerRanges)

end unicode

namespace strings

/-- Model of Go `strings.Split(s, sep)` for a one-character separator: the
pieces between the occurrences of `sep`; never empty. -/
def Split (sep : Char) : List Char → List (List Char)
  | [] => [[]]
  | c :: cs =>
    if c = sep then [] :: Split sep cs
    else match Split sep cs with
      | [] => [[c]]
      | h :: t => (c :: h) :: t

/-- Model of Go `strings.SplitN(s, sep, 2)` for a one-character separator: the
text before the first `sep` and, when there is one, the rest after it. -/
def SplitN2 (sep : Char) : List Char → List (List Char)
  | [] => [[]]
  | c :: cs =>
    if c = sep then [[], cs]
    else match SplitN2 sep cs with
      | [] => [[c]]
      | h :: t => (c :: h) :: t

/-- Model of Go `strings.TrimSpace`: leading and trailing white space removed. -/
def TrimSpace (s : List Char) : List Char :=
  (s.dropWhile unicode.IsSpace).rdropWhile unicode.IsSpace

/-- Model of Go `strings.ToLower`: `unicode.ToLower` applied to every code
point of the text. -/
def ToLower (s : List Char) : List Char := s.map unicode.ToLower

/-- Model of Go `strings.EqualFold`: equality up to letter case, for ASCII
letters. It is exact when one argument is made of letters that have no
non-ASCII case variant, as `"true"` is. -/
def EqualFold (s t : List Char) : Bool := s.map Char.toLower == t.map Char.toLower

/-- Model of Go `strings.HasPrefix`. -/
def HasPrefix (s pre : String) : Bool := pre.toList.isPrefixOf s.toList

/-- Model of Go `strings.TrimPrefix(s, "/")`. -/
def TrimPrefixSlash : List Char → List Char
  | '/' :: cs => cs
  | cs => cs

end strings

namespace strconv

/-- The digit loop of Go `strconv.ParseUint` for base 10 and bit size 16:
`n` is the value read so far. `none` is an error (syntax or range). -/
def ParseUintLoop : List Char → Nat → Option Nat
  | [], n => some n
  | c :: cs, n =>
    if c.isDigit then
      if n ≥ 1844674407370955162 then none
      else
        let n1 := n * 10 + (c.toNat - 48)
        if n1 > 65535 then none else ParseUintLoop cs n1
    else none

/-- Model of Go `strconv.ParseUint(s, 10, 16)`; `none` stands for `err != nil`. -/
def ParseUint (s : List Char) : Option Nat :=
  if s = [] then none else ParseUintLoop s 0

end strconv

/-! ## Data model (`pkg/watcher`, `pkg/client`, `pkg/handler`) -/

/-- The `port` struct of the handler package: a port with its protocol. -/
structure port where
  port : Nat
  protocol : String
  deriving DecidableEq, Repr

/-- What the body of the loop of `parsePorts` does with one piece of the
split: `blank` and `invalid` are the two `continue` branches (the second one
logs a warning with the offending text), `valid` is the `append`. -/
inductive PortToken where
  | blank
  | invalid (text : String)
  | valid (p : port)
  deriving DecidableEq, Repr

/-- The body of the loop of `parsePorts` for one piece `raw` of the split. -/
def parsePortToken (raw : List Char) : PortToken :=
  let p := strings.TrimSpace raw
  if p = [] then PortToken.blank
  else
    let parts := strings.SplitN2 '/' p
    match strconv.ParseUint (parts.headD []) with
    | none => PortToken.invalid (String.mk (parts.headD []))
    | some portNum =>
      let protocol :=
        if parts.length = 2 then String.mk (strings.ToLower (parts.getD 1 []))
        else "tcp"
      PortToken.valid { port := portNum % 65536, protocol := protocol }

/-- The port appended for a piece, if any. -/
def PortToken.port? : PortToken → Option port
  | PortToken.valid p => some p
  | _ => none

/-- The text logged as an invalid port number for a piece, if any. -/
def PortToken.warning? : PortToken → Option String
  | PortToken.invalid t => some t
  | _ => none

/-- Embedding of `parsePorts`: the ports of the comma-separated list
`portsStr`, in order. -/
def parsePorts (portsStr : String) : List port :=
  ((strings.Split ',' portsStr.toList).map parsePortToken).filterMap PortToken.port?

/-- The texts `parsePorts` logs as invalid port numbers, in order. -/
def parsePortsWarnings (portsStr : String) : List String :=
  ((strings.Split ',' portsStr.toList).map parsePortToken).filterMap PortToken.warning?

/-- Model of a Go map assignment `m[k] = v` on an association list. -/
def mapSet {κ β : Type} [BEq κ] (m : List (κ × β)) (k : κ) (v : β) : List (κ × β) :=
  (k, v) :: m.filter (fun e => e.1 != k)

/-- Model of Go `delete(m, k)` on an association list. -/
def mapDelete {κ β : Type} [BEq κ] (m : List (κ × β)) (k : κ) : List (κ × β) :=
  m.filter (fun e => e.1 != k)

/-- The struct `client.NetworkEndpoint`. -/
structure NetworkEndpoint where
  IPAddress : String
  NetworkID : String
  Gateway : String
  MacAddress : String
  IPPrefixLen : Int
  deriving DecidableEq, Repr

/-- The struct `client.NetworkSettings`; `Networks = none` is the nil map.
The map values are `*NetworkEndpoint`: a value `none` is the nil pointer (the
JSON decoder stores it for an entry `"bridge": null`). The `Ports` field is
read nowhere in the program and is left out. -/
structure NetworkSettings where
  Networks : Option (List (String × Option NetworkEndpoint))
  deriving DecidableEq, Repr

/-- The struct `client.Port` (`Typ` is the field `Type`). -/
structure Port where
  IP : String
  PrivatePort : Nat
  PublicPort : Nat
  Typ : String
  deriving DecidableEq, Repr

/-- The struct `client.Container`; `NetworkSettings = none` is the nil pointer. -/
structure Container where
  ID : String
  Names : List String
  Labels : List (String × String)
  State : String
  Status : String
  NetworkSettings : Option NetworkSettings
  Ports : List Port
  deriving DecidableEq, Repr

/-- The struct `client.Actor`. -/
structure Actor where
  ID : String
  Attributes : List (String × String)
  deriving DecidableEq, Repr

/-- The struct `client.Event`, a raw event of the runtime (`Typ` is the field
`Type`). -/
structure Event where
  Typ : String
  Action : String
  Actor : Actor
  Time : Int
  Status : String
  deriving DecidableEq, Repr

/-- The type `watcher.ContainerEventType`. -/
inductive ContainerEventType where
  | ContainerStarted
  | ContainerStopped
  deriving DecidableEq, Repr

/-- The struct `watcher.PortMapping`. -/
structure PortMapping where
  HostIP : String
  HostPort : Nat
  ContainerPort : Nat
  Protocol : String
  deriving DecidableEq, Repr

/-- The struct `watcher.ContainerInfo`, the record kept in the directory. -/
structure ContainerInfo where
  ID : String
  Name : String
  IPAddress : String
  NetworkName : String
  Ports : List PortMapping
  Labels : List (String × String)
  deriving DecidableEq, Repr

/-- The struct `watcher.ContainerEvent`, a transition (`Typ` is the field
`Type`); `Timestamp` is in Unix seconds. -/
structure ContainerEvent where
  Typ : ContainerEventType
  Container : ContainerInfo
  Timestamp : Int
  deriving DecidableEq, Repr

/-- The struct `watcher.Config`. -/
structure Config where
  NetworkName : String
  EnableLabel : String
  deriving DecidableEq, Repr

/-- The filters of a `ListContainers` request (`map[string][]string`). -/
abbrev Filters := List (String × List String)

/-- The mutable part of `watcher.Watcher`, with the requests made to the
runtime: `knownContainers` is the directory, `events` is the sequence of
transitions sent on the channel so far (oldest first), `queries` the filters of
the `ListContainers` calls made so far. -/
structure Watcher where
  config : Config
  knownContainers : List (String × ContainerInfo)
  events : List ContainerEvent
  queries : List Filters
  deriving DecidableEq, Repr

/-! ## The state tracker (`pkg/watcher/watcher.go`)

The watcher runs in one goroutine at a time: `Start` runs the discovery and
only then starts `watchEvents`, which handles one raw event after the other.
Each `select` that sends a transition has a second case, `<-ctx.Done()`; which
case a `select` takes is a parameter (`sent`). The context of the program is
made by `context.WithCancel` in `main`, so `ctx.Err()` is `context.Canceled`. -/

/-- How a call of the watcher ended.
`ok`: it ran to its end (and returned a nil error, where it returns one), and
every `select` it ran sent its transition.
`cancelled`: a `select` it ran took the case `<-ctx.Done()`; a function that
returns an error then returns `ctx.Err()`.
`failed msg`: it returned another error, with the message `msg`.
`panic`: it panicked (a nil pointer dereference), which ends the program. -/
inductive Ended where
  | ok
  | cancelled
  | failed (msg : String)
  | panic
  deriving DecidableEq, Repr

/-- Embedding of `NewWatcher`. -/
def NewWatcher (config : Config) : Watcher :=
  { config := config, knownContainers := [], events := [], queries := [] }

/-- Embedding of `Watcher.addKnownContainer`. -/
def addKnownContainer (w : Watcher) (id : String) (info : ContainerInfo) : Watcher :=
  { w with knownContainers := mapSet w.knownContainers id info }

/-- Embedding of `Watcher.removeKnownContainer`: the new state, and the pair
`(info, wasKnown)` as an option. -/
def removeKnownContainer (w : Watcher) (id : String) : Watcher × Option ContainerInfo :=
  ({ w with knownContainers := mapDelete w.knownContainers id }, w.knownContainers.lookup id)

/-- Embedding of `Watcher.shouldWatch`. The network test is the presence of the
key in the map, whatever the value stored under it. -/
def shouldWatch (w : Watcher) (container : Container) : Bool :=
  if w.config.EnableLabel != "" &&
      (match container.Labels.lookup w.config.EnableLabel with
       | none => true
       | some labelValue => !strings.EqualFold labelValue.toList "true".toList) then
    false
  else
    match container.NetworkSettings with
    | some ns =>
      match ns.Networks with
      | some networks => (networks.lookup w.config.NetworkName).isSome
      | none => false
    | none => false

/-- Embedding of `Watcher.extractContainerInfo`. The result is `none` when the
call panics: the entry of the watched network is a nil pointer and
`network.IPAddress` dereferences it. -/
def extractContainerInfo (w : Watcher) (container : Container) : Option ContainerInfo :=
  let name :=
    match container.Names with
    | n :: _ => String.mk (strings.TrimPrefixSlash n.toList)
    | [] => ""
  let ipAddress : Option String :=
    match container.NetworkSettings with
    | some ns =>
      match ns.Networks with
      | some networks =>
        match networks.lookup w.config.NetworkName with
        | some (some network) => some network.IPAddress
        | some none => none
        | none => some ""
      | none => some ""
    | none => some ""
  match ipAddress with
  | none => none
  | some ip =>
    some
      { ID := container.ID
        NetworkName := w.config.NetworkName
        Labels := container.Labels
        Name := name
        IPAddress := ip
        Ports :=
          (container.Ports.filter (fun p => 0 < p.PublicPort)).map (fun p =>
            { HostIP := p.IP, HostPort := p.PublicPort, ContainerPort := p.PrivatePort,
              Protocol := p.Typ }) }

/-- Embedding of `Watcher.processContainer`; `now` is the value of `time.Now()`
read by the call, `sent` says that its `select` sends the transition (and not
that it takes the case `<-ctx.Done()`). The record is inserted before the
`select`. -/
def processContainer (w : Watcher) (now : Int) (sent : Bool) (container : Container) :
    Watcher × Ended :=
  if !shouldWatch w container then (w, Ended.ok)
  else
    match extractContainerInfo w container with
    | none => (w, Ended.panic)
    | some info =>
      let w1 := addKnownContainer w container.ID info
      if sent then
        ({ w1 with events := w1.events ++
            [{ Typ := ContainerEventType.ContainerStarted, Container := info,
               Timestamp := now }] }, Ended.ok)
      else (w1, Ended.cancelled)

/-- The loop `for _, container := range containers { w.processContainer(...) }`
of `handleEvent`, which ignores the returned errors: `now i` and `sent i` are
the clock reading and the case taken by the `select` of the call for the `i`-th
container. The loop ends `cancelled` when one of its calls did. -/
def processContainers (w : Watcher) (now : Nat → Int) (sent : Nat → Bool) :
    List Container → Watcher × Ended
  | [] => (w, Ended.ok)
  | c :: cs =>
    match processContainer w (now 0) (sent 0) c with
    | (w1, Ended.panic) => (w1, Ended.panic)
    | (w1, e) =>
      match processContainers w1 (fun i => now (i + 1)) (fun i => sent (i + 1)) cs with
      | (w2, Ended.ok) => (w2, e)
      | r => r

/-- The loop of `discoverExistingContainers`, which returns the first error of
`processContainer`. -/
def discoverLoop (w : Watcher) (now : Nat → Int) (sent : Nat → Bool) :
    List Container → Watcher × Ended
  | [] => (w, Ended.ok)
  | c :: cs =>
    match processContainer w (now 0) (sent 0) c with
    | (w1, Ended.ok) => discoverLoop w1 (fun i => now (i + 1)) (fun i => sent (i + 1)) cs
    | r => r

/-- The filters `discoverExistingContainers` sends to the runtime. -/
def discoverFilters (config : Config) : Filters :=
  [("network", [config.NetworkName])] ++
    (if config.EnableLabel != "" then [("label", [config.EnableLabel])] else [])

/-- Embedding of `Watcher.discoverExistingContainers`; `listing` is the answer
of the runtime to the `ListContainers` request. -/
def discoverExistingContainers (w : Watcher) (now : Nat → Int) (sent : Nat → Bool)
    (listing : Except String (List Container)) : Watcher × Ended :=
  let w1 := { w with queries := w.queries ++ [discoverFilters w.config] }
  match listing with
  | Except.error err => (w1, Ended.failed ("listing containers: " ++ err))
  | Except.ok containers => discoverLoop w1 now sent containers

/-- The branch `eventType == ContainerStopped` of `Watcher.handleEvent`:
`time` is the field `Time` of the raw event, `sent` says that the `select`
sends the transition. The entry is removed before the `select`. -/
def handleStopped (w : Watcher) (containerID : String) (time : Int) (sent : Bool) :
    Watcher × Ended :=
  match removeKnownContainer w containerID with
  | (w1, some info) =>
    if sent then
      ({ w1 with events := w1.events ++
          [{ Typ := ContainerEventType.ContainerStopped, Container := info,
             Timestamp := time }] }, Ended.ok)
    else (w1, Ended.cancelled)
  | (w1, none) => (w1, Ended.ok)

/-- The `else` branch of `Watcher.handleEvent` (a started container): `listing`
is the answer of the runtime to the `ListContainers` request for the ID, `now`
and `sent` are those of the calls of `processContainer`. -/
def handleStarted (w : Watcher) (now : Nat → Int) (sent : Nat → Bool)
    (listing : Except String (List Container)) (containerID : String) : Watcher × Ended :=
  let w1 := { w with queries := w.queries ++ [[("id", [containerID])]] }
  match listing with
  | Except.error _ => (w1, Ended.ok)
  | Except.ok containers => processContainers w1 now sent containers

/-- Embedding of `Watcher.handleEvent`; `listing` is the answer the runtime
gives if the handler asks for the container, `now` the clock readings of the
calls of `processContainer`, `sent` the cases taken by the `select`s of the
call, in order. -/
def handleEvent (w : Watcher) (now : Nat → Int) (sent : Nat → Bool)
    (listing : Except String (List Container)) (event : Event) : Watcher × Ended :=
  if event.Typ != "container" then (w, Ended.ok)
  else
    let containerID := event.Actor.ID
    let action := if event.Action == "" then event.Status else event.Action
    let eventType : Option ContainerEventType :=
      if strings.HasPrefix action "start" then some ContainerEventType.ContainerStarted
      else if strings.HasPrefix action "stop" then some ContainerEventType.ContainerStopped
      else if strings.HasPrefix action "die" || strings.HasPrefix action "kill" then
        some ContainerEventType.ContainerStopped
      else none
    match eventType with
    | none => (w, Ended.ok)
    | some ContainerEventType.ContainerStopped =>
      handleStopped w containerID event.Time (sent 0)
    | some ContainerEventType.ContainerStarted => handleStarted w now sent listing containerID

/-- What one iteration of the loop of `Watcher.watchEvents` receives: a raw
event, with the answer of the runtime, the clock readings and the cases of the
`select`s its handling may use. -/
structure LiveInput where
  event : Event
  listing : Except String (List Container)
  now : Nat → Int
  sent : Nat → Bool

/-- The loop of `Watcher.watchEvents` over the raw events it receives, in
order (over all the subscriptions it makes). A `select` of `handleEvent` takes
the case `<-ctx.Done()` only once that channel is closed; the `select` of the
loop then finds it closed, and the goroutine of `client.Events`, which sends
each event in a `select` with the same `<-ctx.Done()` case on an unbuffered
channel, hands over no further event. So the loop receives nothing after a
call that ended `cancelled`; a panic ends the program. -/
def watchEvents (w : Watcher) : List LiveInput → Watcher × Ended
  | [] => (w, Ended.ok)
  | i :: rest =>
    match handleEvent w i.now i.sent i.listing i.event with
    | (w1, Ended.ok) => watchEvents w1 rest
    | r => r

/-- Embedding of `Watcher.Start`: the discovery, then (unless it failed) the
handling of the live events `live` by `watchEvents`. The result `failed` is the
error `Start` returns; otherwise `Start` returns nil and the result is how
`watchEvents` ended. -/
def Start (w : Watcher) (now : Nat → Int) (sent : Nat → Bool)
    (listing : Except String (List Container)) (live : List LiveInput) : Watcher × Ended :=
  match discoverExistingContainers w now sent listing with
  | (w1, Ended.ok) => watchEvents w1 live
  | (w1, Ended.cancelled) =>
    (w1, Ended.failed ("discovering existing containers: " ++ "context canceled"))
  | (w1, Ended.failed err) => (w1, Ended.failed ("discovering existing containers: " ++ err))
  | (w1, Ended.panic) => (w1, Ended.panic)

/-! ## The policy reconciler (`pkg/handler/handler.go`) -/

/-- An external action of the handler: a connection attempt
(`net.DialTimeout(network, address, warmUpTimeout)`), a pause
(`time.Sleep`, in seconds), an invocation of the firewall tool
(`exec.Command("iptables", args...)`), or a log entry (level and message; the
attributes of the entry are left out). -/
inductive Effect where
  | dial (network address : String)
  | sleep (seconds : Nat)
  | iptables (args : List String)
  | log (level message : String)
  deriving DecidableEq, Repr

/-- The configuration fields of the struct `handler.Handler`. -/
structure Handler where
  iptablesMangleMarkPublishedPorts : String
  iptablesDnatPortsLabel : String
  deriving DecidableEq, Repr

/-- The constant `warmUpMaxAttempts`. -/
def warmUpMaxAttempts : Nat := 60

/-- The constant `warmUpInterval`, in seconds. -/
def warmUpInterval : Nat := 1

/-- Embedding of `filterPublishedPorts`. -/
def filterPublishedPorts (publishedPorts : List PortMapping) (dnatPorts : List port) :
    List port :=
  let dnatSet : List (Nat × String) :=
    dnatPorts.foldl (fun m p => mapSet m p.port p.protocol) []
  publishedPorts.filterMap (fun p =>
    match dnatSet.lookup p.HostPort with
    | some protocol =>
      if protocol == p.Protocol then none
      else some { port := p.HostPort, protocol := p.Protocol }
    | none => some { port := p.HostPort, protocol := p.Protocol })

/-- The loop of `tryConnect` with `remaining` attempts left, the next one being
attempt `i`; `dialOk k` tells whether attempt `k` of this call succeeds. -/
def tryConnectLoop (dialOk : Nat → Bool) (protocol address : String) :
    Nat → Nat → List Effect × Bool
  | 0, _ => ([Effect.log "WARN" "Failed to warm up reverse path"], false)
  | remaining + 1, i =>
    if dialOk i then
      ([Effect.dial protocol address, Effect.log "INFO" "Reverse path warmed up"], true)
    else
      let r := tryConnectLoop dialOk protocol address remaining (i + 1)
      (Effect.dial protocol address :: Effect.sleep warmUpInterval :: r.1, r.2)

/-- Embedding of `Handler.tryConnect`: the trace and the returned boolean. -/
def tryConnect (dialOk : Nat → Bool) (protocol address : String) : List Effect × Bool :=
  tryConnectLoop dialOk protocol address warmUpMaxAttempts 0

/-- Embedding of `Handler.warmupReversePath`; `dialOk k` is the outcome of the
`k`-th connection attempt the call makes (counted from 0). -/
def warmupReversePath (dialOk : Nat → Bool) (ip : String) (port : Nat) (protocol : String) :
    List Effect × Bool :=
  if port > 0 then
    let r := tryConnect dialOk protocol (ip ++ ":" ++ toString port)
    if r.2 then (Effect.log "INFO" "Warming up reverse path" :: r.1, true)
    else
      let r2 := tryConnect (fun k => dialOk (warmUpMaxAttempts + k)) "ip4:icmp" ip
      (Effect.log "INFO" "Warming up reverse path" :: r.1 ++
        [Effect.log "WARN" "Failed to warm up via port, falling back to ICMP",
         Effect.log "INFO" "Warming up reverse path (ICMP)"] ++ r2.1, r2.2)
  else
    let r2 := tryConnect dialOk "ip4:icmp" ip
    (Effect.log "INFO" "Warming up reverse path (ICMP)" :: r2.1, r2.2)

/-- Embedding of `Handler.iptablesMarkRule`; `ok` tells whether the command
succeeds, and is returned (`err == nil`). -/
def iptablesMarkRule (h : Handler) (ok : Bool) (action protocol : String) (port : Nat) :
    List Effect × Bool :=
  ([Effect.log "DEBUG" "Executing iptables",
    Effect.iptables ["-t", "mangle", action, "PREROUTING", "-p", protocol,
      "--sport", toString port, "-j", "MARK",
      "--set-mark", h.iptablesMangleMarkPublishedPorts]], ok)

/-- Embedding of `Handler.iptablesDNATRule`. -/
def iptablesDNATRule (ok : Bool) (action protocol : String) (port : Nat)
    (containerIP : String) : List Effect × Bool :=
  ([Effect.log "DEBUG" "Executing iptables",
    Effect.iptables ["-t", "nat", action, "PREROUTING", "-p", protocol,
      "--dport", toString port, "-j", "DNAT",
      "--to-destination", containerIP ++ ":" ++ toString port]], ok)

/-- Embedding of `Handler.iptablesForwardRule`. -/
def iptablesForwardRule (ok : Bool) (action protocol : String) (port : Nat)
    (containerIP : String) : List Effect × Bool :=
  ([Effect.log "DEBUG" "Executing iptables",
    Effect.iptables [action, "FORWARD", "-p", protocol, "-d", containerIP,
      "--dport", toString port, "-j", "ACCEPT"]], ok)

/-- Embedding of `Handler.addIptablesMarkRules`; `execOk k` is the outcome of
the `k`-th invocation of the firewall tool the call makes. -/
def addIptablesMarkRules (h : Handler) (execOk : Nat → Bool) : List port → List Effect
  | [] => []
  | p :: ps =>
    let r := iptablesMarkRule h (execOk 0) "-A" p.protocol p.port
    r.1 ++ [if r.2 then Effect.log "INFO" "Added iptables mark rule"
            else Effect.log "ERROR" "Failed to add iptables mark rule"] ++
      addIptablesMarkRules h (fun k => execOk (k + 1)) ps

/-- Embedding of `Handler.removeIptablesMarkRules`. -/
def removeIptablesMarkRules (h : Handler) (execOk : Nat → Bool) : List port → List Effect
  | [] => []
  | p :: ps =>
    let r := iptablesMarkRule h (execOk 0) "-D" p.protocol p.port
    r.1 ++ [if r.2 then Effect.log "INFO" "Removed iptables mark rule"
            else Effect.log "ERROR" "Failed to remove iptables mark rule"] ++
      removeIptablesMarkRules h (fun k => execOk (k + 1)) ps

/-- Embedding of `Handler.addIptablesDNATRules`. -/
def addIptablesDNATRules (execOk : Nat → Bool) (containerIP : String) :
    List port → List Effect
  | [] => []
  | p :: ps =>
    let r1 := iptablesDNATRule (execOk 0) "-A" p.protocol p.port containerIP
    let r2 := iptablesForwardRule (execOk 1) "-A" p.protocol p.port containerIP
    r1.1 ++ [if r1.2 then Effect.log "INFO" "Added DNAT rule"
             else Effect.log "ERROR" "Failed to add DNAT rule"] ++
      r2.1 ++ [if r2.2 then Effect.log "INFO" "Added FORWARD rule"
               else Effect.log "ERROR" "Failed to add FORWARD rule"] ++
      addIptablesDNATRules (fun k => execOk (k + 2)) containerIP ps

/-- Embedding of `Handler.removeIptablesDNATRules`. -/
def removeIptablesDNATRules (execOk : Nat → Bool) (containerIP : String) :
    List port → List Effect
  | [] => []
  | p :: ps =>
    let r1 := iptablesDNATRule (execOk 0) "-D" p.protocol p.port containerIP
    let r2 := iptablesForwardRule (execOk 1) "-D" p.protocol p.port containerIP
    r1.1 ++ [if r1.2 then Effect.log "INFO" "Removed DNAT rule"
             else Effect.log "ERROR" "Failed to remove DNAT rule"] ++
      r2.1 ++ [if r2.2 then Effect.log "INFO" "Removed FORWARD rule"
               else Effect.log "ERROR" "Failed to remove FORWARD rule"] ++
      removeIptablesDNATRules (fun k => execOk (k + 2)) containerIP ps

/-- Embedding of `Handler.handleContainerStarted`: the trace of the call, or
`none` when the call panics (the slice `c.ID[:12]` of an ID shorter than 12
bytes). `dialOk` gives the outcomes of the connection attempts and `execOk`
those of the invocations of the firewall tool, both in the order they are
made. -/
def handleContainerStarted (h : Handler) (dialOk execOk : Nat → Bool)
    (event : ContainerEvent) : Option (List Effect) :=
  let c := event.Container
  if c.ID.utf8ByteSize < 12 then none
  else
    some (Effect.log "INFO" "Handling container started" ::
      (if c.IPAddress != "" then
        let first : Nat × String :=
          match c.Ports with
          | p :: _ => (p.ContainerPort, p.Protocol)
          | [] => (0, "")
        let warm := warmupReversePath dialOk c.IPAddress first.1 first.2
        let dnat : List port × List Effect :=
          if h.iptablesDnatPortsLabel != "" then
            match c.Labels.lookup h.iptablesDnatPortsLabel with
            | some portsValue =>
              (parsePorts portsValue,
                (parsePortsWarnings portsValue).map
                    (fun _ => Effect.log "WARN" "Invalid port number") ++
                  addIptablesDNATRules execOk c.IPAddress (parsePorts portsValue))
            | none => ([], [])
          else ([], [])
        let mark : List Effect :=
          if h.iptablesMangleMarkPublishedPorts != "" then
            addIptablesMarkRules h (fun k => execOk (2 * dnat.1.length + k))
              (filterPublishedPorts c.Ports dnat.1)
          else []
        warm.1 ++ dnat.2 ++ mark
      else []))

/-- Embedding of `Handler.handleContainerStopped`, as `handleContainerStarted`. -/
def handleContainerStopped (h : Handler) (execOk : Nat → Bool)
    (event : ContainerEvent) : Option (List Effect) :=
  let c := event.Container
  if c.ID.utf8ByteSize < 12 then none
  else
    some (Effect.log "INFO" "Handling container stopped" ::
      (if c.IPAddress != "" then
        let dnat : List port × List Effect :=
          if h.iptablesDnatPortsLabel != "" then
            match c.Labels.lookup h.iptablesDnatPortsLabel with
            | some portsValue =>
              (parsePorts portsValue,
                (parsePortsWarnings portsValue).map
                    (fun _ => Effect.log "WARN" "Invalid port number") ++
                  removeIptablesDNATRules execOk c.IPAddress (parsePorts portsValue))
            | none => ([], [])
          else ([], [])
        let mark : List Effect :=
          if h.iptablesMangleMarkPublishedPorts != "" then
            removeIptablesMarkRules h (fun k => execOk (2 * dnat.1.length + k))
              (filterPublishedPorts c.Ports dnat.1)
          else []
        dnat.2 ++ mark
      else []))

/-- The connection attempts of a trace, in order. -/
def dials (t : List Effect) : List (String × String) :=
  t.filterMap (fun e => match e with
    | Effect.dial n a => some (n, a)
    | _ => none)

/-- The invocations of the firewall tool of a trace (their arguments), in order. -/
def invocations (t : List Effect) : List (List String) :=
  t.filterMap (fun e => match e with
    | Effect.iptables args => some args
    | _ => none)

/-! ## Vocabulary of the statements -/

/-- The value of a decimal numeral. -/
def decimalValue (s : List Char) : Nat :=
  s.foldl (fun n c => n * 10 + (c.toNat - 48)) 0

/-- A decimal numeral of an unsigned 16-bit number: a non-empty sequence of the
digits `0`..`9` whose value is at most 65535. -/
def IsDecimalUint16 (s : List Char) : Prop :=
  s ≠ [] ∧ (∀ c ∈ s, c.isDigit = true) ∧ decimalValue s ≤ 65535

/-- A token `n` or `n/proto` of a port list. -/
structure PortSpec where
  digits : String
  proto : Option String
  deriving DecidableEq, Repr

/-- The text of a token. -/
def PortSpec.text (t : PortSpec) : String :=
  match t.proto with
  | none => t.digits
  | some q => t.digits ++ "/" ++ q

/-- The token is well formed: `n` is a decimal numeral of value 0..65535, the
protocol has no comma, and the token has no surrounding white space. -/
def PortSpec.WellFormed (t : PortSpec) : Prop :=
  IsDecimalUint16 t.digits.toList ∧
    (match t.proto with
     | none => True
     | some q => ',' ∉ q.toList) ∧
    strings.TrimSpace t.text.toList = t.text.toList

/-- The pair a well-formed token stands for. -/
def PortSpec.expected (t : PortSpec) : port :=
  { port := decimalValue t.digits.toList
    protocol :=
      match t.proto with
      | none => "tcp"
      | some q => String.mk (strings.ToLower q.toList) }


/-- The effective action of a raw event: the field `Action` when it is not
empty, the field `Status` otherwise. -/
def effectiveAction (event : Event) : String :=
  if event.Action = "" then event.Status else event.Action

/-- The arguments of an invocation of the firewall tool with the action
argument (`-A` or `-D`) set to `action`: it is the third argument of the rules
that name a table (`-t <table> <action> ...`) and the first one otherwise. -/
def withAction (action : String) : List String → List String
  | "-t" :: table :: _ :: rest => "-t" :: table :: action :: rest
  | _ :: rest => action :: rest
  | [] => []

/-- The DNAT intents of a container for a handler: the ports parsed from the
label named by `iptablesDnatPortsLabel`, when the label is configured and
present. -/
def dnatIntents (h : Handler) (c : ContainerInfo) : List port :=
  if h.iptablesDnatPortsLabel != "" then
    match c.Labels.lookup h.iptablesDnatPortsLabel with
    | some portsValue => parsePorts portsValue
    | none => []
  else []

/-- The mark intents of a container for a handler: the published ports that
`filterPublishedPorts` keeps, when a mark value is configured. -/
def markIntents (h : Handler) (c : ContainerInfo) : List port :=
  if h.iptablesMangleMarkPublishedPorts != "" then
    filterPublishedPorts c.Ports (dnatIntents h c)
  else []

/-- The transition `e` is a Started transition for the container ID `X`. -/
def isStartedFor (X : String) (e : ContainerEvent) : Bool :=
  e.Typ == ContainerEventType.ContainerStarted && e.Container.ID == X

/-- The transition `e` is a Stopped transition for the container ID `X`. -/
def isStoppedFor (X : String) (e : ContainerEvent) : Bool :=
  e.Typ == ContainerEventType.ContainerStopped && e.Container.ID == X

/-- One step of the bookkeeping of a feed for the ID `X`: `some true` when the
last transition for `X` is Started, `some false` when there is none or it is
Stopped, `none` once a Stopped transition for `X` came without a Started one
right before it (among the transitions for `X`). -/
def feedStep (X : String) (st : Option Bool) (e : ContainerEvent) : Option Bool :=
  match st with
  | none => none
  | some o =>
    if isStartedFor X e then some true
    else if isStoppedFor X e then (if o then some false else none)
    else some o

/-- The bookkeeping of a whole feed for the ID `X`, from the empty feed. -/
def feedState (X : String) (es : List ContainerEvent) : Option Bool :=
  es.foldl (feedStep X) (some false)

/-- The invariant of the state tracker between two calls that ended `ok`:
every key of the directory is the ID of the record stored under it, and for
every ID the bookkeeping of the feed says that the last transition for the ID
is Started exactly when the ID is a key. -/
def TrackerInv (w : Watcher) : Prop :=
  (∀ k info, w.knownContainers.lookup k = some info → info.ID = k) ∧
    ∀ X, feedState X w.events = some (w.knownContainers.lookup X).isSome

/-- The part of the invariant that holds in every state of a run, also after a
cancelled `select` or a panic: every key of the directory is the ID of the
record stored under it, and for no ID the bookkeeping of the feed fails. -/
def TrackerSafe (w : Watcher) : Prop :=
  (∀ k info, w.knownContainers.lookup k = some info → info.ID = k) ∧
    ∀ X, feedState X w.events ≠ none

/-- The invocations of the firewall tool issued by a call of a handler
function: those of its trace, and none when the call panics (the panic comes
before any action). -/
def issuedInvocations (r : Option (List Effect)) : List (List String) :=
  match r with
  | some t => invocations t
  | none => []

/-! # Theorems -/

/-! ## Library lemmas: `strconv.ParseUint`, `strings.Split`, `strings.SplitN` -/

theorem foldl_digits_ge (s : List Char) (n : Nat) :
    n ≤ s.foldl (fun n c => n * 10 + (c.toNat - 48)) n := by
  induction s generalizing n with
  | nil => simp
  | cons c cs ih =>
    simp only [List.foldl_cons]
    exact le_trans (by omega) (ih _)

theorem ParseUintLoop_eq_some (s : List Char) (n m : Nat) (hn : n ≤ 65535) :
    strconv.ParseUintLoop s n = some m ↔
      (∀ c ∈ s, c.isDigit = true) ∧
        s.foldl (fun n c => n * 10 + (c.toNat - 48)) n = m ∧ m ≤ 65535 := by
  induction s generalizing n with
  | nil =>
    simp only [strconv.ParseUintLoop, List.foldl_nil, List.not_mem_nil, false_implies,
      implies_true, true_and, Option.some.injEq]
    constructor
    · intro h; subst h; exact ⟨rfl, hn⟩
    · intro h; exact h.1
  | cons c cs ih =>
    simp only [strconv.ParseUintLoop, List.foldl_cons, List.mem_cons, forall_eq_or_imp]
    by_cases hc : c.isDigit = true
    · have h1 : ¬ n ≥ 1844674407370955162 := by omega
      simp only [hc, if_true, h1, if_false, true_and]
      by_cases h2 : n * 10 + (c.toNat - 48) > 65535
      · simp only [h2, if_true]
        constructor
        · intro h; cases h
        · rintro ⟨_, hf, hm⟩
          have := foldl_digits_ge cs (n * 10 + (c.toNat - 48))
          omega
      · simp only [h2, if_false]
        exact ih _ (by omega)
    · simp [hc]

theorem ParseUint_eq_some (s : List Char) (m : Nat) :
    strconv.ParseUint s = some m ↔ IsDecimalUint16 s ∧ decimalValue s = m := by
  unfold strconv.ParseUint IsDecimalUint16 decimalValue
  by_cases hs : s = []
  · simp [hs]
  · simp only [hs, if_false, ne_eq, not_false_eq_true, true_and]
    rw [ParseUintLoop_eq_some s 0 m (by omega)]
    constructor
    · rintro ⟨h1, h2, h3⟩; exact ⟨⟨h1, h2 ▸ h3⟩, h2⟩
    · rintro ⟨⟨h1, h3⟩, h2⟩; exact ⟨h1, h2, h2 ▸ h3⟩

theorem ParseUint_eq_none (s : List Char) :
    strconv.ParseUint s = none ↔ ¬ IsDecimalUint16 s := by
  constructor
  · intro h hd
    have := (ParseUint_eq_some s (decimalValue s)).2 ⟨hd, rfl⟩
    rw [h] at this; cases this
  · intro h
    cases hp : strconv.ParseUint s with
    | none => rfl
    | some m => exact absurd ((ParseUint_eq_some s m).1 hp).1 h

theorem Split_ne_nil (sep : Char) (s : List Char) : strings.Split sep s ≠ [] := by
  induction s with
  | nil => simp [strings.Split]
  | cons c cs ih =>
    simp only [strings.Split]
    split
    · simp
    · split <;> simp

theorem Split_of_not_mem (sep : Char) (s : List Char) (h : sep ∉ s) :
    strings.Split sep s = [s] := by
  induction s with
  | nil => rfl
  | cons c cs ih =>
    simp only [List.mem_cons, not_or] at h
    have hc : ¬ c = sep := fun e => h.1 e.symm
    simp [strings.Split, hc, ih h.2]

theorem Split_append_sep (sep : Char) (a b : List Char) :
    strings.Split sep (a ++ sep :: b) = strings.Split sep a ++ strings.Split sep b := by
  induction a with
  | nil => simp [strings.Split]
  | cons c cs ih =>
    by_cases hc : c = sep
    · simp [strings.Split, hc, ← ih]
    · simp only [List.cons_append, strings.Split, hc, if_false, List.append_eq]
      rw [ih]
      cases hs : strings.Split sep cs with
      | nil => exact absurd hs (Split_ne_nil sep cs)
      | cons h t => simp

theorem SplitN2_of_not_mem (sep : Char) (s : List Char) (h : sep ∉ s) :
    strings.SplitN2 sep s = [s] := by
  induction s with
  | nil => rfl
  | cons c cs ih =>
    simp only [List.mem_cons, not_or] at h
    have hc : ¬ c = sep := fun e => h.1 e.symm
    simp [strings.SplitN2, hc, ih h.2]

theorem SplitN2_append_sep (sep : Char) (a b : List Char) (h : sep ∉ a) :
    strings.SplitN2 sep (a ++ sep :: b) = [a, b] := by
  induction a with
  | nil => simp [strings.SplitN2]
  | cons c cs ih =>
    simp only [List.mem_cons, not_or] at h
    have hc : ¬ c = sep := fun e => h.1 e.symm
    simp [strings.SplitN2, hc, ih h.2]

theorem SplitN2_headD (sep : Char) (s : List Char) :
    (strings.SplitN2 sep s).headD [] = s.takeWhile (fun c => c != sep) := by
  induction s with
  | nil => rfl
  | cons c cs ih =>
    by_cases hc : c = sep
    · simp [strings.SplitN2, hc]
    · simp only [strings.SplitN2, hc, if_false]
      have : (c != sep) = true := by simpa using hc
      rw [List.takeWhile_cons, this, if_pos rfl, ← ih]
      cases hs : strings.SplitN2 sep cs <;> simp

theorem isDigit_ne_slash (s : List Char) (h : ∀ c ∈ s, c.isDigit = true) : '/' ∉ s := by
  intro hm
  have := h _ hm
  revert this
  decide

theorem isDigit_ne_comma (s : List Char) (h : ∀ c ∈ s, c.isDigit = true) : ',' ∉ s := by
  intro hm
  have := h _ hm
  revert this
  decide

theorem intercalate_go_toList (acc s : String) (l : List String) :
    (String.intercalate.go acc s l).toList =
      acc.toList ++ (l.map (fun x => s.toList ++ x.toList)).flatten := by
  induction l generalizing acc with
  | nil => simp [String.intercalate.go]
  | cons x xs ih =>
    simp only [String.toList] at ih ⊢
    simp [String.intercalate.go, ih]

theorem Split_flatten (a : List Char) (l : List (List Char)) (h : ∀ x ∈ l, ',' ∉ x) :
    strings.Split ',' (a ++ (l.map (fun x => ',' :: x)).flatten) = strings.Split ',' a ++ l := by
  induction l generalizing a with
  | nil => simp
  | cons x xs ih =>
    have hx : ',' ∉ x := h x (List.mem_cons_self _ _)
    have hxs : ∀ y ∈ xs, ',' ∉ y := fun y hy => h y (List.mem_cons_of_mem _ hy)
    simp only [List.map_cons, List.flatten_cons, List.cons_append]
    rw [Split_append_sep, ih x hxs, Split_of_not_mem ',' x hx]
    simp

theorem Split_intercalate (l : List String) (hne : l ≠ []) (h : ∀ x ∈ l, ',' ∉ x.toList) :
    strings.Split ',' (",".intercalate l).toList = l.map String.toList := by
  cases l with
  | nil => exact absurd rfl hne
  | cons x xs =>
    have hx : ',' ∉ x.toList := h x (List.mem_cons_self _ _)
    have hxs : ∀ y ∈ xs.map String.toList, ',' ∉ y := by
      intro y hy
      obtain ⟨z, hz, rfl⟩ := List.mem_map.1 hy
      exact h z (List.mem_cons_of_mem _ hz)
    have := Split_flatten x.toList (xs.map String.toList) hxs
    simp only [String.intercalate, intercalate_go_toList, List.map_cons]
    rw [Split_of_not_mem ',' _ hx] at this
    simpa [List.map_map, Function.comp_def] using this

theorem PortSpec.text_no_comma (t : PortSpec) (h : t.WellFormed) : ',' ∉ t.text.toList := by
  obtain ⟨⟨_, hd, _⟩, hq, _⟩ := h
  have h1 := isDigit_ne_comma _ hd
  unfold PortSpec.text
  cases hp : t.proto with
  | none => simpa using h1
  | some q =>
    rw [hp] at hq
    have h2 : ',' ∉ q.toList := hq
    simp only [String.toList] at h1 h2
    simp [String.toList, h1, h2]

theorem parsePortToken_wellFormed (t : PortSpec) (h : t.WellFormed) :
    parsePortToken t.text.toList = PortToken.valid t.expected := by
  have hcomma := h
  obtain ⟨hdec, hq, htrim⟩ := h
  have hval := (ParseUint_eq_some t.digits.toList _).2 ⟨hdec, rfl⟩
  obtain ⟨hne, hd, hle⟩ := hdec
  have hslash := isDigit_ne_slash _ hd
  have hmod : decimalValue t.digits.toList % 65536 = decimalValue t.digits.toList :=
    Nat.mod_eq_of_lt (by omega)
  unfold parsePortToken
  simp only [htrim]
  unfold PortSpec.text PortSpec.expected at *
  cases hp : t.proto with
  | none =>
    simp only [hp] at *
    simp only [hne, if_false, SplitN2_of_not_mem '/' _ hslash, List.headD_cons, hval, hmod]
    simp
  | some q =>
    simp only [hp] at *
    have e : (t.digits ++ "/" ++ q).toList = t.digits.toList ++ '/' :: q.toList := by
      simp [String.toList]
    rw [e, SplitN2_append_sep '/' _ _ hslash]
    simp only [List.headD_cons, hval, hmod]
    simp

/-! ## C1, C2: `parsePorts` -/

/-- C1: for every non-empty list of well-formed tokens (`n` or `n/proto`, `n` a
decimal numeral of value 0..65535, no surrounding white space, no comma in the
protocol), `parsePorts` of the tokens joined by commas is one pair per token, in
token order: `(n, "tcp")` without a protocol, `(n, lower-cased proto)` with
one. -/
theorem parsePorts_wellFormed_tokens (toks : List PortSpec) (hne : toks ≠ [])
    (h : ∀ t ∈ toks, t.WellFormed) :
    parsePorts (",".intercalate (toks.map PortSpec.text)) = toks.map PortSpec.expected := by
  unfold parsePorts
  rw [Split_intercalate _ (by simpa using hne)]
  · simp only [List.map_map]
    rw [List.filterMap_map]
    have : ∀ t ∈ toks, (PortToken.port? ∘ parsePortToken ∘ String.toList ∘ PortSpec.text) t
        = some t.expected := by
      intro t ht
      simp only [Function.comp_apply, parsePortToken_wellFormed t (h t ht), PortToken.port?]
    clear hne
    induction toks with
    | nil => rfl
    | cons t ts ih =>
      rw [List.filterMap_cons, this t (List.mem_cons_self _ _)]
      simp only [List.map_cons, List.cons.injEq, true_and]
      exact ih (fun x hx => h x (List.mem_cons_of_mem _ hx))
        (fun x hx => this x (List.mem_cons_of_mem _ hx))
  · intro x hx
    obtain ⟨t, ht, rfl⟩ := List.mem_map.1 hx
    exact PortSpec.text_no_comma t (h t ht)

theorem parsePorts_wellFormed_tokens_witness :
    parsePorts "80,443/tcp,53/udp" = [⟨80, "tcp"⟩, ⟨443, "tcp"⟩, ⟨53, "udp"⟩] ∧
      parsePorts "53/UDP" = [⟨53, "udp"⟩] ∧
      parsePorts "53/ÜDP" = [⟨53, "üdp"⟩] :=
  ⟨parsePorts_wellFormed_tokens [⟨"80", none⟩, ⟨"443", some "tcp"⟩, ⟨"53", some "udp"⟩]
      (by decide) (by
        intro t ht
        simp only [List.mem_cons, List.mem_singleton, List.not_mem_nil, or_false] at ht
        rcases ht with rfl | rfl | rfl <;>
          exact ⟨⟨by decide, by decide, by decide⟩, by decide, by decide⟩),
    parsePorts_wellFormed_tokens [⟨"53", some "UDP"⟩] (by decide) (by
        intro t ht
        simp only [List.mem_singleton] at ht
        subst ht
        exact ⟨⟨by decide, by decide, by decide⟩, by decide, by decide⟩),
    parsePorts_wellFormed_tokens [⟨"53", some "ÜDP"⟩] (by decide) (by
        intro t ht
        simp only [List.mem_singleton] at ht
        subst ht
        exact ⟨⟨by decide, by decide, by decide⟩, by decide, by decide⟩)⟩

theorem parsePortToken_malformed (t : List Char)
    (hbad : ¬ IsDecimalUint16 ((strings.TrimSpace t).takeWhile (fun c => c != '/'))) :
    (parsePortToken t).port? = none := by
  unfold parsePortToken
  by_cases he : strings.TrimSpace t = []
  · simp [he, PortToken.port?]
  · have hp : strconv.ParseUint ((strings.SplitN2 '/' (strings.TrimSpace t)).headD []) = none := by
      rw [SplitN2_headD]
      exact (ParseUint_eq_none _).2 hbad
    simp only [he, if_false, hp, PortToken.port?]

/-- C2: a token `t` without comma whose text before the first `/` (after
trimming the white space around `t`) is not a decimal unsigned 16-bit number is
skipped: `parsePorts (a + "," + t + "," + b) = parsePorts a ++ parsePorts b`
for all strings `a` and `b`. -/
theorem parsePorts_skips_malformed (a b t : String) (hc : ',' ∉ t.toList)
    (hbad : ¬ IsDecimalUint16
      ((strings.TrimSpace t.toList).takeWhile (fun c => c != '/'))) :
    parsePorts (a ++ "," ++ t ++ "," ++ b) = parsePorts a ++ parsePorts b := by
  have e : (a ++ "," ++ t ++ "," ++ b).toList =
      a.toList ++ ',' :: (t.toList ++ ',' :: b.toList) := by
    simp [String.toList]
  unfold parsePorts
  rw [e, Split_append_sep, Split_append_sep, Split_of_not_mem ',' _ hc]
  simp only [List.map_append, List.filterMap_append, List.map_cons, List.map_nil,
    List.filterMap_cons, List.filterMap_nil, parsePortToken_malformed t.toList hbad,
    List.nil_append]

theorem parsePorts_skips_malformed_witness :
    parsePorts "80,bad,53" = [⟨80, "tcp"⟩, ⟨53, "tcp"⟩] :=
  parsePorts_skips_malformed "80" "53" "bad" (by decide) (by
    intro h
    exact absurd (h.2.1 'b' (by decide)) (by decide))

/-! ## Go maps as association lists -/

theorem lookup_mapDelete_self {κ β : Type} [BEq κ] [LawfulBEq κ] (m : List (κ × β)) (k : κ) :
    (mapDelete m k).lookup k = none := by
  induction m with
  | nil => rfl
  | cons e es ih =>
    obtain ⟨a, b⟩ := e
    unfold mapDelete at ih ⊢
    by_cases h : a = k
    · simp [List.filter_cons, h, ih]
    · have h' : (k == a) = false := by simpa using fun e' => h e'.symm
      have h2 : (a != k) = true := by simpa using h
      rw [List.filter_cons, if_pos h2, List.lookup_cons, h']
      exact ih

theorem lookup_mapDelete_of_ne {κ β : Type} [BEq κ] [LawfulBEq κ] (m : List (κ × β))
    (k y : κ) (h : y ≠ k) : (mapDelete m k).lookup y = m.lookup y := by
  induction m with
  | nil => rfl
  | cons e es ih =>
    obtain ⟨a, b⟩ := e
    unfold mapDelete at ih ⊢
    by_cases he : a = k
    · have h' : (y == a) = false := by simpa [he] using h
      have h2 : ¬ (a != k) = true := by simpa using he
      rw [List.filter_cons, if_neg h2, List.lookup_cons, h']
      exact ih
    · have h2 : (a != k) = true := by simpa using he
      rw [List.filter_cons, if_pos h2, List.lookup_cons, List.lookup_cons, ih]

theorem lookup_mapSet_self {κ β : Type} [BEq κ] [LawfulBEq κ] (m : List (κ × β)) (k : κ)
    (v : β) : (mapSet m k v).lookup k = some v := by
  simp [mapSet, List.lookup_cons]

theorem lookup_mapSet_of_ne {κ β : Type} [BEq κ] [LawfulBEq κ] (m : List (κ × β))
    (k y : κ) (v : β) (h : y ≠ k) : (mapSet m k v).lookup y = m.lookup y := by
  have h' : (y == k) = false := by simpa using h
  have := lookup_mapDelete_of_ne m k y h
  unfold mapDelete at this
  rw [mapSet, List.lookup_cons, h']
  exact this

/-! ## C4, C5: `handleEvent` -/

theorem hasPrefix_start_excl (a : String) (h : strings.HasPrefix a "start" = true) :
    strings.HasPrefix a "stop" = false ∧ strings.HasPrefix a "die" = false ∧
      strings.HasPrefix a "kill" = false := by
  unfold strings.HasPrefix at *
  generalize a.toList = l at *
  match l with
  | [] => simp [List.isPrefixOf] at h
  | [_] => simp [List.isPrefixOf] at h
  | [_, _] => simp [List.isPrefixOf] at h
  | c1 :: c2 :: c3 :: r =>
    simp [List.isPrefixOf] at h ⊢
    obtain ⟨rfl, rfl, rfl, _⟩ := h
    simp

theorem handleEvent_of_stop (w : Watcher) (now : Nat → Int) (sent : Nat → Bool)
    (listing : Except String (List Container)) (event : Event)
    (hty : event.Typ = "container")
    (hstop : strings.HasPrefix (effectiveAction event) "stop" = true ∨
      strings.HasPrefix (effectiveAction event) "die" = true ∨
      strings.HasPrefix (effectiveAction event) "kill" = true) :
    handleEvent w now sent listing event =
      handleStopped w event.Actor.ID event.Time (sent 0) := by
  have hns : strings.HasPrefix (effectiveAction event) "start" = false := by
    cases hs : strings.HasPrefix (effectiveAction event) "start" with
    | false => rfl
    | true =>
      obtain ⟨h1, h2, h3⟩ := hasPrefix_start_excl _ hs
      rw [h1, h2, h3] at hstop
      simp at hstop
  have ea : (if (event.Action == "") = true then event.Status else event.Action) =
      effectiveAction event := by
    simp [effectiveAction]
  unfold handleEvent
  simp only [hty, bne_self_eq_false, Bool.false_eq_true, if_false, ea, hns]
  rcases hstop with h | h | h
  · simp [h]
  · by_cases h' : strings.HasPrefix (effectiveAction event) "stop" = true <;> simp [h, h']
  · by_cases h' : strings.HasPrefix (effectiveAction event) "stop" = true <;> simp [h, h']

theorem handleEvent_of_start (w : Watcher) (now : Nat → Int) (sent : Nat → Bool)
    (listing : Except String (List Container)) (event : Event)
    (hty : event.Typ = "container")
    (hstart : strings.HasPrefix (effectiveAction event) "start" = true) :
    handleEvent w now sent listing event =
      handleStarted w now sent listing event.Actor.ID := by
  have ea : (if (event.Action == "") = true then event.Status else event.Action) =
      effectiveAction event := by
    simp [effectiveAction]
  unfold handleEvent
  simp only [hty, bne_self_eq_false, Bool.false_eq_true, if_false, ea, hstart, if_true]

theorem handleEvent_of_other (w : Watcher) (now : Nat → Int) (sent : Nat → Bool)
    (listing : Except String (List Container)) (event : Event)
    (h1 : strings.HasPrefix (effectiveAction event) "start" = false)
    (h2 : strings.HasPrefix (effectiveAction event) "stop" = false)
    (h3 : strings.HasPrefix (effectiveAction event) "die" = false)
    (h4 : strings.HasPrefix (effectiveAction event) "kill" = false) :
    handleEvent w now sent listing event = (w, Ended.ok) := by
  have ea : (if (event.Action == "") = true then event.Status else event.Action) =
      effectiveAction event := by
    simp [effectiveAction]
  unfold handleEvent
  split
  · rfl
  · simp only [ea, h1, h2, h3, h4, Bool.or_self, Bool.false_eq_true, if_false]

/-- C4: for a container event for ID `X` whose action is classified as Stopped,
`handleEvent`, when the send is not cancelled (`sent 0 = true`), emits a Stopped
transition if and only if `X` is a key of the directory before the event; it
then emits exactly one, carrying the record stored for `X`; in both cases `X`
is not a key afterwards, the other entries are unchanged (and the runtime is
not asked anything). When the send is cancelled instead, nothing is emitted and
the directory changes in the same way. -/
theorem handleEvent_stopped (w : Watcher) (now : Nat → Int) (sent : Nat → Bool)
    (listing : Except String (List Container)) (event : Event)
    (hty : event.Typ = "container")
    (hstop : strings.HasPrefix (effectiveAction event) "stop" = true ∨
      strings.HasPrefix (effectiveAction event) "die" = true ∨
      strings.HasPrefix (effectiveAction event) "kill" = true) :
    (handleEvent w now sent listing event).1.events = w.events ++
        (match w.knownContainers.lookup event.Actor.ID with
         | some info =>
           if sent 0 then
             [{ Typ := ContainerEventType.ContainerStopped, Container := info,
                Timestamp := event.Time }]
           else []
         | none => []) ∧
      (handleEvent w now sent listing event).1.knownContainers.lookup event.Actor.ID = none ∧
      (∀ y, y ≠ event.Actor.ID →
        (handleEvent w now sent listing event).1.knownContainers.lookup y =
          w.knownContainers.lookup y) ∧
      (handleEvent w now sent listing event).1.queries = w.queries ∧
      ((handleEvent w now sent listing event).2 = Ended.ok ↔
        (sent 0 = true ∨ w.knownContainers.lookup event.Actor.ID = none)) := by
  rw [handleEvent_of_stop w now sent listing event hty hstop]
  unfold handleStopped removeKnownContainer
  cases hl : w.knownContainers.lookup event.Actor.ID with
  | none =>
    refine ⟨by simp, lookup_mapDelete_self _ _, fun y hy => lookup_mapDelete_of_ne _ _ _ hy,
      rfl, by simp⟩
  | some info =>
    cases hs : sent 0 with
    | true =>
      refine ⟨rfl, lookup_mapDelete_self _ _, fun y hy => lookup_mapDelete_of_ne _ _ _ hy,
        rfl, by simp⟩
    | false =>
      refine ⟨by simp, lookup_mapDelete_self _ _, fun y hy => lookup_mapDelete_of_ne _ _ _ hy,
        rfl, by simp⟩

theorem handleEvent_stopped_witness :
    (handleEvent
        { config := ⟨"bridge", ""⟩
          knownContainers := [("c1", ⟨"c1", "web", "10.0.0.5", "bridge", [], []⟩)]
          events := [], queries := [] }
        (fun _ => 0) (fun _ => true) (Except.ok [])
        ⟨"container", "die", ⟨"c1", []⟩, 7, ""⟩).1.events =
      [⟨ContainerEventType.ContainerStopped, ⟨"c1", "web", "10.0.0.5", "bridge", [], []⟩, 7⟩] :=
  (handleEvent_stopped
      { config := ⟨"bridge", ""⟩
        knownContainers := [("c1", ⟨"c1", "web", "10.0.0.5", "bridge", [], []⟩)]
        events := [], queries := [] }
      (fun _ => 0) (fun _ => true) (Except.ok [])
      ⟨"container", "die", ⟨"c1", []⟩, 7, ""⟩ rfl (Or.inr (Or.inl (by decide)))).1

/-- C5: for a raw event of type `container`, the effective action is the field
`Action` when it is not empty and `Status` otherwise; the event is handled as
Started exactly when the effective action has the prefix `start`, as Stopped
exactly when it has the prefix `stop`, `die` or `kill` (the two cases exclude
each other), and otherwise it is discarded: the state (directory, transitions,
requests to the runtime) is unchanged. -/
theorem handleEvent_classification (w : Watcher) (now : Nat → Int) (sent : Nat → Bool)
    (listing : Except String (List Container)) (event : Event)
    (hty : event.Typ = "container") :
    (strings.HasPrefix (effectiveAction event) "start" = true →
        handleEvent w now sent listing event =
          handleStarted w now sent listing event.Actor.ID) ∧
      (strings.HasPrefix (effectiveAction event) "stop" = true ∨
        strings.HasPrefix (effectiveAction event) "die" = true ∨
        strings.HasPrefix (effectiveAction event) "kill" = true →
        handleEvent w now sent listing event =
          handleStopped w event.Actor.ID event.Time (sent 0)) ∧
      (strings.HasPrefix (effectiveAction event) "start" = false →
        strings.HasPrefix (effectiveAction event) "stop" = false →
        strings.HasPrefix (effectiveAction event) "die" = false →
        strings.HasPrefix (effectiveAction event) "kill" = false →
        handleEvent w now sent listing event = (w, Ended.ok)) ∧
      ¬ (strings.HasPrefix (effectiveAction event) "start" = true ∧
        (strings.HasPrefix (effectiveAction event) "stop" = true ∨
          strings.HasPrefix (effectiveAction event) "die" = true ∨
          strings.HasPrefix (effectiveAction event) "kill" = true)) ∧
      (event.Action ≠ "" → effectiveAction event = event.Action) ∧
      (event.Action = "" → effectiveAction event = event.Status) := by
  refine ⟨handleEvent_of_start w now sent listing event hty,
    handleEvent_of_stop w now sent listing event hty,
    handleEvent_of_other w now sent listing event, ?_, ?_, ?_⟩
  · rintro ⟨hs, h⟩
    obtain ⟨h1, h2, h3⟩ := hasPrefix_start_excl _ hs
    rw [h1, h2, h3] at h
    simp at h
  · intro h; simp [effectiveAction, h]
  · intro h; simp [effectiveAction, h]

theorem handleEvent_classification_witness :
    handleEvent (NewWatcher ⟨"bridge", ""⟩) (fun _ => 0) (fun _ => true) (Except.ok [])
        ⟨"container", "", ⟨"c1", []⟩, 7, "pause"⟩ = (NewWatcher ⟨"bridge", ""⟩, Ended.ok) :=
  (handleEvent_classification (NewWatcher ⟨"bridge", ""⟩) (fun _ => 0) (fun _ => true)
      (Except.ok []) ⟨"container", "", ⟨"c1", []⟩, 7, "pause"⟩ rfl).2.2.1
    (by decide) (by decide) (by decide) (by decide)

/-! ## C6, C7, C8: membership test, `processContainer`, discovery -/

theorem shouldWatch_network (w : Watcher) (c : Container) (h : shouldWatch w c = true) :
    ∃ ns nets, c.NetworkSettings = some ns ∧ ns.Networks = some nets ∧
      (nets.lookup w.config.NetworkName).isSome = true := by
  unfold shouldWatch at h
  split at h
  · cases h
  · cases hns : c.NetworkSettings with
    | none => simp [hns] at h
    | some ns =>
      cases hn : ns.Networks with
      | none => simp [hns, hn] at h
      | some nets =>
        simp only [hns, hn] at h
        exact ⟨ns, nets, rfl, hn, h⟩

/-- C6: `shouldWatch` returns true if and only if the per-network map of the
container contains the watched network name and either no enable label is
configured or the container carries the enable label with a value equal to
`true` up to letter case. -/
theorem shouldWatch_iff (w : Watcher) (c : Container) :
    shouldWatch w c = true ↔
      (∃ ns nets, c.NetworkSettings = some ns ∧ ns.Networks = some nets ∧
        (nets.lookup w.config.NetworkName).isSome = true) ∧
      (w.config.EnableLabel = "" ∨
        ∃ v, c.Labels.lookup w.config.EnableLabel = some v ∧
          v.toList.map Char.toLower = ['t', 'r', 'u', 'e']) := by
  have hfold : ∀ v : List Char, strings.EqualFold v ['t', 'r', 'u', 'e'] = true ↔
      v.map Char.toLower = ['t', 'r', 'u', 'e'] := by
    intro v
    unfold strings.EqualFold
    have : (['t', 'r', 'u', 'e'].map Char.toLower) = ['t', 'r', 'u', 'e'] := by decide
    rw [this]
    simp
  have htrue : "true".toList = ['t', 'r', 'u', 'e'] := by decide
  have hnet : (match c.NetworkSettings with
      | some ns =>
        match ns.Networks with
        | some networks => (networks.lookup w.config.NetworkName).isSome
        | none => false
      | none => false) = true ↔
      ∃ ns nets, c.NetworkSettings = some ns ∧ ns.Networks = some nets ∧
        (nets.lookup w.config.NetworkName).isSome = true := by
    cases hns : c.NetworkSettings with
    | none => simp
    | some ns =>
      cases hn : ns.Networks with
      | none => simp [hn]
      | some nets => simp [hn]
  unfold shouldWatch
  rw [← hnet, htrue]
  by_cases hl : w.config.EnableLabel = ""
  · simp [hl]
  · have hl' : (w.config.EnableLabel != "") = true := by simpa using hl
    simp only [hl', Bool.true_and, hl, false_or]
    cases hv : c.Labels.lookup w.config.EnableLabel with
    | none => simp
    | some v =>
      by_cases hf : strings.EqualFold v.toList ['t', 'r', 'u', 'e'] = true
      · have hf' := (hfold _).1 hf
        simp only [hf, Bool.not_true, Bool.false_eq_true, if_false, Option.some.injEq,
          exists_eq_left', hf', and_true]
      · have hf' : ¬ v.toList.map Char.toLower = ['t', 'r', 'u', 'e'] :=
          fun h => hf ((hfold _).2 h)
        simp only [hf, Bool.not_false, if_true, Bool.false_eq_true, Option.some.injEq,
          exists_eq_left', hf', and_false]

theorem shouldWatch_congr (w w' : Watcher) (h : w'.config = w.config) (c : Container) :
    shouldWatch w' c = shouldWatch w c := by
  unfold shouldWatch
  rw [h]

theorem extractContainerInfo_congr (w w' : Watcher) (h : w'.config = w.config)
    (c : Container) : extractContainerInfo w' c = extractContainerInfo w c := by
  unfold extractContainerInfo
  rw [h]

theorem extractContainerInfo_ID (w : Watcher) (c : Container) (info : ContainerInfo)
    (h : extractContainerInfo w c = some info) : info.ID = c.ID := by
  unfold extractContainerInfo at h
  dsimp only at h
  split at h
  · cases h
  · simp only [Option.some.injEq] at h
    rw [← h]

/-- The call of `extractContainerInfo` panics exactly when the entry of the
watched network in the per-network map is a nil pointer. -/
theorem extractContainerInfo_eq_none_iff (w : Watcher) (c : Container) :
    extractContainerInfo w c = none ↔
      ∃ ns nets, c.NetworkSettings = some ns ∧ ns.Networks = some nets ∧
        nets.lookup w.config.NetworkName = some none := by
  unfold extractContainerInfo
  dsimp only
  cases hns : c.NetworkSettings with
  | none => simp
  | some ns =>
    cases hn : ns.Networks with
    | none => simp [hn]
    | some nets =>
      cases hl : nets.lookup w.config.NetworkName with
      | none => simp [hn, hl]
      | some ep =>
        cases ep with
        | none => simp [hn, hl]
        | some e => simp [hn, hl]

theorem processContainer_of_not_watch (w : Watcher) (now : Int) (sent : Bool) (c : Container)
    (h : shouldWatch w c = false) : processContainer w now sent c = (w, Ended.ok) := by
  simp [processContainer, h]

theorem processContainer_of_panic (w : Watcher) (now : Int) (sent : Bool) (c : Container)
    (h : shouldWatch w c = true) (hx : extractContainerInfo w c = none) :
    processContainer w now sent c = (w, Ended.panic) := by
  simp [processContainer, h, hx]

/-- The effect of `processContainer` on a container that passes `shouldWatch`
and for which a record is built, when the transition is sent: the record is
stored under the ID and one Started transition with the record is appended. -/
theorem processContainer_of_sent (w : Watcher) (now : Int) (c : Container)
    (info : ContainerInfo) (h : shouldWatch w c = true)
    (hx : extractContainerInfo w c = some info) :
    processContainer w now true c =
      ({ w with
         knownContainers := mapSet w.knownContainers c.ID info
         events := w.events ++
           [{ Typ := ContainerEventType.ContainerStarted, Container := info,
              Timestamp := now }] }, Ended.ok) := by
  simp [processContainer, h, hx, addKnownContainer]

/-- The effect of `processContainer` when its `select` is cancelled: the
record is stored, no transition is appended. -/
theorem processContainer_of_cancelled (w : Watcher) (now : Int) (c : Container)
    (info : ContainerInfo) (h : shouldWatch w c = true)
    (hx : extractContainerInfo w c = some info) :
    processContainer w now false c =
      ({ w with knownContainers := mapSet w.knownContainers c.ID info }, Ended.cancelled) := by
  simp [processContainer, h, hx, addKnownContainer]

theorem processContainer_cases (w : Watcher) (now : Int) (sent : Bool) (c : Container) :
    processContainer w now sent c = (w, Ended.ok) ∨
      processContainer w now sent c = (w, Ended.panic) ∨
      (∃ info, extractContainerInfo w c = some info ∧
        processContainer w now sent c =
          ({ w with
             knownContainers := mapSet w.knownContainers c.ID info
             events := w.events ++
               [{ Typ := ContainerEventType.ContainerStarted, Container := info,
                  Timestamp := now }] }, Ended.ok)) ∨
      (∃ info, extractContainerInfo w c = some info ∧
        processContainer w now sent c =
          ({ w with knownContainers := mapSet w.knownContainers c.ID info },
            Ended.cancelled)) := by
  cases h : shouldWatch w c with
  | false => exact Or.inl (processContainer_of_not_watch w now sent c h)
  | true =>
    cases hx : extractContainerInfo w c with
    | none => exact Or.inr (Or.inl (processContainer_of_panic w now sent c h hx))
    | some info =>
      cases sent with
      | true => exact Or.inr (Or.inr (Or.inl ⟨info, rfl, processContainer_of_sent w now c info h hx⟩))
      | false =>
        exact Or.inr (Or.inr (Or.inr ⟨info, rfl, processContainer_of_cancelled w now c info h hx⟩))

/-- C7 (evaluation at the failing input): a container whose entry for the
watched network is a nil pointer (`"bridge": null`) passes `shouldWatch`, and
`processContainer` panics on it in `extractContainerInfo`: although
`shouldWatch` holds and the send is not cancelled, no record is inserted and
no Started transition is enqueued. -/
theorem processContainer_nil_endpoint :
    shouldWatch (NewWatcher ⟨"bridge", ""⟩)
        { ID := "0123456789abcdef", Names := ["/web"], Labels := [], State := "running",
          Status := "Up", NetworkSettings := some ⟨some [("bridge", none)]⟩,
          Ports := [⟨"0.0.0.0", 8080, 8080, "tcp"⟩] } = true ∧
      processContainer (NewWatcher ⟨"bridge", ""⟩) 5 true
        { ID := "0123456789abcdef", Names := ["/web"], Labels := [], State := "running",
          Status := "Up", NetworkSettings := some ⟨some [("bridge", none)]⟩,
          Ports := [⟨"0.0.0.0", 8080, 8080, "tcp"⟩] } =
        (NewWatcher ⟨"bridge", ""⟩, Ended.panic) := by
  decide

/-- C8 (evaluation at the failing input): a startup listing of three
containers with distinct IDs, all passing `shouldWatch`, the second with a nil
pointer as its entry for the watched network: the discovery panics at the
second container, so that the second and the third get no Started transition
and no entry in the directory, although they pass `shouldWatch`, the listing
succeeds and no send is cancelled. -/
theorem discoverExistingContainers_nil_endpoint :
    ([{ ID := "c1", Names := ["/web"], Labels := [], State := "running", Status := "Up",
        NetworkSettings := some ⟨some [("bridge", some ⟨"10.0.0.5", "", "", "", 16⟩)]⟩,
        Ports := [] },
      { ID := "c2", Names := ["/db"], Labels := [], State := "running", Status := "Up",
        NetworkSettings := some ⟨some [("bridge", none)]⟩, Ports := [] },
      { ID := "c3", Names := ["/app"], Labels := [], State := "running", Status := "Up",
        NetworkSettings := some ⟨some [("bridge", some ⟨"10.0.0.7", "", "", "", 16⟩)]⟩,
        Ports := [] }] : List Container).all (shouldWatch (NewWatcher ⟨"bridge", ""⟩)) = true ∧
      discoverExistingContainers (NewWatcher ⟨"bridge", ""⟩) (fun _ => 3) (fun _ => true)
        (Except.ok
          [{ ID := "c1", Names := ["/web"], Labels := [], State := "running", Status := "Up",
             NetworkSettings := some ⟨some [("bridge", some ⟨"10.0.0.5", "", "", "", 16⟩)]⟩,
             Ports := [] },
           { ID := "c2", Names := ["/db"], Labels := [], State := "running", Status := "Up",
             NetworkSettings := some ⟨some [("bridge", none)]⟩, Ports := [] },
           { ID := "c3", Names := ["/app"], Labels := [], State := "running", Status := "Up",
             NetworkSettings := some ⟨some [("bridge", some ⟨"10.0.0.7", "", "", "", 16⟩)]⟩,
             Ports := [] }]) =
        ({ config := ⟨"bridge", ""⟩
           knownContainers := [("c1", ⟨"c1", "web", "10.0.0.5", "bridge", [], []⟩)]
           events :=
             [⟨ContainerEventType.ContainerStarted,
               ⟨"c1", "web", "10.0.0.5", "bridge", [], []⟩, 3⟩]
           queries := [[("network", ["bridge"])]] }, Ended.panic) := by
  decide

/-! ## C3: `filterPublishedPorts` -/

/-- C3 (evaluation at the failing input): with the DNAT intents `53/tcp` and
`53/udp`, as parsed from the label value `53/tcp,53/udp`, the published mapping
`53/tcp` is kept in the result although the intent `53/tcp` is in the list: the
lookup table is keyed by the port number alone, and the later intent `53/udp`
has replaced `53/tcp`. -/
theorem filterPublishedPorts_same_port_two_protocols :
    parsePorts "53/tcp,53/udp" = [⟨53, "tcp"⟩, ⟨53, "udp"⟩] ∧
      filterPublishedPorts [⟨"0.0.0.0", 53, 53, "tcp"⟩, ⟨"0.0.0.0", 53, 53, "udp"⟩]
        [⟨53, "tcp"⟩, ⟨53, "udp"⟩] = [⟨53, "tcp"⟩] ∧
      ¬ (∀ (published : List PortMapping) (dnat : List port) (m : PortMapping),
          m ∈ published →
            ((⟨m.HostPort, m.Protocol⟩ : port) ∈ filterPublishedPorts published dnat ↔
              ¬ ∃ d ∈ dnat, d.port = m.HostPort ∧ d.protocol = m.Protocol)) := by
  refine ⟨by decide, by decide, ?_⟩
  intro h
  have := (h [⟨"0.0.0.0", 53, 53, "tcp"⟩, ⟨"0.0.0.0", 53, 53, "udp"⟩]
    [⟨53, "tcp"⟩, ⟨53, "udp"⟩] ⟨"0.0.0.0", 53, 53, "tcp"⟩ (by decide)).1 (by decide)
  exact this ⟨⟨53, "tcp"⟩, by decide, rfl, rfl⟩

/-! ## Traces of the handler -/

theorem invocations_nil : invocations [] = [] := rfl

theorem invocations_log (l m : String) (t : List Effect) :
    invocations (Effect.log l m :: t) = invocations t := rfl

theorem invocations_dial (n a : String) (t : List Effect) :
    invocations (Effect.dial n a :: t) = invocations t := rfl

theorem invocations_sleep (s : Nat) (t : List Effect) :
    invocations (Effect.sleep s :: t) = invocations t := rfl

theorem invocations_iptables (a : List String) (t : List Effect) :
    invocations (Effect.iptables a :: t) = a :: invocations t := rfl

theorem invocations_if_log (b : Bool) (l1 m1 l2 m2 : String) (t : List Effect) :
    invocations ((if b = true then Effect.log l1 m1 else Effect.log l2 m2) :: t) =
      invocations t := by
  cases b <;> rfl

theorem dials_if_log (b : Bool) (l1 m1 l2 m2 : String) (t : List Effect) :
    dials ((if b = true then Effect.log l1 m1 else Effect.log l2 m2) :: t) = dials t := by
  cases b <;> rfl

theorem invocations_append (t u : List Effect) :
    invocations (t ++ u) = invocations t ++ invocations u := by
  simp [invocations, List.filterMap_append]

theorem dials_nil : dials [] = [] := rfl

theorem dials_log (l m : String) (t : List Effect) :
    dials (Effect.log l m :: t) = dials t := rfl

theorem dials_dial (n a : String) (t : List Effect) :
    dials (Effect.dial n a :: t) = (n, a) :: dials t := rfl

theorem dials_sleep (s : Nat) (t : List Effect) :
    dials (Effect.sleep s :: t) = dials t := rfl

theorem dials_iptables (a : List String) (t : List Effect) :
    dials (Effect.iptables a :: t) = dials t := rfl

theorem dials_append (t u : List Effect) : dials (t ++ u) = dials t ++ dials u := by
  simp [dials, List.filterMap_append]

theorem invocations_tryConnectLoop (dialOk : Nat → Bool) (protocol address : String)
    (n i : Nat) : invocations (tryConnectLoop dialOk protocol address n i).1 = [] := by
  induction n generalizing i with
  | zero => rfl
  | succ n ih =>
    unfold tryConnectLoop
    by_cases h : dialOk i = true
    · simp only [h, if_true]; rfl
    · simp only [h, Bool.false_eq_true, if_false, invocations_dial, invocations_sleep]
      exact ih (i + 1)

theorem invocations_warmupReversePath (dialOk : Nat → Bool) (ip : String) (port : Nat)
    (protocol : String) : invocations (warmupReversePath dialOk ip port protocol).1 = [] := by
  unfold warmupReversePath tryConnect
  by_cases hp : port > 0
  · simp only [hp, if_true]
    by_cases hr : (tryConnectLoop dialOk protocol (ip ++ ":" ++ toString port)
        warmUpMaxAttempts 0).2 = true
    · simp only [hr, if_true, invocations_log, invocations_tryConnectLoop]
    · simp only [hr, Bool.false_eq_true, if_false, List.cons_append, invocations_log,
        invocations_append, invocations_tryConnectLoop, invocations_nil, List.append_nil]
  · simp only [hp, if_false, invocations_log, invocations_tryConnectLoop]

theorem invocations_map_log (l : List String) (f : String → String × String) :
    invocations (l.map (fun x => Effect.log (f x).1 (f x).2)) = [] := by
  induction l with
  | nil => rfl
  | cons x xs ih => simp only [List.map_cons, invocations_log, ih]

theorem dials_map_log (l : List String) (f : String → String × String) :
    dials (l.map (fun x => Effect.log (f x).1 (f x).2)) = [] := by
  induction l with
  | nil => rfl
  | cons x xs ih => simp only [List.map_cons, dials_log, ih]

theorem invocations_addIptablesDNATRules (execOk : Nat → Bool) (ip : String)
    (ps : List port) :
    invocations (addIptablesDNATRules execOk ip ps) =
      (ps.map (fun p =>
        [["-t", "nat", "-A", "PREROUTING", "-p", p.protocol, "--dport", toString p.port,
            "-j", "DNAT", "--to-destination", ip ++ ":" ++ toString p.port],
         ["-A", "FORWARD", "-p", p.protocol, "-d", ip, "--dport", toString p.port,
            "-j", "ACCEPT"]])).flatten := by
  induction ps generalizing execOk with
  | nil => rfl
  | cons p ps ih =>
    simp only [addIptablesDNATRules, iptablesDNATRule, iptablesForwardRule, List.cons_append,
      List.nil_append, invocations_log, invocations_iptables, invocations_append,
      List.map_cons, List.flatten_cons, ih, invocations_if_log]

theorem invocations_removeIptablesDNATRules (execOk : Nat → Bool) (ip : String)
    (ps : List port) :
    invocations (removeIptablesDNATRules execOk ip ps) =
      (ps.map (fun p =>
        [["-t", "nat", "-D", "PREROUTING", "-p", p.protocol, "--dport", toString p.port,
            "-j", "DNAT", "--to-destination", ip ++ ":" ++ toString p.port],
         ["-D", "FORWARD", "-p", p.protocol, "-d", ip, "--dport", toString p.port,
            "-j", "ACCEPT"]])).flatten := by
  induction ps generalizing execOk with
  | nil => rfl
  | cons p ps ih =>
    simp only [removeIptablesDNATRules, iptablesDNATRule, iptablesForwardRule,
      List.cons_append, List.nil_append, invocations_log, invocations_iptables,
      invocations_append, List.map_cons, List.flatten_cons, ih, invocations_if_log]

theorem invocations_addIptablesMarkRules (h : Handler) (execOk : Nat → Bool)
    (ps : List port) :
    invocations (addIptablesMarkRules h execOk ps) =
      ps.map (fun p =>
        ["-t", "mangle", "-A", "PREROUTING", "-p", p.protocol, "--sport", toString p.port,
          "-j", "MARK", "--set-mark", h.iptablesMangleMarkPublishedPorts]) := by
  induction ps generalizing execOk with
  | nil => rfl
  | cons p ps ih =>
    simp only [addIptablesMarkRules, iptablesMarkRule, List.cons_append,
      List.nil_append, invocations_log, invocations_iptables,
      invocations_append, List.map_cons, ih, invocations_if_log]

theorem invocations_removeIptablesMarkRules (h : Handler) (execOk : Nat → Bool)
    (ps : List port) :
    invocations (removeIptablesMarkRules h execOk ps) =
      ps.map (fun p =>
        ["-t", "mangle", "-D", "PREROUTING", "-p", p.protocol, "--sport", toString p.port,
          "-j", "MARK", "--set-mark", h.iptablesMangleMarkPublishedPorts]) := by
  induction ps generalizing execOk with
  | nil => rfl
  | cons p ps ih =>
    simp only [removeIptablesMarkRules, iptablesMarkRule, List.cons_append,
      List.nil_append, invocations_log, invocations_iptables,
      invocations_append, List.map_cons, ih, invocations_if_log]

theorem dials_removeIptablesDNATRules (execOk : Nat → Bool) (ip : String) (ps : List port) :
    dials (removeIptablesDNATRules execOk ip ps) = [] := by
  induction ps generalizing execOk with
  | nil => rfl
  | cons p ps ih =>
    simp only [removeIptablesDNATRules, iptablesDNATRule, iptablesForwardRule,
      List.cons_append, List.nil_append, dials_log, dials_iptables, dials_append, ih,
      dials_if_log]

theorem dials_removeIptablesMarkRules (h : Handler) (execOk : Nat → Bool) (ps : List port) :
    dials (removeIptablesMarkRules h execOk ps) = [] := by
  induction ps generalizing execOk with
  | nil => rfl
  | cons p ps ih =>
    simp only [removeIptablesMarkRules, iptablesMarkRule, List.cons_append, List.nil_append,
      dials_log, dials_iptables, dials_append, ih, dials_if_log]

theorem dials_addIptablesDNATRules (execOk : Nat → Bool) (ip : String) (ps : List port) :
    dials (addIptablesDNATRules execOk ip ps) = [] := by
  induction ps generalizing execOk with
  | nil => rfl
  | cons p ps ih =>
    simp only [addIptablesDNATRules, iptablesDNATRule, iptablesForwardRule,
      List.cons_append, List.nil_append, dials_log, dials_iptables, dials_append, ih,
      dials_if_log]

theorem dials_addIptablesMarkRules (h : Handler) (execOk : Nat → Bool) (ps : List port) :
    dials (addIptablesMarkRules h execOk ps) = [] := by
  induction ps generalizing execOk with
  | nil => rfl
  | cons p ps ih =>
    simp only [addIptablesMarkRules, iptablesMarkRule, List.cons_append, List.nil_append,
      dials_log, dials_iptables, dials_append, ih, dials_if_log]

theorem invocations_handleContainerStarted (h : Handler) (dialOk execOk : Nat → Bool)
    (event : ContainerEvent) (t : List Effect)
    (ht : handleContainerStarted h dialOk execOk event = some t) :
    invocations t =
      if event.Container.IPAddress != "" then
        ((dnatIntents h event.Container).map (fun p =>
          [["-t", "nat", "-A", "PREROUTING", "-p", p.protocol, "--dport", toString p.port,
              "-j", "DNAT", "--to-destination",
              event.Container.IPAddress ++ ":" ++ toString p.port],
           ["-A", "FORWARD", "-p", p.protocol, "-d", event.Container.IPAddress,
              "--dport", toString p.port, "-j", "ACCEPT"]])).flatten ++
        (markIntents h event.Container).map (fun p =>
          ["-t", "mangle", "-A", "PREROUTING", "-p", p.protocol, "--sport", toString p.port,
            "-j", "MARK", "--set-mark", h.iptablesMangleMarkPublishedPorts])
      else [] := by
  unfold handleContainerStarted at ht
  by_cases hid : event.Container.ID.utf8ByteSize < 12
  · simp [hid] at ht
  · simp only [hid, if_false, Option.some.injEq] at ht
    subst ht
    rw [invocations_log]
    cases hip : (event.Container.IPAddress != "") with
    | false => simp only [Bool.false_eq_true, if_false, invocations_nil]
    | true =>
      simp only [if_true, invocations_append, invocations_warmupReversePath,
        List.nil_append]
      unfold markIntents dnatIntents
      cases hm : (h.iptablesMangleMarkPublishedPorts != "") <;>
        cases hl : (h.iptablesDnatPortsLabel != "") <;>
        simp only [Bool.false_eq_true, if_true, if_false, invocations_nil,
          invocations_addIptablesMarkRules, List.map_nil, List.flatten_nil, List.nil_append,
          List.append_nil]
      · cases hv : event.Container.Labels.lookup h.iptablesDnatPortsLabel with
        | none => simp only [invocations_nil, List.map_nil, List.flatten_nil]
        | some v =>
          have hw : invocations ((parsePortsWarnings v).map
              (fun _ => Effect.log "WARN" "Invalid port number")) = [] :=
            invocations_map_log _ (fun _ => ("WARN", "Invalid port number"))
          simp only [invocations_append, hw, invocations_addIptablesDNATRules,
            List.nil_append]
      · cases hv : event.Container.Labels.lookup h.iptablesDnatPortsLabel with
        | none => simp only [invocations_nil, List.map_nil, List.flatten_nil, List.nil_append]
        | some v =>
          have hw : invocations ((parsePortsWarnings v).map
              (fun _ => Effect.log "WARN" "Invalid port number")) = [] :=
            invocations_map_log _ (fun _ => ("WARN", "Invalid port number"))
          simp only [invocations_append, hw, invocations_addIptablesDNATRules,
            List.nil_append]

theorem invocations_handleContainerStopped (h : Handler) (execOk : Nat → Bool)
    (event : ContainerEvent) (t : List Effect)
    (ht : handleContainerStopped h execOk event = some t) :
    invocations t =
        (if event.Container.IPAddress != "" then
          ((dnatIntents h event.Container).map (fun p =>
            [["-t", "nat", "-D", "PREROUTING", "-p", p.protocol, "--dport", toString p.port,
                "-j", "DNAT", "--to-destination",
                event.Container.IPAddress ++ ":" ++ toString p.port],
             ["-D", "FORWARD", "-p", p.protocol, "-d", event.Container.IPAddress,
                "--dport", toString p.port, "-j", "ACCEPT"]])).flatten ++
          (markIntents h event.Container).map (fun p =>
            ["-t", "mangle", "-D", "PREROUTING", "-p", p.protocol, "--sport",
              toString p.port, "-j", "MARK", "--set-mark",
              h.iptablesMangleMarkPublishedPorts])
        else []) ∧
      dials t = [] := by
  unfold handleContainerStopped at ht
  by_cases hid : event.Container.ID.utf8ByteSize < 12
  · simp [hid] at ht
  · simp only [hid, if_false, Option.some.injEq] at ht
    subst ht
    rw [invocations_log, dials_log]
    cases hip : (event.Container.IPAddress != "") with
    | false => simp only [Bool.false_eq_true, if_false, invocations_nil, dials_nil, and_self]
    | true =>
      simp only [if_true, invocations_append, dials_append]
      unfold markIntents dnatIntents
      cases hm : (h.iptablesMangleMarkPublishedPorts != "") <;>
        cases hl : (h.iptablesDnatPortsLabel != "") <;>
        simp only [Bool.false_eq_true, if_true, if_false, invocations_nil, dials_nil,
          invocations_removeIptablesMarkRules, dials_removeIptablesMarkRules,
          List.map_nil, List.flatten_nil, List.nil_append, List.append_nil, and_self]
      · cases hv : event.Container.Labels.lookup h.iptablesDnatPortsLabel with
        | none => simp only [invocations_nil, dials_nil, List.map_nil, List.flatten_nil, and_self]
        | some v =>
          have hw : invocations ((parsePortsWarnings v).map
              (fun _ => Effect.log "WARN" "Invalid port number")) = [] :=
            invocations_map_log _ (fun _ => ("WARN", "Invalid port number"))
          have hw' : dials ((parsePortsWarnings v).map
              (fun _ => Effect.log "WARN" "Invalid port number")) = [] :=
            dials_map_log _ (fun _ => ("WARN", "Invalid port number"))
          simp only [invocations_append, dials_append, hw, hw',
            invocations_removeIptablesDNATRules, dials_removeIptablesDNATRules,
            List.nil_append, and_self]
      · cases hv : event.Container.Labels.lookup h.iptablesDnatPortsLabel with
        | none =>
          simp only [invocations_nil, dials_nil, List.map_nil, List.flatten_nil,
            List.nil_append, and_self]
        | some v =>
          have hw : invocations ((parsePortsWarnings v).map
              (fun _ => Effect.log "WARN" "Invalid port number")) = [] :=
            invocations_map_log _ (fun _ => ("WARN", "Invalid port number"))
          have hw' : dials ((parsePortsWarnings v).map
              (fun _ => Effect.log "WARN" "Invalid port number")) = [] :=
            dials_map_log _ (fun _ => ("WARN", "Invalid port number"))
          simp only [invocations_append, dials_append, hw, hw',
            invocations_removeIptablesDNATRules, dials_removeIptablesDNATRules,
            List.nil_append, and_self]

/-! ## C9: Stopped processing mirrors Started processing -/

/-- C9: for every handler configuration and container snapshot, the invocations
of the firewall tool issued by Stopped processing are those issued by Started
processing for the same snapshot with the add action `-A` replaced by the
delete action `-D`, all other arguments (rule kind, protocol, port, container
IP, mark value) and the order being the same, whatever the outcomes of the
connection attempts and of the invocations; and Stopped processing makes no
connection attempt. -/
theorem handleContainerStopped_mirrors_started (h : Handler)
    (dialOk execOk execOk' : Nat → Bool) (event : ContainerEvent) :
    (handleContainerStopped h execOk' event).map invocations =
        (handleContainerStarted h dialOk execOk event).map
          (fun t => (invocations t).map (withAction "-D")) ∧
      (∀ t, handleContainerStarted h dialOk execOk event = some t →
        ∀ a ∈ invocations t, withAction "-A" a = a) ∧
      (∀ t, handleContainerStopped h execOk' event = some t → dials t = []) := by
  refine ⟨?_, ?_, fun t ht => (invocations_handleContainerStopped h execOk' event t ht).2⟩
  · cases h1 : handleContainerStarted h dialOk execOk event with
    | none =>
      have : handleContainerStopped h execOk' event = none := by
        unfold handleContainerStarted at h1
        unfold handleContainerStopped
        by_cases hid : event.Container.ID.utf8ByteSize < 12
        · simp [hid]
        · simp [hid] at h1
      rw [this]
      rfl
    | some t1 =>
      cases h2 : handleContainerStopped h execOk' event with
      | none =>
        unfold handleContainerStarted at h1
        unfold handleContainerStopped at h2
        by_cases hid : event.Container.ID.utf8ByteSize < 12
        · simp [hid] at h1
        · simp [hid] at h2
      | some t2 =>
        have e1 := invocations_handleContainerStarted h dialOk execOk event t1 h1
        have e2 := (invocations_handleContainerStopped h execOk' event t2 h2).1
        simp only [Option.map_some', Option.some.injEq]
        rw [e1, e2]
        cases hip : (event.Container.IPAddress != "") with
        | false => simp
        | true =>
          simp only [if_true, List.map_append, List.map_flatten, List.map_map]
          congr 1
  · intro t ht a ha
    rw [invocations_handleContainerStarted h dialOk execOk event t ht] at ha
    cases hip : (event.Container.IPAddress != "") with
    | false => simp [hip] at ha
    | true =>
      simp only [hip, if_true, List.mem_append, List.mem_flatten, List.mem_map] at ha
      rcases ha with ⟨l, ⟨p, _, rfl⟩, hl⟩ | ⟨p, _, rfl⟩
      · simp only [List.mem_cons, List.mem_singleton, List.not_mem_nil, or_false] at hl
        rcases hl with rfl | rfl <;> rfl
      · rfl

theorem handleContainerStopped_mirrors_started_witness :
    (handleContainerStopped ⟨"2", "dnat"⟩ (fun _ => false)
        ⟨ContainerEventType.ContainerStopped,
          ⟨"0123456789abcdef", "web", "10.0.0.5", "bridge",
            [⟨"0.0.0.0", 8080, 8080, "tcp"⟩, ⟨"0.0.0.0", 9090, 90, "udp"⟩],
            [("dnat", "8080")]⟩, 0⟩).map invocations =
      some
        [["-t", "nat", "-D", "PREROUTING", "-p", "tcp", "--dport", "8080", "-j", "DNAT",
            "--to-destination", "10.0.0.5:8080"],
         ["-D", "FORWARD", "-p", "tcp", "-d", "10.0.0.5", "--dport", "8080", "-j", "ACCEPT"],
         ["-t", "mangle", "-D", "PREROUTING", "-p", "udp", "--sport", "9090", "-j", "MARK",
            "--set-mark", "2"]] :=
  (handleContainerStopped_mirrors_started ⟨"2", "dnat"⟩ (fun _ => true) (fun _ => true)
      (fun _ => false)
      ⟨ContainerEventType.ContainerStopped,
        ⟨"0123456789abcdef", "web", "10.0.0.5", "bridge",
          [⟨"0.0.0.0", 8080, 8080, "tcp"⟩, ⟨"0.0.0.0", 9090, 90, "udp"⟩],
          [("dnat", "8080")]⟩, 0⟩).1.trans (by decide)

theorem dials_tryConnectLoop_mem (dialOk : Nat → Bool) (protocol address : String)
    (n i : Nat) :
    ∀ d ∈ dials (tryConnectLoop dialOk protocol address n i).1, d = (protocol, address) := by
  induction n generalizing i with
  | zero => intro d hd; simp [tryConnectLoop, dials] at hd
  | succ n ih =>
    intro d hd
    unfold tryConnectLoop at hd
    by_cases h : dialOk i = true
    · simp only [h, if_true, dials_dial, dials_log, dials_nil, List.mem_singleton] at hd
      exact hd
    · simp only [h, Bool.false_eq_true, if_false, dials_dial, dials_sleep,
        List.mem_cons] at hd
      rcases hd with hd | hd
      · exact hd
      · exact ih (i + 1) d hd

theorem dials_tryConnect_head (dialOk : Nat → Bool) (protocol address : String) :
    (dials (tryConnect dialOk protocol address).1).head? = some (protocol, address) := by
  unfold tryConnect
  rw [show warmUpMaxAttempts = 59 + 1 from rfl, tryConnectLoop]
  by_cases h : dialOk 0 = true
  · simp only [h, if_true, dials_dial, List.head?_cons]
  · simp only [h, Bool.false_eq_true, if_false, dials_dial, List.head?_cons]

/-! ## C10: the end-to-end example -/

/-- The scenario of the end-to-end example when the slice `c.ID[:12]` is in
range (an ID of at least 12 bytes): for a handler with a DNAT-ports label and a
mark value configured and a container with IP `10.0.0.5`, one published mapping
`8080/tcp` (host port 8080, container port 8080) and DNAT label value `8080`,
Started processing first warms up, its first connection attempt being at
`10.0.0.5:8080` over tcp (the other attempts are at the same address, or at
`10.0.0.5` over ICMP; their order is the subject of
`warmupReversePath_cases`), and then issues exactly two invocations of the
firewall tool: one nat-table DNAT install for (tcp, dport 8080) to
`10.0.0.5:8080` and one FORWARD accept install for (tcp, destination
`10.0.0.5`, dport 8080); no mark install. -/
theorem handleContainerStarted_dnat_example_long_id (h : Handler) (dialOk execOk : Nat → Bool)
    (event : ContainerEvent) (hostIP : String)
    (hl : h.iptablesDnatPortsLabel ≠ "")
    (hm : h.iptablesMangleMarkPublishedPorts ≠ "")
    (hid : 12 ≤ event.Container.ID.utf8ByteSize)
    (hip : event.Container.IPAddress = "10.0.0.5")
    (hports : event.Container.Ports = [⟨hostIP, 8080, 8080, "tcp"⟩])
    (hv : event.Container.Labels.lookup h.iptablesDnatPortsLabel = some "8080") :
    ∃ warm rules, handleContainerStarted h dialOk execOk event = some (warm ++ rules) ∧
      (dials warm).head? = some ("tcp", "10.0.0.5:8080") ∧
      (∀ d ∈ dials warm, d = ("tcp", "10.0.0.5:8080") ∨ d = ("ip4:icmp", "10.0.0.5")) ∧
      invocations warm = [] ∧
      dials rules = [] ∧
      invocations rules =
        [["-t", "nat", "-A", "PREROUTING", "-p", "tcp", "--dport", "8080", "-j", "DNAT",
            "--to-destination", "10.0.0.5:8080"],
         ["-A", "FORWARD", "-p", "tcp", "-d", "10.0.0.5", "--dport", "8080", "-j",
            "ACCEPT"]] := by
  have hl' : (h.iptablesDnatPortsLabel != "") = true := by simpa using hl
  have hm' : (h.iptablesMangleMarkPublishedPorts != "") = true := by simpa using hm
  have hid' : ¬ event.Container.ID.utf8ByteSize < 12 := by omega
  have hpp : parsePorts "8080" = [⟨8080, "tcp"⟩] := by decide
  have hf : filterPublishedPorts [⟨hostIP, 8080, 8080, "tcp"⟩] [⟨8080, "tcp"⟩] = [] := by
    simp [filterPublishedPorts, mapSet, List.lookup]
  have hw : parsePortsWarnings "8080" = [] := by decide
  have haddr : "10.0.0.5" ++ ":" ++ toString 8080 = "10.0.0.5:8080" := by decide
  have h80 : toString 8080 = "8080" := by decide
  refine ⟨Effect.log "INFO" "Handling container started" ::
      (warmupReversePath dialOk "10.0.0.5" 8080 "tcp").1,
    addIptablesDNATRules execOk "10.0.0.5" [⟨8080, "tcp"⟩], ?_, ?_, ?_, ?_, ?_, ?_⟩
  · unfold handleContainerStarted
    simp only [hid', if_false, hip, hports, hl', hm', hv, if_true, hpp, hw, hf, List.map_nil,
      List.nil_append, addIptablesMarkRules, List.append_nil, List.cons_append]
    rfl
  · rw [dials_log]
    unfold warmupReversePath
    simp only [show (8080 : Nat) > 0 by decide, if_true, haddr]
    by_cases hr : (tryConnect dialOk "tcp" "10.0.0.5:8080").2 = true
    · simp only [hr, if_true, dials_log]
      exact dials_tryConnect_head _ _ _
    · simp only [hr, Bool.false_eq_true, if_false, List.cons_append, dials_log, dials_append]
      have := dials_tryConnect_head dialOk "tcp" "10.0.0.5:8080"
      cases hd : dials (tryConnect dialOk "tcp" "10.0.0.5:8080").1 with
      | nil => rw [hd] at this; cases this
      | cons x xs => rw [hd] at this; simpa using this
  · rw [dials_log]
    unfold warmupReversePath
    simp only [show (8080 : Nat) > 0 by decide, if_true, haddr]
    intro d hd
    by_cases hr : (tryConnect dialOk "tcp" "10.0.0.5:8080").2 = true
    · simp only [hr, if_true, dials_log] at hd
      exact Or.inl (dials_tryConnectLoop_mem _ _ _ _ _ d hd)
    · simp only [hr, Bool.false_eq_true, if_false, List.cons_append, dials_log, dials_append,
        List.nil_append, dials_nil, List.mem_append, List.not_mem_nil, or_false] at hd
      rcases hd with hd | hd
      · exact Or.inl (dials_tryConnectLoop_mem _ _ _ _ _ d hd)
      · exact Or.inr (dials_tryConnectLoop_mem _ _ _ _ _ d hd)
  · rw [invocations_log, invocations_warmupReversePath]
  · exact dials_addIptablesDNATRules _ _ _
  · rw [invocations_addIptablesDNATRules]
    simp only [List.map_cons, List.map_nil, List.flatten_cons, List.flatten_nil, haddr, h80,
      List.append_nil]
    rfl

theorem handleContainerStarted_dnat_example_long_id_at :
    ∃ warm rules,
      handleContainerStarted ⟨"2", "dnat"⟩ (fun k => k == 1) (fun _ => true)
          ⟨ContainerEventType.ContainerStarted,
            ⟨"0123456789abcdef", "web", "10.0.0.5", "bridge", [⟨"0.0.0.0", 8080, 8080, "tcp"⟩],
              [("enable", "true"), ("dnat", "8080")]⟩, 0⟩ = some (warm ++ rules) ∧
        (dials warm).head? = some ("tcp", "10.0.0.5:8080") ∧
        (∀ d ∈ dials warm, d = ("tcp", "10.0.0.5:8080") ∨ d = ("ip4:icmp", "10.0.0.5")) ∧
        invocations warm = [] ∧
        dials rules = [] ∧
        invocations rules =
          [["-t", "nat", "-A", "PREROUTING", "-p", "tcp", "--dport", "8080", "-j", "DNAT",
              "--to-destination", "10.0.0.5:8080"],
           ["-A", "FORWARD", "-p", "tcp", "-d", "10.0.0.5", "--dport", "8080", "-j",
              "ACCEPT"]] :=
  handleContainerStarted_dnat_example_long_id ⟨"2", "dnat"⟩ (fun k => k == 1) (fun _ => true)
    ⟨ContainerEventType.ContainerStarted,
      ⟨"0123456789abcdef", "web", "10.0.0.5", "bridge", [⟨"0.0.0.0", 8080, 8080, "tcp"⟩],
        [("enable", "true"), ("dnat", "8080")]⟩, 0⟩
    "0.0.0.0" (by decide) (by decide) (by decide) rfl rfl (by decide)

/-- C10 (evaluation at the failing input): the end-to-end scenario with the
container ID `abc`, which is shorter than 12 bytes: Started processing panics
on the slice `c.ID[:12]` before the warm-up, so it makes no connection attempt
at `10.0.0.5:8080` and issues neither the DNAT nor the FORWARD install. Hence
the scenario, stated for every container ID, does not hold of the code. -/
theorem handleContainerStarted_dnat_example_short_id :
    handleContainerStarted ⟨"2", "dnat"⟩ (fun _ => true) (fun _ => true)
        ⟨ContainerEventType.ContainerStarted,
          ⟨"abc", "web", "10.0.0.5", "bridge", [⟨"0.0.0.0", 8080, 8080, "tcp"⟩],
            [("dnat", "8080")]⟩, 0⟩ = none ∧
      ¬ (∀ (h : Handler) (dialOk execOk : Nat → Bool) (event : ContainerEvent)
          (hostIP : String),
          h.iptablesDnatPortsLabel ≠ "" → h.iptablesMangleMarkPublishedPorts ≠ "" →
          event.Container.IPAddress = "10.0.0.5" →
          event.Container.Ports = [⟨hostIP, 8080, 8080, "tcp"⟩] →
          event.Container.Labels.lookup h.iptablesDnatPortsLabel = some "8080" →
          ∃ t, handleContainerStarted h dialOk execOk event = some t ∧
            (dials t).head? = some ("tcp", "10.0.0.5:8080")) := by
  refine ⟨by decide, ?_⟩
  intro hall
  obtain ⟨t, ht, _⟩ := hall ⟨"2", "dnat"⟩ (fun _ => true) (fun _ => true)
    ⟨ContainerEventType.ContainerStarted,
      ⟨"abc", "web", "10.0.0.5", "bridge", [⟨"0.0.0.0", 8080, 8080, "tcp"⟩],
        [("dnat", "8080")]⟩, 0⟩ "0.0.0.0" (by decide) (by decide) rfl rfl (by decide)
  have hn : handleContainerStarted ⟨"2", "dnat"⟩ (fun _ => true) (fun _ => true)
      ⟨ContainerEventType.ContainerStarted,
        ⟨"abc", "web", "10.0.0.5", "bridge", [⟨"0.0.0.0", 8080, 8080, "tcp"⟩],
          [("dnat", "8080")]⟩, 0⟩ = none := by decide
  rw [hn] at ht
  cases ht

/-! ## C11: invariants of the state tracker -/

theorem feedState_append_singleton (X : String) (es : List ContainerEvent)
    (e : ContainerEvent) : feedState X (es ++ [e]) = feedStep X (feedState X es) e := by
  simp [feedState, List.foldl_append]

theorem foldl_feedStep_none (X : String) (es : List ContainerEvent) :
    es.foldl (feedStep X) none = none := by
  induction es with
  | nil => rfl
  | cons e es ih => simpa [feedStep] using ih

theorem feedState_prefix (X : String) (p q : List ContainerEvent) (b : Bool)
    (h : feedState X (p ++ q) = some b) : ∃ o, feedState X p = some o := by
  unfold feedState at h ⊢
  rw [List.foldl_append] at h
  cases hp : p.foldl (feedStep X) (some false) with
  | none => rw [hp, foldl_feedStep_none] at h; cases h
  | some o => exact ⟨o, rfl⟩

theorem feedState_count (X : String) (p : List ContainerEvent) (o : Bool)
    (h : feedState X p = some o) :
    p.countP (isStoppedFor X) + (if o then 1 else 0) ≤ p.countP (isStartedFor X) := by
  induction p using List.reverseRecOn generalizing o with
  | nil => 
    simp [feedState] at h
    subst h
    simp
  | append_singleton p e ih =>
    rw [feedState_append_singleton] at h
    cases hp : feedState X p with
    | none => rw [hp] at h; simp [feedStep] at h
    | some o' =>
      have ih' := ih o' hp
      rw [hp] at h
      simp only [feedStep] at h
      rw [List.countP_append, List.countP_append]
      simp only [List.countP_cons, List.countP_nil, Nat.zero_add]
      cases hs : isStartedFor X e with
      | true =>
        have hst : isStoppedFor X e = false := by
          unfold isStartedFor at hs
          unfold isStoppedFor
          simp only [Bool.and_eq_true, beq_iff_eq] at hs
          simp [hs.1]
        simp only [hs, if_true, Option.some.injEq] at h
        subst h
        simp only [hst, Bool.false_eq_true, if_false, if_true]
        split at ih' <;> omega
      | false =>
        simp only [hs, Bool.false_eq_true, if_false] at h
        cases hst : isStoppedFor X e with
        | true =>
          simp only [hst, if_true] at h
          cases o' with
          | false => simp at h
          | true =>
            simp only [if_true, Option.some.injEq] at h
            subst h
            simp only [if_true] at ih'
            simp
            omega
        | false =>
          simp only [hst, Bool.false_eq_true, if_false, Option.some.injEq] at h
          subst h
          simpa using ih'

theorem feedState_open (X : String) (pre : List ContainerEvent)
    (h : feedState X pre = some true) :
    ∃ pre1 s mid, pre = pre1 ++ s :: mid ∧ isStartedFor X s = true ∧
      ∀ m ∈ mid, isStoppedFor X m = false := by
  induction pre using List.reverseRecOn with
  | nil => simp [feedState] at h
  | append_singleton p e ih =>
    rw [feedState_append_singleton] at h
    cases hp : feedState X p with
    | none => rw [hp] at h; simp [feedStep] at h
    | some o' =>
      rw [hp] at h
      simp only [feedStep] at h
      cases hs : isStartedFor X e with
      | true => exact ⟨p, e, [], rfl, hs, by simp⟩
      | false =>
        simp only [hs, Bool.false_eq_true, if_false] at h
        cases hst : isStoppedFor X e with
        | true =>
          simp only [hst, if_true] at h
          cases o' <;> simp at h
        | false =>
          simp only [hst, Bool.false_eq_true, if_false, Option.some.injEq] at h
          subst h
          obtain ⟨pre1, s, mid, h1, h2, h3⟩ := ih hp
          refine ⟨pre1, s, mid ++ [e], by rw [h1]; simp, h2, ?_⟩
          intro m hm
          rcases List.mem_append.1 hm with hm | hm
          · exact h3 m hm
          · simp only [List.mem_singleton] at hm
            rw [hm]; exact hst

theorem feedState_stopped_preceded (X : String) (pre post : List ContainerEvent)
    (e : ContainerEvent) (b : Bool) (h : feedState X (pre ++ e :: post) = some b)
    (he : isStoppedFor X e = true) :
    ∃ pre1 s mid, pre = pre1 ++ s :: mid ∧ isStartedFor X s = true ∧
      ∀ m ∈ mid, isStoppedFor X m = false := by
  have e1 : pre ++ e :: post = (pre ++ [e]) ++ post := by simp
  rw [e1] at h
  obtain ⟨o, ho⟩ := feedState_prefix X _ _ b h
  rw [feedState_append_singleton] at ho
  have hns : isStartedFor X e = false := by
    unfold isStoppedFor at he
    unfold isStartedFor
    simp only [Bool.and_eq_true, beq_iff_eq] at he
    simp [he.1]
  cases hp : feedState X pre with
  | none => rw [hp] at ho; simp [feedStep] at ho
  | some o' =>
    rw [hp] at ho
    simp only [feedStep, hns, he, Bool.false_eq_true, if_false, if_true] at ho
    cases o' with
    | false => simp at ho
    | true => exact feedState_open X pre hp

theorem TrackerInv_new (config : Config) : TrackerInv (NewWatcher config) := by
  refine ⟨?_, ?_⟩
  · intro k info h
    simp [NewWatcher] at h
  · intro X
    simp [NewWatcher, feedState]

theorem TrackerInv_queries (w : Watcher) (q : List Filters) (h : TrackerInv w) :
    TrackerInv { w with queries := q } := h

theorem TrackerInv_safe (w : Watcher) (h : TrackerInv w) : TrackerSafe w := by
  refine ⟨h.1, ?_⟩
  intro X hx
  rw [h.2 X] at hx
  cases hx

theorem keys_mapSet (m : List (String × ContainerInfo)) (id : String) (info : ContainerInfo)
    (hm : ∀ k i, m.lookup k = some i → i.ID = k) (hid : info.ID = id) :
    ∀ k i, (mapSet m id info).lookup k = some i → i.ID = k := by
  intro k i hk
  by_cases hki : k = id
  · rw [hki, lookup_mapSet_self] at hk
    simp only [Option.some.injEq] at hk
    rw [← hk, hid, hki]
  · rw [lookup_mapSet_of_ne _ _ _ _ hki] at hk
    exact hm k i hk

theorem keys_mapDelete (m : List (String × ContainerInfo)) (id : String)
    (hm : ∀ k i, m.lookup k = some i → i.ID = k) :
    ∀ k i, (mapDelete m id).lookup k = some i → i.ID = k := by
  intro k i hk
  by_cases hki : k = id
  · rw [hki, lookup_mapDelete_self] at hk; cases hk
  · rw [lookup_mapDelete_of_ne _ _ _ hki] at hk
    exact hm k i hk

theorem feedStep_started (X : String) (o : Bool) (info : ContainerInfo) (now : Int) :
    feedStep X (some o)
        { Typ := ContainerEventType.ContainerStarted, Container := info, Timestamp := now } =
      some (o || info.ID == X) := by
  by_cases hx : info.ID = X
  · simp [feedStep, isStartedFor, hx]
  · simp [feedStep, isStartedFor, isStoppedFor, hx]

theorem TrackerSafe_processContainer (w : Watcher) (now : Int) (sent : Bool) (c : Container)
    (h : TrackerSafe w) : TrackerSafe (processContainer w now sent c).1 := by
  obtain ⟨h1, h2⟩ := h
  rcases processContainer_cases w now sent c with e | e | ⟨info, hx, e⟩ | ⟨info, hx, e⟩
  · rw [e]; exact ⟨h1, h2⟩
  · rw [e]; exact ⟨h1, h2⟩
  · rw [e]
    refine ⟨keys_mapSet _ _ _ h1 (extractContainerInfo_ID w c info hx), ?_⟩
    intro X
    dsimp only
    rw [feedState_append_singleton]
    cases hf : feedState X w.events with
    | none => exact absurd hf (h2 X)
    | some o => rw [feedStep_started]; simp
  · rw [e]
    exact ⟨keys_mapSet _ _ _ h1 (extractContainerInfo_ID w c info hx), h2⟩

theorem TrackerInv_processContainer (w : Watcher) (now : Int) (sent : Bool) (c : Container)
    (h : TrackerInv w) (hok : (processContainer w now sent c).2 = Ended.ok) :
    TrackerInv (processContainer w now sent c).1 := by
  obtain ⟨h1, h2⟩ := h
  rcases processContainer_cases w now sent c with e | e | ⟨info, hx, e⟩ | ⟨info, hx, e⟩
  · rw [e]; exact ⟨h1, h2⟩
  · rw [e] at hok; cases hok
  · rw [e]
    have hid := extractContainerInfo_ID w c info hx
    refine ⟨keys_mapSet _ _ _ h1 hid, ?_⟩
    intro X
    dsimp only
    rw [feedState_append_singleton, h2 X, feedStep_started, hid]
    by_cases hxc : X = c.ID
    · rw [hxc, lookup_mapSet_self]
      simp
    · rw [lookup_mapSet_of_ne _ _ _ _ hxc]
      have : (c.ID == X) = false := by simpa using fun e' => hxc e'.symm
      rw [this, Bool.or_false]
  · rw [e] at hok; cases hok

theorem processContainers_step (w : Watcher) (now : Nat → Int) (sent : Nat → Bool)
    (c : Container) (cs : List Container) :
    (processContainer w (now 0) (sent 0) c).2 = Ended.panic ∧
        processContainers w now sent (c :: cs) =
          ((processContainer w (now 0) (sent 0) c).1, Ended.panic) ∨
      (processContainer w (now 0) (sent 0) c).2 ≠ Ended.panic ∧
        (processContainers w now sent (c :: cs)).1 =
          (processContainers (processContainer w (now 0) (sent 0) c).1
            (fun i => now (i + 1)) (fun i => sent (i + 1)) cs).1 ∧
        ((processContainers w now sent (c :: cs)).2 = Ended.ok →
          (processContainer w (now 0) (sent 0) c).2 = Ended.ok ∧
            (processContainers (processContainer w (now 0) (sent 0) c).1
              (fun i => now (i + 1)) (fun i => sent (i + 1)) cs).2 = Ended.ok) := by
  rw [processContainers]
  cases hp : processContainer w (now 0) (sent 0) c with
  | mk w1 e =>
    cases hr : processContainers w1 (fun i => now (i + 1)) (fun i => sent (i + 1)) cs with
    | mk w2 e2 =>
      cases e <;> cases e2 <;> simp [hr]

theorem TrackerSafe_processContainers (w : Watcher) (now : Nat → Int) (sent : Nat → Bool)
    (cs : List Container) (h : TrackerSafe w) :
    TrackerSafe (processContainers w now sent cs).1 := by
  induction cs generalizing w now sent with
  | nil => exact h
  | cons c cs ih =>
    have hs := TrackerSafe_processContainer w (now 0) (sent 0) c h
    rcases processContainers_step w now sent c cs with ⟨_, e⟩ | ⟨_, e, _⟩
    · rw [e]; exact hs
    · rw [e]; exact ih _ _ _ hs

theorem TrackerInv_processContainers (w : Watcher) (now : Nat → Int) (sent : Nat → Bool)
    (cs : List Container) (h : TrackerInv w)
    (hok : (processContainers w now sent cs).2 = Ended.ok) :
    TrackerInv (processContainers w now sent cs).1 := by
  induction cs generalizing w now sent with
  | nil => exact h
  | cons c cs ih =>
    rcases processContainers_step w now sent c cs with ⟨_, e⟩ | ⟨_, e, hh⟩
    · rw [e] at hok; cases hok
    · obtain ⟨h1, h2⟩ := hh hok
      rw [e]
      exact ih _ _ _ (TrackerInv_processContainer w (now 0) (sent 0) c h h1) h2

theorem discoverLoop_step (w : Watcher) (now : Nat → Int) (sent : Nat → Bool)
    (c : Container) (cs : List Container) :
    (processContainer w (now 0) (sent 0) c).2 = Ended.ok ∧
        discoverLoop w now sent (c :: cs) =
          discoverLoop (processContainer w (now 0) (sent 0) c).1
            (fun i => now (i + 1)) (fun i => sent (i + 1)) cs ∨
      (processContainer w (now 0) (sent 0) c).2 ≠ Ended.ok ∧
        discoverLoop w now sent (c :: cs) = processContainer w (now 0) (sent 0) c := by
  rw [discoverLoop]
  cases hp : processContainer w (now 0) (sent 0) c with
  | mk w1 e => cases e <;> simp

theorem TrackerSafe_discoverLoop (w : Watcher) (now : Nat → Int) (sent : Nat → Bool)
    (cs : List Container) (h : TrackerInv w) :
    TrackerSafe (discoverLoop w now sent cs).1 ∧
      ((discoverLoop w now sent cs).2 = Ended.ok →
        TrackerInv (discoverLoop w now sent cs).1) := by
  induction cs generalizing w now sent with
  | nil => exact ⟨TrackerInv_safe w h, fun _ => h⟩
  | cons c cs ih =>
    rcases discoverLoop_step w now sent c cs with ⟨hok, e⟩ | ⟨hne, e⟩
    · rw [e]
      exact ih _ _ _ (TrackerInv_processContainer w (now 0) (sent 0) c h hok)
    · rw [e]
      exact ⟨TrackerSafe_processContainer w (now 0) (sent 0) c (TrackerInv_safe w h),
        fun hok => absurd hok hne⟩

theorem TrackerInv_handleStopped (w : Watcher) (id : String) (time : Int) (sent : Bool)
    (h : TrackerInv w) :
    TrackerSafe (handleStopped w id time sent).1 ∧
      ((handleStopped w id time sent).2 = Ended.ok →
        TrackerInv (handleStopped w id time sent).1) := by
  obtain ⟨h1, h2⟩ := h
  have hsafe := (TrackerInv_safe w ⟨h1, h2⟩).2
  have hkey := keys_mapDelete w.knownContainers id h1
  unfold handleStopped removeKnownContainer
  cases hl : w.knownContainers.lookup id with
  | none =>
    refine ⟨⟨hkey, hsafe⟩, fun _ => ⟨hkey, ?_⟩⟩
    intro X
    dsimp only
    by_cases hx : X = id
    · rw [hx, lookup_mapDelete_self, h2 id, hl]
    · rw [lookup_mapDelete_of_ne _ _ _ hx]
      exact h2 X
  | some info =>
    have hid : info.ID = id := h1 id info hl
    cases sent with
    | false =>
      refine ⟨⟨hkey, hsafe⟩, fun hok => ?_⟩
      simp at hok
    | true =>
      have hinv : ∀ X, feedState X (w.events ++
          [{ Typ := ContainerEventType.ContainerStopped, Container := info,
             Timestamp := time }]) =
          some ((mapDelete w.knownContainers id).lookup X).isSome := by
        intro X
        rw [feedState_append_singleton, h2 X]
        by_cases hx : X = id
        · have e1 : isStartedFor X
              { Typ := ContainerEventType.ContainerStopped, Container := info,
                Timestamp := time } = false := by
            simp [isStartedFor]
          have e2 : isStoppedFor X
              { Typ := ContainerEventType.ContainerStopped, Container := info,
                Timestamp := time } = true := by
            simp [isStoppedFor, hid, hx]
          rw [hx] at e1 e2 ⊢
          simp [feedStep, e1, e2, hl, lookup_mapDelete_self]
        · have hne : ¬ info.ID = X := by rw [hid]; exact fun e => hx e.symm
          have e1 : isStartedFor X
              { Typ := ContainerEventType.ContainerStopped, Container := info,
                Timestamp := time } = false := by
            simp [isStartedFor]
          have e2 : isStoppedFor X
              { Typ := ContainerEventType.ContainerStopped, Container := info,
                Timestamp := time } = false := by
            simp [isStoppedFor, hne]
          simp [feedStep, e1, e2, lookup_mapDelete_of_ne _ _ _ hx]
      refine ⟨⟨hkey, ?_⟩, fun _ => ⟨hkey, hinv⟩⟩
      intro X hX
      have := hinv X
      simp only [if_true] at hX
      rw [this] at hX
      cases hX

theorem TrackerInv_handleStarted (w : Watcher) (now : Nat → Int) (sent : Nat → Bool)
    (listing : Except String (List Container)) (id : String) (h : TrackerInv w) :
    TrackerSafe (handleStarted w now sent listing id).1 ∧
      ((handleStarted w now sent listing id).2 = Ended.ok →
        TrackerInv (handleStarted w now sent listing id).1) := by
  unfold handleStarted
  cases listing with
  | error e => exact ⟨TrackerInv_safe w h, fun _ => h⟩
  | ok cs =>
    exact ⟨TrackerSafe_processContainers _ now sent cs (TrackerInv_safe w h),
      TrackerInv_processContainers _ now sent cs h⟩

theorem TrackerInv_handleEvent (w : Watcher) (now : Nat → Int) (sent : Nat → Bool)
    (listing : Except String (List Container)) (event : Event) (h : TrackerInv w) :
    TrackerSafe (handleEvent w now sent listing event).1 ∧
      ((handleEvent w now sent listing event).2 = Ended.ok →
        TrackerInv (handleEvent w now sent listing event).1) := by
  unfold handleEvent
  split
  · exact ⟨TrackerInv_safe w h, fun _ => h⟩
  · dsimp only
    split
    · exact ⟨TrackerInv_safe w h, fun _ => h⟩
    · exact TrackerInv_handleStopped w _ _ _ h
    · exact TrackerInv_handleStarted w now sent listing _ h

theorem watchEvents_step (w : Watcher) (i : LiveInput) (rest : List LiveInput) :
    (handleEvent w i.now i.sent i.listing i.event).2 = Ended.ok ∧
        watchEvents w (i :: rest) =
          watchEvents (handleEvent w i.now i.sent i.listing i.event).1 rest ∨
      (handleEvent w i.now i.sent i.listing i.event).2 ≠ Ended.ok ∧
        watchEvents w (i :: rest) = handleEvent w i.now i.sent i.listing i.event := by
  rw [watchEvents]
  cases hp : handleEvent w i.now i.sent i.listing i.event with
  | mk w1 e => cases e <;> simp

theorem TrackerSafe_watchEvents (w : Watcher) (live : List LiveInput) (h : TrackerInv w) :
    TrackerSafe (watchEvents w live).1 := by
  induction live generalizing w with
  | nil => exact TrackerInv_safe w h
  | cons i rest ih =>
    have hs := TrackerInv_handleEvent w i.now i.sent i.listing i.event h
    rcases watchEvents_step w i rest with ⟨hok, e⟩ | ⟨_, e⟩
    · rw [e]; exact ih _ (hs.2 hok)
    · rw [e]; exact hs.1

theorem TrackerInv_discoverExistingContainers (w : Watcher) (now : Nat → Int)
    (sent : Nat → Bool) (listing : Except String (List Container)) (h : TrackerInv w) :
    TrackerSafe (discoverExistingContainers w now sent listing).1 ∧
      ((discoverExistingContainers w now sent listing).2 = Ended.ok →
        TrackerInv (discoverExistingContainers w now sent listing).1) := by
  unfold discoverExistingContainers
  cases listing with
  | error e => exact ⟨TrackerInv_safe w h, fun _ => h⟩
  | ok cs => exact TrackerSafe_discoverLoop _ now sent cs h

theorem TrackerSafe_Start (w : Watcher) (now : Nat → Int) (sent : Nat → Bool)
    (listing : Except String (List Container)) (live : List LiveInput) (h : TrackerInv w) :
    TrackerSafe (Start w now sent listing live).1 := by
  have hd := TrackerInv_discoverExistingContainers w now sent listing h
  unfold Start
  cases hr : discoverExistingContainers w now sent listing with
  | mk w1 e =>
    rw [hr] at hd
    cases e with
    | ok => exact TrackerSafe_watchEvents w1 live (hd.2 rfl)
    | cancelled => exact hd.1
    | failed msg => exact hd.1
    | panic => exact hd.1

/-- C11: for every startup listing and every finite sequence of raw events
with the answers of the runtime, processed from the empty directory, whichever
sends are cancelled and whether or not the run ends in a panic: every key of
the directory is the ID of the record stored under it; in every prefix of the
feed and for every ID `X` there are at most as many Stopped transitions for `X`
as Started ones; and every Stopped transition for `X` comes after a Started
transition for `X` with no Stopped transition for `X` in between. -/
theorem tracker_invariants (config : Config) (now : Nat → Int) (sent : Nat → Bool)
    (listing : Except String (List Container)) (live : List LiveInput) :
    (∀ k info, (Start (NewWatcher config) now sent listing live).1.knownContainers.lookup k =
        some info → info.ID = k) ∧
      (∀ X p, p <+: (Start (NewWatcher config) now sent listing live).1.events →
        p.countP (isStoppedFor X) ≤ p.countP (isStartedFor X)) ∧
      (∀ X pre e post,
        (Start (NewWatcher config) now sent listing live).1.events = pre ++ e :: post →
        isStoppedFor X e = true →
        ∃ pre1 s mid, pre = pre1 ++ s :: mid ∧ isStartedFor X s = true ∧
          ∀ m ∈ mid, isStoppedFor X m = false) := by
  obtain ⟨h1, h2⟩ := TrackerSafe_Start (NewWatcher config) now sent listing live
    (TrackerInv_new config)
  refine ⟨h1, ?_, ?_⟩
  · intro X p hp
    obtain ⟨q, hq⟩ := hp
    obtain ⟨b, hb⟩ := Option.ne_none_iff_exists'.1 (h2 X)
    rw [← hq] at hb
    obtain ⟨o, ho⟩ := feedState_prefix X p q _ hb
    have := feedState_count X p o ho
    omega
  · intro X pre e post hev he
    obtain ⟨b, hb⟩ := Option.ne_none_iff_exists'.1 (h2 X)
    rw [hev] at hb
    exact feedState_stopped_preceded X pre post e _ hb he

theorem tracker_invariants_witness :
    (Start (NewWatcher ⟨"bridge", ""⟩) (fun _ => 0) (fun _ => true)
        (Except.ok
          [{ ID := "c1", Names := ["/web"], Labels := [], State := "running", Status := "Up",
             NetworkSettings := some ⟨some [("bridge", some ⟨"10.0.0.5", "", "", "", 16⟩)]⟩,
             Ports := [] }])
        [⟨⟨"container", "die", ⟨"c1", []⟩, 7, ""⟩, Except.ok [], fun _ => 0, fun _ => true⟩,
         ⟨⟨"container", "start", ⟨"c1", []⟩, 8, ""⟩,
           Except.ok
             [{ ID := "c1", Names := ["/web"], Labels := [], State := "running",
                Status := "Up",
                NetworkSettings :=
                  some ⟨some [("bridge", some ⟨"10.0.0.5", "", "", "", 16⟩)]⟩,
                Ports := [] }],
           fun _ => 8, fun _ => false⟩,
         ⟨⟨"container", "stop", ⟨"c1", []⟩, 9, ""⟩, Except.ok [], fun _ => 0,
           fun _ => true⟩]).1.events.map
        (fun e => (e.Typ, e.Container.ID)) =
      [(ContainerEventType.ContainerStarted, "c1"),
       (ContainerEventType.ContainerStopped, "c1")] ∧
    ((Start (NewWatcher ⟨"bridge", ""⟩) (fun _ => 0) (fun _ => true)
        (Except.ok
          [{ ID := "c1", Names := ["/web"], Labels := [], State := "running", Status := "Up",
             NetworkSettings := some ⟨some [("bridge", some ⟨"10.0.0.5", "", "", "", 16⟩)]⟩,
             Ports := [] }])
        [⟨⟨"container", "die", ⟨"c1", []⟩, 7, ""⟩, Except.ok [], fun _ => 0, fun _ => true⟩,
         ⟨⟨"container", "start", ⟨"c1", []⟩, 8, ""⟩,
           Except.ok
             [{ ID := "c1", Names := ["/web"], Labels := [], State := "running",
                Status := "Up",
                NetworkSettings :=
                  some ⟨some [("bridge", some ⟨"10.0.0.5", "", "", "", 16⟩)]⟩,
                Ports := [] }],
           fun _ => 8, fun _ => false⟩,
         ⟨⟨"container", "stop", ⟨"c1", []⟩, 9, ""⟩, Except.ok [], fun _ => 0,
           fun _ => true⟩]).1.events.countP
        (isStoppedFor "c1") ≤
      (Start (NewWatcher ⟨"bridge", ""⟩) (fun _ => 0) (fun _ => true)
        (Except.ok
          [{ ID := "c1", Names := ["/web"], Labels := [], State := "running", Status := "Up",
             NetworkSettings := some ⟨some [("bridge", some ⟨"10.0.0.5", "", "", "", 16⟩)]⟩,
             Ports := [] }])
        [⟨⟨"container", "die", ⟨"c1", []⟩, 7, ""⟩, Except.ok [], fun _ => 0, fun _ => true⟩,
         ⟨⟨"container", "start", ⟨"c1", []⟩, 8, ""⟩,
           Except.ok
             [{ ID := "c1", Names := ["/web"], Labels := [], State := "running",
                Status := "Up",
                NetworkSettings :=
                  some ⟨some [("bridge", some ⟨"10.0.0.5", "", "", "", 16⟩)]⟩,
                Ports := [] }],
           fun _ => 8, fun _ => false⟩,
         ⟨⟨"container", "stop", ⟨"c1", []⟩, 9, ""⟩, Except.ok [], fun _ => 0,
           fun _ => true⟩]).1.events.countP
        (isStartedFor "c1")) :=
  ⟨by decide,
    (tracker_invariants ⟨"bridge", ""⟩ (fun _ => 0) (fun _ => true)
      (Except.ok
        [{ ID := "c1", Names := ["/web"], Labels := [], State := "running", Status := "Up",
           NetworkSettings := some ⟨some [("bridge", some ⟨"10.0.0.5", "", "", "", 16⟩)]⟩,
           Ports := [] }])
      [⟨⟨"container", "die", ⟨"c1", []⟩, 7, ""⟩, Except.ok [], fun _ => 0, fun _ => true⟩,
       ⟨⟨"container", "start", ⟨"c1", []⟩, 8, ""⟩,
         Except.ok
           [{ ID := "c1", Names := ["/web"], Labels := [], State := "running",
              Status := "Up",
              NetworkSettings :=
                some ⟨some [("bridge", some ⟨"10.0.0.5", "", "", "", 16⟩)]⟩,
              Ports := [] }],
         fun _ => 8, fun _ => false⟩,
       ⟨⟨"container", "stop", ⟨"c1", []⟩, 9, ""⟩, Except.ok [], fun _ => 0,
         fun _ => true⟩]).2.1 "c1" _
      (List.prefix_refl _)⟩

/-! ## C12, C13, C19: guards of Started and Stopped processing -/

theorem handleContainerStarted_eq_none_iff (h : Handler) (dialOk execOk : Nat → Bool)
    (event : ContainerEvent) :
    handleContainerStarted h dialOk execOk event = none ↔
      event.Container.ID.utf8ByteSize < 12 := by
  unfold handleContainerStarted
  by_cases hid : event.Container.ID.utf8ByteSize < 12
  · simp [hid]
  · simp [hid]

theorem handleContainerStopped_eq_none_iff (h : Handler) (execOk : Nat → Bool)
    (event : ContainerEvent) :
    handleContainerStopped h execOk event = none ↔
      event.Container.ID.utf8ByteSize < 12 := by
  unfold handleContainerStopped
  by_cases hid : event.Container.ID.utf8ByteSize < 12
  · simp [hid]
  · simp [hid]

theorem markIntents_of_empty_mark (h : Handler) (c : ContainerInfo)
    (hm : h.iptablesMangleMarkPublishedPorts = "") : markIntents h c = [] := by
  simp [markIntents, hm]

/-- C12 (amended): when the mark value is empty no mark rule is created:
Started processing issues no mangle-table invocation, and its invocations are
exactly the DNAT and FORWARD installs for the DNAT intents parsed from the
DNAT-ports label of the container, in order; so it issues no invocation at all
when no DNAT-ports label is configured or the container does not carry it. The
call returns unless the ID is shorter than 12 bytes. -/
theorem handleContainerStarted_empty_mark (h : Handler) (dialOk execOk : Nat → Bool)
    (event : ContainerEvent) (hm : h.iptablesMangleMarkPublishedPorts = "") :
    (handleContainerStarted h dialOk execOk event = none ↔
        event.Container.ID.utf8ByteSize < 12) ∧
      ∀ t, handleContainerStarted h dialOk execOk event = some t →
        invocations t =
            (if event.Container.IPAddress != "" then
              ((dnatIntents h event.Container).map (fun p =>
                [["-t", "nat", "-A", "PREROUTING", "-p", p.protocol, "--dport",
                    toString p.port, "-j", "DNAT", "--to-destination",
                    event.Container.IPAddress ++ ":" ++ toString p.port],
                 ["-A", "FORWARD", "-p", p.protocol, "-d", event.Container.IPAddress,
                    "--dport", toString p.port, "-j", "ACCEPT"]])).flatten
            else []) ∧
          (∀ a ∈ invocations t, ¬ ["-t", "mangle"] <+: a) ∧
          (h.iptablesDnatPortsLabel = "" ∨
              event.Container.Labels.lookup h.iptablesDnatPortsLabel = none →
            invocations t = []) := by
  refine ⟨handleContainerStarted_eq_none_iff h dialOk execOk event, ?_⟩
  intro t ht
  have e := invocations_handleContainerStarted h dialOk execOk event t ht
  rw [markIntents_of_empty_mark h _ hm, List.map_nil, List.append_nil] at e
  refine ⟨e, ?_, ?_⟩
  · intro a ha hpre
    rw [e] at ha
    cases hip : (event.Container.IPAddress != "") with
    | false => simp [hip] at ha
    | true =>
      simp only [hip, if_true, List.mem_flatten, List.mem_map] at ha
      obtain ⟨l, ⟨p, _, rfl⟩, hl⟩ := ha
      simp only [List.mem_cons, List.mem_singleton, List.not_mem_nil, or_false] at hl
      rcases hl with rfl | rfl
      · obtain ⟨r, hr⟩ := hpre
        simp at hr
      · obtain ⟨r, hr⟩ := hpre
        simp at hr
  · intro hl
    rw [e]
    have : dnatIntents h event.Container = [] := by
      unfold dnatIntents
      rcases hl with hl | hl
      · simp [hl]
      · simp [hl]
    simp [this]

theorem handleContainerStarted_empty_mark_witness :
    (handleContainerStarted ⟨"", ""⟩ (fun _ => true) (fun _ => true)
        ⟨ContainerEventType.ContainerStarted,
          ⟨"0123456789abcdef", "web", "10.0.0.5", "bridge",
            [⟨"0.0.0.0", 8080, 8080, "tcp"⟩], [("dnat", "8080")]⟩, 0⟩).map invocations =
      some [] :=
  match hr : handleContainerStarted ⟨"", ""⟩ (fun _ => true) (fun _ => true)
      ⟨ContainerEventType.ContainerStarted,
        ⟨"0123456789abcdef", "web", "10.0.0.5", "bridge",
          [⟨"0.0.0.0", 8080, 8080, "tcp"⟩], [("dnat", "8080")]⟩, 0⟩ with
  | none => absurd hr (by decide)
  | some t => by
    rw [Option.map_some']
    exact congrArg some
      (((handleContainerStarted_empty_mark ⟨"", ""⟩ (fun _ => true) (fun _ => true)
        ⟨ContainerEventType.ContainerStarted,
          ⟨"0123456789abcdef", "web", "10.0.0.5", "bridge",
            [⟨"0.0.0.0", 8080, 8080, "tcp"⟩], [("dnat", "8080")]⟩, 0⟩ rfl).2 t hr).2.2
        (Or.inl rfl))

/-- C12 (counterexample): with an empty mark value, the DNAT-ports label
`dnat` configured and a container that carries `dnat=8080`, Started processing
issues two invocations of the firewall tool (the DNAT and the FORWARD
install). -/
theorem handleContainerStarted_empty_mark_dnat :
    (handleContainerStarted ⟨"", "dnat"⟩ (fun _ => true) (fun _ => true)
        ⟨ContainerEventType.ContainerStarted,
          ⟨"0123456789abcdef", "web", "10.0.0.5", "bridge",
            [⟨"0.0.0.0", 8080, 8080, "tcp"⟩], [("dnat", "8080")]⟩, 0⟩).map invocations =
        some
          [["-t", "nat", "-A", "PREROUTING", "-p", "tcp", "--dport", "8080", "-j", "DNAT",
              "--to-destination", "10.0.0.5:8080"],
           ["-A", "FORWARD", "-p", "tcp", "-d", "10.0.0.5", "--dport", "8080", "-j",
              "ACCEPT"]] ∧
      ¬ (∀ (h : Handler) (dialOk execOk : Nat → Bool) (event : ContainerEvent)
          (t : List Effect), h.iptablesMangleMarkPublishedPorts = "" →
          handleContainerStarted h dialOk execOk event = some t → invocations t = []) := by
  have hev : (handleContainerStarted ⟨"", "dnat"⟩ (fun _ => true) (fun _ => true)
        ⟨ContainerEventType.ContainerStarted,
          ⟨"0123456789abcdef", "web", "10.0.0.5", "bridge",
            [⟨"0.0.0.0", 8080, 8080, "tcp"⟩], [("dnat", "8080")]⟩, 0⟩).map invocations =
        some
          [["-t", "nat", "-A", "PREROUTING", "-p", "tcp", "--dport", "8080", "-j", "DNAT",
              "--to-destination", "10.0.0.5:8080"],
           ["-A", "FORWARD", "-p", "tcp", "-d", "10.0.0.5", "--dport", "8080", "-j",
              "ACCEPT"]] := by decide
  refine ⟨hev, ?_⟩
  intro hall
  cases hr : handleContainerStarted ⟨"", "dnat"⟩ (fun _ => true) (fun _ => true)
        ⟨ContainerEventType.ContainerStarted,
          ⟨"0123456789abcdef", "web", "10.0.0.5", "bridge",
            [⟨"0.0.0.0", 8080, 8080, "tcp"⟩], [("dnat", "8080")]⟩, 0⟩ with
  | none => rw [hr] at hev; cases hev
  | some t =>
    have h0 := hall _ _ _ _ t rfl hr
    rw [hr, Option.map_some', h0] at hev
    cases hev

theorem SplitN2_ne_nil (sep : Char) (s : List Char) : strings.SplitN2 sep s ≠ [] := by
  induction s with
  | nil => simp [strings.SplitN2]
  | cons c cs ih =>
    simp only [strings.SplitN2]
    split
    · simp
    · split <;> simp

/-- C13 (evaluation at the failing input): for a transition whose container ID
is `abc`, shorter than 12 bytes, Started processing and Stopped processing both
panic, on the slice `c.ID[:12]` taken for the logger. This slice is the only
panic: each call panics exactly when the ID is shorter than 12 bytes, and the
index `parts[0]` of `parsePorts` is always in range. -/
theorem handlers_panic_on_short_id :
    handleContainerStarted ⟨"2", "dnat"⟩ (fun _ => true) (fun _ => true)
        ⟨ContainerEventType.ContainerStarted,
          ⟨"abc", "web", "10.0.0.5", "bridge", [⟨"0.0.0.0", 8080, 8080, "tcp"⟩],
            [("dnat", "8080")]⟩, 0⟩ = none ∧
      handleContainerStopped ⟨"2", "dnat"⟩ (fun _ => true)
        ⟨ContainerEventType.ContainerStopped,
          ⟨"abc", "web", "10.0.0.5", "bridge", [⟨"0.0.0.0", 8080, 8080, "tcp"⟩],
            [("dnat", "8080")]⟩, 0⟩ = none ∧
      (∀ (h : Handler) (dialOk execOk : Nat → Bool) (event : ContainerEvent),
        (handleContainerStarted h dialOk execOk event = none ↔
          event.Container.ID.utf8ByteSize < 12) ∧
        (handleContainerStopped h execOk event = none ↔
          event.Container.ID.utf8ByteSize < 12)) ∧
      (∀ s : List Char, strings.SplitN2 '/' s ≠ []) := by
  refine ⟨by decide, by decide, ?_, SplitN2_ne_nil '/'⟩
  intro h dialOk execOk event
  exact ⟨handleContainerStarted_eq_none_iff h dialOk execOk event,
    handleContainerStopped_eq_none_iff h execOk event⟩

/-- C19: for a transition whose container snapshot has an empty IP address,
whatever the handler configuration, the port list and the label map, Started
processing and Stopped processing do nothing but write their first log entry
(or panic on an ID shorter than 12 bytes): Started processing makes no
connection attempt, and neither issues an invocation of the firewall tool. -/
theorem handlers_empty_ip (h : Handler) (dialOk execOk execOk' : Nat → Bool)
    (event : ContainerEvent) (hip : event.Container.IPAddress = "") :
    handleContainerStarted h dialOk execOk event =
        (if event.Container.ID.utf8ByteSize < 12 then none
         else some [Effect.log "INFO" "Handling container started"]) ∧
      handleContainerStopped h execOk' event =
        (if event.Container.ID.utf8ByteSize < 12 then none
         else some [Effect.log "INFO" "Handling container stopped"]) ∧
      (∀ t, handleContainerStarted h dialOk execOk event = some t →
        dials t = [] ∧ invocations t = []) ∧
      (∀ t, handleContainerStopped h execOk' event = some t →
        dials t = [] ∧ invocations t = []) := by
  have h1 : handleContainerStarted h dialOk execOk event =
        (if event.Container.ID.utf8ByteSize < 12 then none
         else some [Effect.log "INFO" "Handling container started"]) := by
    unfold handleContainerStarted
    simp [hip]
  have h2 : handleContainerStopped h execOk' event =
        (if event.Container.ID.utf8ByteSize < 12 then none
         else some [Effect.log "INFO" "Handling container stopped"]) := by
    unfold handleContainerStopped
    simp [hip]
  refine ⟨h1, h2, ?_, ?_⟩
  · intro t ht
    rw [h1] at ht
    by_cases hid : event.Container.ID.utf8ByteSize < 12
    · simp [hid] at ht
    · simp only [hid, if_false, Option.some.injEq] at ht
      subst ht
      exact ⟨rfl, rfl⟩
  · intro t ht
    rw [h2] at ht
    by_cases hid : event.Container.ID.utf8ByteSize < 12
    · simp [hid] at ht
    · simp only [hid, if_false, Option.some.injEq] at ht
      subst ht
      exact ⟨rfl, rfl⟩

theorem handlers_empty_ip_witness :
    handleContainerStarted ⟨"2", "dnat"⟩ (fun _ => true) (fun _ => true)
        ⟨ContainerEventType.ContainerStarted,
          ⟨"0123456789abcdef", "web", "", "bridge", [⟨"0.0.0.0", 8080, 8080, "tcp"⟩],
            [("dnat", "8080")]⟩, 0⟩ =
      some [Effect.log "INFO" "Handling container started"] :=
  (handlers_empty_ip ⟨"2", "dnat"⟩ (fun _ => true) (fun _ => true) (fun _ => true)
    ⟨ContainerEventType.ContainerStarted,
      ⟨"0123456789abcdef", "web", "", "bridge", [⟨"0.0.0.0", 8080, 8080, "tcp"⟩],
        [("dnat", "8080")]⟩, 0⟩ rfl).1

/-! ## C15: the record built by `extractContainerInfo` -/

/-- What the record holds when `extractContainerInfo` builds one: the port
mappings are exactly the reported ports whose public port is not zero, in
reported order, each with `HostPort` the public port, `ContainerPort` the
private port and `Protocol` the reported type (and `HostIP` the reported IP);
no mapping has host port 0; the IP address is the address of the endpoint of
the container on the watched network, and is empty when the container is not
on it. -/
theorem extractContainerInfo_of_record (w : Watcher) (c : Container) (info : ContainerInfo)
    (h : extractContainerInfo w c = some info) :
    info.Ports =
        (c.Ports.filter (fun p => p.PublicPort != 0)).map (fun p =>
          { HostIP := p.IP, HostPort := p.PublicPort, ContainerPort := p.PrivatePort,
            Protocol := p.Typ }) ∧
      (∀ m ∈ info.Ports, m.HostPort ≠ 0) ∧
      (∀ ns nets ep, c.NetworkSettings = some ns → ns.Networks = some nets →
        nets.lookup w.config.NetworkName = some (some ep) →
        info.IPAddress = ep.IPAddress) ∧
      ((∀ ns nets, c.NetworkSettings = some ns → ns.Networks = some nets →
          nets.lookup w.config.NetworkName = none) →
        info.IPAddress = "") := by
  have hf : (fun p : Port => decide (0 < p.PublicPort)) = (fun p => p.PublicPort != 0) := by
    funext p
    by_cases h : p.PublicPort = 0
    · simp [h]
    · have : 0 < p.PublicPort := Nat.pos_of_ne_zero h
      simp [h, this]
  unfold extractContainerInfo at h
  dsimp only at h
  split at h
  · cases h
  · rename_i ip hip
    simp only [Option.some.injEq] at h
    subst h
    refine ⟨?_, ?_, ?_, ?_⟩
    · simp only [hf]
    · intro m hm
      simp only [List.mem_map, List.mem_filter] at hm
      obtain ⟨p, ⟨_, hp⟩, rfl⟩ := hm
      simp only [decide_eq_true_eq] at hp
      exact Nat.pos_iff_ne_zero.1 hp
    · intro ns nets ep h1 h2 h3
      simp only [h1, h2, h3, Option.some.injEq] at hip
      exact hip.symm
    · intro hnone
      dsimp only
      cases h1 : c.NetworkSettings with
      | none =>
        simp only [h1, Option.some.injEq] at hip
        exact hip.symm
      | some ns =>
        cases h2 : ns.Networks with
        | none =>
          simp only [h1, h2, Option.some.injEq] at hip
          exact hip.symm
        | some nets =>
          simp only [h1, h2, hnone ns nets h1 h2, Option.some.injEq] at hip
          exact hip.symm

/-- C15 (evaluation at the failing input): for a reported container whose
entry for the watched network is a nil pointer (`"bridge": null`),
`extractContainerInfo` panics on `network.IPAddress` and builds no record,
although the container reports the published ports `8080 -> 80/tcp` and
`53 -> 5353/udp`; with an endpoint in the entry the record is built with these
two mappings and the address of the endpoint. -/
theorem extractContainerInfo_nil_endpoint :
    extractContainerInfo (NewWatcher ⟨"bridge", ""⟩)
        { ID := "c1", Names := ["/web"], Labels := [], State := "running", Status := "Up",
          NetworkSettings := some ⟨some [("bridge", none)]⟩,
          Ports := [⟨"0.0.0.0", 80, 8080, "tcp"⟩, ⟨"", 9000, 0, "tcp"⟩,
            ⟨"::", 5353, 53, "udp"⟩] } = none ∧
      extractContainerInfo (NewWatcher ⟨"bridge", ""⟩)
        { ID := "c1", Names := ["/web"], Labels := [], State := "running", Status := "Up",
          NetworkSettings := some ⟨some [("bridge", some ⟨"10.0.0.5", "", "", "", 16⟩)]⟩,
          Ports := [⟨"0.0.0.0", 80, 8080, "tcp"⟩, ⟨"", 9000, 0, "tcp"⟩,
            ⟨"::", 5353, 53, "udp"⟩] } =
        some ⟨"c1", "web", "10.0.0.5", "bridge",
          [⟨"0.0.0.0", 8080, 80, "tcp"⟩, ⟨"::", 53, 5353, "udp"⟩], []⟩ := by
  decide

/-! ## C16: the rule loops are best effort -/

theorem length_flatten_pairs {α β : Type} (l : List α) (f g : α → β) :
    ((l.map (fun x => [f x, g x])).flatten).length = 2 * l.length := by
  induction l with
  | nil => rfl
  | cons x xs ih =>
    simp only [List.map_cons, List.flatten_cons, List.length_append, List.length_cons,
      List.length_nil, ih]
    omega

/-- C16: for every list of rule intents, the invocations attempted by the add
and remove rule loops do not depend on the outcomes of the invocations: for the
DNAT loops they are, for each intent in order, the DNAT rule then the FORWARD
rule, `2 * n` invocations for `n` intents; for the mark loops they are one mark
rule for each intent in order, `m` invocations for `m` intents. -/
theorem rule_loops_best_effort (h : Handler) (execOk execOk' : Nat → Bool)
    (containerIP : String) (ps : List port) :
    invocations (addIptablesDNATRules execOk containerIP ps) =
        (ps.map (fun p =>
          [["-t", "nat", "-A", "PREROUTING", "-p", p.protocol, "--dport", toString p.port,
              "-j", "DNAT", "--to-destination", containerIP ++ ":" ++ toString p.port],
           ["-A", "FORWARD", "-p", p.protocol, "-d", containerIP, "--dport",
              toString p.port, "-j", "ACCEPT"]])).flatten ∧
      invocations (removeIptablesDNATRules execOk containerIP ps) =
        (ps.map (fun p =>
          [["-t", "nat", "-D", "PREROUTING", "-p", p.protocol, "--dport", toString p.port,
              "-j", "DNAT", "--to-destination", containerIP ++ ":" ++ toString p.port],
           ["-D", "FORWARD", "-p", p.protocol, "-d", containerIP, "--dport",
              toString p.port, "-j", "ACCEPT"]])).flatten ∧
      invocations (addIptablesMarkRules h execOk ps) =
        ps.map (fun p =>
          ["-t", "mangle", "-A", "PREROUTING", "-p", p.protocol, "--sport",
            toString p.port, "-j", "MARK", "--set-mark",
            h.iptablesMangleMarkPublishedPorts]) ∧
      invocations (removeIptablesMarkRules h execOk ps) =
        ps.map (fun p =>
          ["-t", "mangle", "-D", "PREROUTING", "-p", p.protocol, "--sport",
            toString p.port, "-j", "MARK", "--set-mark",
            h.iptablesMangleMarkPublishedPorts]) ∧
      invocations (addIptablesDNATRules execOk containerIP ps) =
        invocations (addIptablesDNATRules execOk' containerIP ps) ∧
      invocations (removeIptablesDNATRules execOk containerIP ps) =
        invocations (removeIptablesDNATRules execOk' containerIP ps) ∧
      invocations (addIptablesMarkRules h execOk ps) =
        invocations (addIptablesMarkRules h execOk' ps) ∧
      invocations (removeIptablesMarkRules h execOk ps) =
        invocations (removeIptablesMarkRules h execOk' ps) ∧
      (invocations (addIptablesDNATRules execOk containerIP ps)).length = 2 * ps.length ∧
      (invocations (removeIptablesDNATRules execOk containerIP ps)).length =
        2 * ps.length ∧
      (invocations (addIptablesMarkRules h execOk ps)).length = ps.length ∧
      (invocations (removeIptablesMarkRules h execOk ps)).length = ps.length := by
  refine ⟨invocations_addIptablesDNATRules _ _ _, invocations_removeIptablesDNATRules _ _ _,
    invocations_addIptablesMarkRules _ _ _, invocations_removeIptablesMarkRules _ _ _,
    ?_, ?_, ?_, ?_, ?_, ?_, ?_, ?_⟩
  · rw [invocations_addIptablesDNATRules, invocations_addIptablesDNATRules]
  · rw [invocations_removeIptablesDNATRules, invocations_removeIptablesDNATRules]
  · rw [invocations_addIptablesMarkRules, invocations_addIptablesMarkRules]
  · rw [invocations_removeIptablesMarkRules, invocations_removeIptablesMarkRules]
  · rw [invocations_addIptablesDNATRules, length_flatten_pairs]
  · rw [invocations_removeIptablesDNATRules, length_flatten_pairs]
  · rw [invocations_addIptablesMarkRules, List.length_map]
  · rw [invocations_removeIptablesMarkRules, List.length_map]

/-! ## C18: `filterPublishedPorts` -/

theorem lookup_foldl_mapSet (ps : List port) (m0 : List (Nat × String)) (k : Nat) :
    (ps.foldl (fun m p => mapSet m p.port p.protocol) m0).lookup k =
      match ps.reverse.find? (fun p => p.port == k) with
      | some p => some p.protocol
      | none => m0.lookup k := by
  induction ps generalizing m0 with
  | nil => rfl
  | cons p ps ih =>
    rw [List.foldl_cons, ih, List.reverse_cons, List.find?_append]
    cases hf : ps.reverse.find? (fun p => p.port == k) with
    | some q => simp
    | none =>
      by_cases hk : p.port = k
      · subst hk
        simp [List.find?_cons, lookup_mapSet_self]
      · have hne : k ≠ p.port := fun e => hk e.symm
        simp [List.find?_cons, hk, lookup_mapSet_of_ne _ _ _ _ hne]

theorem lookup_dnatSet_iff (dnat : List port) (hnd : (dnat.map (fun d => d.port)).Nodup)
    (k : Nat) (proto : String) :
    (dnat.foldl (fun m p => mapSet m p.port p.protocol) []).lookup k = some proto ↔
      (⟨k, proto⟩ : port) ∈ dnat := by
  rw [lookup_foldl_mapSet]
  cases hf : dnat.reverse.find? (fun p => p.port == k) with
  | none =>
    simp only [List.lookup_nil]
    constructor
    · intro hc; cases hc
    · intro hm
      have := List.find?_eq_none.1 hf ⟨k, proto⟩ (List.mem_reverse.2 hm)
      simp at this
  | some q =>
    have h1 := List.find?_some hf
    have h2 := List.mem_reverse.1 (List.mem_of_find?_eq_some hf)
    simp only [beq_iff_eq] at h1
    simp only [Option.some.injEq]
    constructor
    · intro hp
      have : q = ⟨k, proto⟩ := by
        cases q
        simp only at h1 hp
        simp [h1, hp]
      rw [← this]
      exact h2
    · intro hm
      have : q = ⟨k, proto⟩ := List.inj_on_of_nodup_map hnd h2 hm h1
      rw [this]

theorem filterMap_sublist_map {α β : Type} (l : List α) (f : α → Option β) (g : α → β)
    (h : ∀ x, f x = none ∨ f x = some (g x)) : List.Sublist (l.filterMap f) (l.map g) := by
  induction l with
  | nil => exact List.Sublist.slnil
  | cons x xs ih =>
    rcases h x with hx | hx
    · rw [List.filterMap_cons, hx, List.map_cons]
      exact List.Sublist.cons _ ih
    · rw [List.filterMap_cons, hx, List.map_cons]
      exact List.Sublist.cons₂ _ ih

/-- C18: when the port numbers of the DNAT intents are pairwise distinct,
`filterPublishedPorts` returns, in published order and with multiplicity, the
pairs `(HostPort, Protocol)` of the published mappings for which no DNAT intent
has the port `HostPort` and the same protocol (the container port plays no
part). For every input the result is a sub-sequence of the pairs
`(HostPort, Protocol)` of the published mappings, and with no DNAT intent it is
all of them. -/
theorem filterPublishedPorts_distinct (published : List PortMapping) (dnat : List port) :
    ((dnat.map (fun d => d.port)).Nodup →
        filterPublishedPorts published dnat =
          (published.filter (fun m =>
            !dnat.any (fun d => d.port == m.HostPort && d.protocol == m.Protocol))).map
            (fun m => { port := m.HostPort, protocol := m.Protocol })) ∧
      List.Sublist (filterPublishedPorts published dnat)
        (published.map (fun m => { port := m.HostPort, protocol := m.Protocol })) ∧
      filterPublishedPorts published [] =
        published.map (fun m => { port := m.HostPort, protocol := m.Protocol }) := by
  refine ⟨?_, ?_, ?_⟩
  · intro hnd
    unfold filterPublishedPorts
    induction published with
    | nil => rfl
    | cons m ms ih =>
      have hany : dnat.any (fun d => d.port == m.HostPort && d.protocol == m.Protocol) = true ↔
          (⟨m.HostPort, m.Protocol⟩ : port) ∈ dnat := by
        simp only [List.any_eq_true, Bool.and_eq_true, beq_iff_eq]
        constructor
        · rintro ⟨d, hd, h1, h2⟩
          have : d = ⟨m.HostPort, m.Protocol⟩ := by
            cases d
            simp only at h1 h2
            simp [h1, h2]
          rw [← this]; exact hd
        · intro hm
          exact ⟨_, hm, rfl, rfl⟩
      rw [List.filterMap_cons, List.filter_cons]
      by_cases hin : (⟨m.HostPort, m.Protocol⟩ : port) ∈ dnat
      · have hl := (lookup_dnatSet_iff dnat hnd m.HostPort m.Protocol).2 hin
        have ha := hany.2 hin
        simp only [hl, beq_self_eq_true, if_true, ha, Bool.not_true, Bool.false_eq_true,
          if_false]
        exact ih
      · have ha : dnat.any (fun d => d.port == m.HostPort && d.protocol == m.Protocol) =
            false := by
          cases hb : dnat.any (fun d => d.port == m.HostPort && d.protocol == m.Protocol) with
          | false => rfl
          | true => exact absurd (hany.1 hb) hin
        simp only [ha, Bool.not_false, if_true, List.map_cons]
        cases hl : (dnat.foldl (fun m p => mapSet m p.port p.protocol) []).lookup
            m.HostPort with
        | none =>
          simp only [List.cons.injEq, true_and]
          exact ih
        | some proto =>
          have hne : ¬ proto = m.Protocol := by
            intro e
            rw [e] at hl
            exact hin ((lookup_dnatSet_iff dnat hnd m.HostPort m.Protocol).1 hl)
          have hb : (proto == m.Protocol) = false := by simpa using hne
          simp only [hb, Bool.false_eq_true, if_false, List.cons.injEq, true_and]
          exact ih
  · unfold filterPublishedPorts
    apply filterMap_sublist_map
    intro m
    dsimp only
    cases (dnat.foldl (fun m p => mapSet m p.port p.protocol) []).lookup m.HostPort with
    | none => exact Or.inr rfl
    | some proto =>
      by_cases hb : (proto == m.Protocol) = true
      · simp [hb]
      · simp [hb]
  · unfold filterPublishedPorts
    induction published with
    | nil => rfl
    | cons m ms ih =>
      simp only [List.foldl_nil, List.lookup_nil, List.filterMap_cons, List.map_cons] at ih ⊢
      rw [ih]

theorem filterPublishedPorts_distinct_witness :
    filterPublishedPorts [⟨"0.0.0.0", 80, 8080, "tcp"⟩, ⟨"0.0.0.0", 443, 80, "tcp"⟩,
        ⟨"0.0.0.0", 53, 53, "udp"⟩] [⟨443, "tcp"⟩, ⟨8080, "tcp"⟩, ⟨53, "tcp"⟩] =
      [⟨80, "tcp"⟩, ⟨53, "udp"⟩] :=
  (filterPublishedPorts_distinct [⟨"0.0.0.0", 80, 8080, "tcp"⟩, ⟨"0.0.0.0", 443, 80, "tcp"⟩,
      ⟨"0.0.0.0", 53, 53, "udp"⟩] [⟨443, "tcp"⟩, ⟨8080, "tcp"⟩, ⟨53, "tcp"⟩]).1 (by decide)

/-! ## C17: the warm-up is a bounded retry -/

theorem tryConnectLoop_spec (dialOk : Nat → Bool) (protocol address : String) (n i : Nat) :
    dials (tryConnectLoop dialOk protocol address n i).1 =
        List.replicate (dials (tryConnectLoop dialOk protocol address n i).1).length
          (protocol, address) ∧
      (dials (tryConnectLoop dialOk protocol address n i).1).length ≤ n ∧
      (∀ k, k + 1 < (dials (tryConnectLoop dialOk protocol address n i).1).length →
        dialOk (i + k) = false) ∧
      ((tryConnectLoop dialOk protocol address n i).2 = true →
        1 ≤ (dials (tryConnectLoop dialOk protocol address n i).1).length ∧
          dialOk (i + ((dials (tryConnectLoop dialOk protocol address n i).1).length - 1)) =
            true) ∧
      ((tryConnectLoop dialOk protocol address n i).2 = false →
        (dials (tryConnectLoop dialOk protocol address n i).1).length = n ∧
          ∀ k, k < n → dialOk (i + k) = false) := by
  induction n generalizing i with
  | zero =>
    simp [tryConnectLoop, dials_log, dials_nil]
  | succ n ih =>
    unfold tryConnectLoop
    cases hok : dialOk i with
    | true =>
      simp only [if_true, dials_dial, dials_log, dials_nil, List.length_cons, List.length_nil]
      refine ⟨rfl, by omega, ?_, ?_, ?_⟩
      · intro k hk; omega
      · intro _; exact ⟨by omega, by simpa using hok⟩
      · intro hc; cases hc
    | false =>
      obtain ⟨h1, h2, h3, h4, h5⟩ := ih (i + 1)
      simp only [Bool.false_eq_true, if_false, dials_dial, dials_sleep, List.length_cons]
      refine ⟨?_, by omega, ?_, ?_, ?_⟩
      · rw [List.replicate_succ, ← h1]
      · intro k hk
        cases k with
        | zero => simpa using hok
        | succ k =>
          have := h3 k (by omega)
          rw [show i + (k + 1) = i + 1 + k by omega]
          exact this
      · intro hr
        obtain ⟨h41, h42⟩ := h4 hr
        refine ⟨by omega, ?_⟩
        rw [show i + ((dials (tryConnectLoop dialOk protocol address n (i + 1)).1).length + 1
          - 1) = i + 1 + ((dials (tryConnectLoop dialOk protocol address n (i + 1)).1).length
          - 1) by omega]
        exact h42
      · intro hr
        obtain ⟨h51, h52⟩ := h5 hr
        refine ⟨by omega, ?_⟩
        intro k hk
        cases k with
        | zero => simpa using hok
        | succ k =>
          have := h52 k (by omega)
          rw [show i + (k + 1) = i + 1 + k by omega]
          exact this

theorem tryConnect_spec (dialOk : Nat → Bool) (protocol address : String) :
    dials (tryConnect dialOk protocol address).1 =
        List.replicate (dials (tryConnect dialOk protocol address).1).length
          (protocol, address) ∧
      1 ≤ (dials (tryConnect dialOk protocol address).1).length ∧
      (dials (tryConnect dialOk protocol address).1).length ≤ 60 ∧
      (∀ k, k + 1 < (dials (tryConnect dialOk protocol address).1).length →
        dialOk k = false) ∧
      ((tryConnect dialOk protocol address).2 = true →
        dialOk ((dials (tryConnect dialOk protocol address).1).length - 1) = true) ∧
      ((tryConnect dialOk protocol address).2 = false →
        (dials (tryConnect dialOk protocol address).1).length = 60 ∧
          ∀ k, k < 60 → dialOk k = false) := by
  obtain ⟨h1, h2, h3, h4, h5⟩ :=
    tryConnectLoop_spec dialOk protocol address warmUpMaxAttempts 0
  have h60 : warmUpMaxAttempts = 60 := rfl
  unfold tryConnect
  rw [h60] at h2 h5 ⊢
  refine ⟨h1, ?_, h2, ?_, ?_, ?_⟩
  · cases hr : (tryConnectLoop dialOk protocol address 60 0).2 with
    | true => exact (h4 hr).1
    | false => rw [(h5 hr).1]; omega
  · intro k hk
    have := h3 k hk
    simpa using this
  · intro hr
    have := (h4 hr).2
    simpa using this
  · intro hr
    obtain ⟨h51, h52⟩ := h5 hr
    refine ⟨h51, ?_⟩
    intro k hk
    have := h52 k hk
    simpa using this

theorem dials_warmupReversePath (dialOk : Nat → Bool) (ip : String) (port : Nat)
    (protocol : String) :
    dials (warmupReversePath dialOk ip port protocol).1 =
      if port > 0 then
        if (tryConnect dialOk protocol (ip ++ ":" ++ toString port)).2 then
          dials (tryConnect dialOk protocol (ip ++ ":" ++ toString port)).1
        else
          dials (tryConnect dialOk protocol (ip ++ ":" ++ toString port)).1 ++
            dials (tryConnect (fun k => dialOk (warmUpMaxAttempts + k)) "ip4:icmp" ip).1
      else dials (tryConnect dialOk "ip4:icmp" ip).1 := by
  unfold warmupReversePath
  by_cases hp : port > 0
  · simp only [hp, if_true]
    cases hr : (tryConnect dialOk protocol (ip ++ ":" ++ toString port)).2 with
    | true => simp only [if_true, dials_log]
    | false =>
      simp only [Bool.false_eq_true, if_false, List.cons_append, dials_log, dials_append,
        dials_nil, List.nil_append, List.append_nil]
  · simp only [hp, if_false, dials_log]

theorem warmupReversePath_result (dialOk : Nat → Bool) (ip : String) (port : Nat)
    (protocol : String) :
    (warmupReversePath dialOk ip port protocol).2 =
      if port > 0 then
        if (tryConnect dialOk protocol (ip ++ ":" ++ toString port)).2 then true
        else (tryConnect (fun k => dialOk (warmUpMaxAttempts + k)) "ip4:icmp" ip).2
      else (tryConnect dialOk "ip4:icmp" ip).2 := by
  unfold warmupReversePath
  by_cases hp : port > 0
  · simp only [hp, if_true]
    cases hr : (tryConnect dialOk protocol (ip ++ ":" ++ toString port)).2 with
    | true => simp only [if_true]
    | false => simp only [Bool.false_eq_true, if_false]
  · simp only [hp, if_false]

theorem warmupReversePath_cases (dialOk : Nat → Bool) (ip : String) (port : Nat)
    (protocol : String) :
    (port = 0 ∧ ∃ m, dials (warmupReversePath dialOk ip port protocol).1 =
        List.replicate m ("ip4:icmp", ip) ∧ 1 ≤ m ∧ m ≤ 60 ∧
        (∀ k, k + 1 < m → dialOk k = false) ∧
        ((warmupReversePath dialOk ip port protocol).2 = true → dialOk (m - 1) = true) ∧
        ((warmupReversePath dialOk ip port protocol).2 = false →
          m = 60 ∧ ∀ k, k < 60 → dialOk k = false)) ∨
      (0 < port ∧ (warmupReversePath dialOk ip port protocol).2 = true ∧
        ∃ m, dials (warmupReversePath dialOk ip port protocol).1 =
          List.replicate m (protocol, ip ++ ":" ++ toString port) ∧ 1 ≤ m ∧ m ≤ 60 ∧
          (∀ k, k + 1 < m → dialOk k = false) ∧ dialOk (m - 1) = true) ∨
      (0 < port ∧ (∀ k, k < 60 → dialOk k = false) ∧
        ∃ m, dials (warmupReversePath dialOk ip port protocol).1 =
          List.replicate 60 (protocol, ip ++ ":" ++ toString port) ++
            List.replicate m ("ip4:icmp", ip) ∧ 1 ≤ m ∧ m ≤ 60 ∧
          (∀ k, k + 1 < m → dialOk (60 + k) = false) ∧
          ((warmupReversePath dialOk ip port protocol).2 = true →
            dialOk (60 + (m - 1)) = true) ∧
          ((warmupReversePath dialOk ip port protocol).2 = false →
            m = 60 ∧ ∀ k, k < 60 → dialOk (60 + k) = false)) := by
  have hd := dials_warmupReversePath dialOk ip port protocol
  have hres := warmupReversePath_result dialOk ip port protocol
  have h60 : warmUpMaxAttempts = 60 := rfl
  by_cases hp : port > 0
  · obtain ⟨a1, a2, a3, a4, a5, a6⟩ :=
      tryConnect_spec dialOk protocol (ip ++ ":" ++ toString port)
    cases hr : (tryConnect dialOk protocol (ip ++ ":" ++ toString port)).2 with
    | true =>
      refine Or.inr (Or.inl ⟨hp, ?_, _, ?_, a2, a3, a4, a5 hr⟩)
      · rw [hres]; simp only [hp, hr, if_true]
      · rw [hd]; simp only [hp, hr, if_true]; exact a1
    | false =>
      obtain ⟨a61, a62⟩ := a6 hr
      obtain ⟨b1, b2, b3, b4, b5, b6⟩ :=
        tryConnect_spec (fun k => dialOk (warmUpMaxAttempts + k)) "ip4:icmp" ip
      simp only [h60] at b1 b2 b3 b4 b5 b6 hd hres
      have hres' : (warmupReversePath dialOk ip port protocol).2 =
          (tryConnect (fun k => dialOk (60 + k)) "ip4:icmp" ip).2 := by
        rw [hres]; simp only [hp, hr, if_true, Bool.false_eq_true, if_false]
      refine Or.inr (Or.inr ⟨hp, a62, _, ?_, b2, b3, b4, ?_, ?_⟩)
      · rw [hd]
        simp only [hp, hr, if_true, Bool.false_eq_true, if_false]
        rw [a61] at a1
        rw [← a1, ← b1]
      · rw [hres']; exact b5
      · rw [hres']; exact b6
  · have hp0 : port = 0 := by omega
    obtain ⟨b1, b2, b3, b4, b5, b6⟩ := tryConnect_spec dialOk "ip4:icmp" ip
    have hres' : (warmupReversePath dialOk ip port protocol).2 =
        (tryConnect dialOk "ip4:icmp" ip).2 := by
      rw [hres]; simp only [hp, if_false]
    refine Or.inl ⟨hp0, _, ?_, b2, b3, b4, ?_, ?_⟩
    · rw [hd]; simp only [hp, if_false]; exact b1
    · rw [hres']; exact b5
    · rw [hres']; exact b6

theorem dials_handleContainerStarted (h : Handler) (dialOk execOk : Nat → Bool)
    (event : ContainerEvent) (t : List Effect)
    (ht : handleContainerStarted h dialOk execOk event = some t)
    (hip : event.Container.IPAddress ≠ "") :
    dials t =
      dials (warmupReversePath dialOk event.Container.IPAddress
        (match event.Container.Ports with
         | p :: _ => p.ContainerPort
         | [] => 0)
        (match event.Container.Ports with
         | p :: _ => p.Protocol
         | [] => "")).1 := by
  unfold handleContainerStarted at ht
  by_cases hid : event.Container.ID.utf8ByteSize < 12
  · simp [hid] at ht
  · simp only [hid, if_false, Option.some.injEq] at ht
    subst ht
    have hip' : (event.Container.IPAddress != "") = true := by simpa using hip
    rw [dials_log]
    simp only [hip', if_true, dials_append]
    have hd : dials (if (h.iptablesDnatPortsLabel != "") = true then
          match event.Container.Labels.lookup h.iptablesDnatPortsLabel with
          | some portsValue =>
            (parsePorts portsValue,
              (parsePortsWarnings portsValue).map
                  (fun _ => Effect.log "WARN" "Invalid port number") ++
                addIptablesDNATRules execOk event.Container.IPAddress
                  (parsePorts portsValue))
          | none => (([] : List port), ([] : List Effect))
        else ([], [])).2 = [] := by
      cases hl : (h.iptablesDnatPortsLabel != "") with
      | false => rfl
      | true =>
        simp only [if_true]
        cases hv : event.Container.Labels.lookup h.iptablesDnatPortsLabel with
        | none => rfl
        | some v =>
          simp only [dials_append, dials_addIptablesDNATRules, List.append_nil]
          exact dials_map_log _ (fun _ => ("WARN", "Invalid port number"))
    rw [hd]
    cases hm : (h.iptablesMangleMarkPublishedPorts != "") with
    | false =>
      simp only [Bool.false_eq_true, if_false, dials_nil, List.append_nil]
      cases event.Container.Ports <;> rfl
    | true =>
      simp only [if_true, dials_addIptablesMarkRules, List.append_nil]
      cases event.Container.Ports <;> rfl

/-- C17: for every sequence `dialOk` of outcomes of the connection attempts
(`dialOk k` is the outcome of the attempt number `k`, from 0),
`warmupReversePath` makes between 1 and 120 attempts (at most 60 when the port
is 0); with a port, the first attempts, up to 60, are at `ip:port` over the
given protocol and the attempts after the 60th are ICMP attempts at `ip`; with
port 0 all attempts are ICMP attempts. Every attempt but the last one failed,
so it stops at the first success, and an ICMP attempt is made only after 60
failed transport attempts; it returns true exactly when the last attempt
succeeded, that is when some attempt succeeded, and it gives up only after 120
failures (60 when the port is 0). Started processing calls it with the IP of
the container and the container port and protocol of its first published
mapping (port 0 when it has none). -/
theorem warmupReversePath_bounded_retry (dialOk : Nat → Bool) (ip : String) (port : Nat)
    (protocol : String) :
    (∀ (h : Handler) (execOk : Nat → Bool) (event : ContainerEvent) (t : List Effect),
        handleContainerStarted h dialOk execOk event = some t →
        event.Container.IPAddress ≠ "" →
        dials t =
          dials (warmupReversePath dialOk event.Container.IPAddress
            (match event.Container.Ports with
             | p :: _ => p.ContainerPort
             | [] => 0)
            (match event.Container.Ports with
             | p :: _ => p.Protocol
             | [] => "")).1) ∧
      1 ≤ (dials (warmupReversePath dialOk ip port protocol).1).length ∧
      (dials (warmupReversePath dialOk ip port protocol).1).length ≤ 120 ∧
      (port = 0 → (dials (warmupReversePath dialOk ip port protocol).1).length ≤ 60) ∧
      (0 < port → dials (warmupReversePath dialOk ip port protocol).1 =
        List.replicate (min (dials (warmupReversePath dialOk ip port protocol).1).length 60)
            (protocol, ip ++ ":" ++ toString port) ++
          List.replicate ((dials (warmupReversePath dialOk ip port protocol).1).length - 60)
            ("ip4:icmp", ip)) ∧
      (port = 0 → dials (warmupReversePath dialOk ip port protocol).1 =
        List.replicate (dials (warmupReversePath dialOk ip port protocol).1).length
          ("ip4:icmp", ip)) ∧
      (∀ k, k + 1 < (dials (warmupReversePath dialOk ip port protocol).1).length →
        dialOk k = false) ∧
      ((warmupReversePath dialOk ip port protocol).2 = true ↔
        dialOk ((dials (warmupReversePath dialOk ip port protocol).1).length - 1) = true) ∧
      ((warmupReversePath dialOk ip port protocol).2 = true ↔
        ∃ k, k < (dials (warmupReversePath dialOk ip port protocol).1).length ∧
          dialOk k = true) ∧
      ((warmupReversePath dialOk ip port protocol).2 = false →
        (dials (warmupReversePath dialOk ip port protocol).1).length =
          if port = 0 then 60 else 120) := by
  refine ⟨fun h execOk event t ht hip =>
    dials_handleContainerStarted h dialOk execOk event t ht hip, ?_⟩
  rcases warmupReversePath_cases dialOk ip port protocol with
    ⟨hp0, m, hD, m1, m60, hfail, hT, hF⟩ | ⟨hp, hR, m, hD, m1, m60, hfail, hlast⟩ |
    ⟨hp, hfirst, m, hD, m1, m60, hfail, hT, hF⟩
  · rw [hD]
    simp only [List.length_replicate]
    refine ⟨m1, by omega, fun _ => m60, fun h => by omega, fun _ => trivial, hfail, ?_, ?_, ?_⟩
    · cases hR : (warmupReversePath dialOk ip port protocol).2 with
      | true => simp only [hT hR]
      | false =>
        obtain ⟨e, hall⟩ := hF hR
        have := hall 59 (by omega)
        rw [e]
        simp only [show 60 - 1 = 59 by omega, this]
    · cases hR : (warmupReversePath dialOk ip port protocol).2 with
      | true =>
        simp only [true_iff]
        exact ⟨m - 1, by omega, hT hR⟩
      | false =>
        obtain ⟨e, hall⟩ := hF hR
        simp only [Bool.false_eq_true, false_iff, not_exists, not_and, Bool.not_eq_true]
        intro k hk
        exact hall k (by omega)
    · intro hR
      rw [(hF hR).1, if_pos hp0]
  · rw [hD]
    simp only [List.length_replicate]
    refine ⟨m1, by omega, fun _ => m60, fun _ => ?_, fun h => by omega, hfail, ?_, ?_, ?_⟩
    · rw [show min m 60 = m by omega, show m - 60 = 0 by omega]
      simp
    · simp only [hR, hlast]
    · simp only [hR, true_iff]
      exact ⟨m - 1, by omega, hlast⟩
    · intro hc
      rw [hR] at hc
      cases hc
  · rw [hD]
    simp only [List.length_append, List.length_replicate]
    refine ⟨by omega, by omega, fun h => by omega, fun _ => ?_, fun h => by omega, ?_, ?_, ?_,
      ?_⟩
    · rw [show min (60 + m) 60 = 60 by omega, show 60 + m - 60 = m by omega]
    · intro k hk
      by_cases hk60 : k < 60
      · exact hfirst k hk60
      · have := hfail (k - 60) (by omega)
        rw [show 60 + (k - 60) = k by omega] at this
        exact this
    · cases hR : (warmupReversePath dialOk ip port protocol).2 with
      | true =>
        have := hT hR
        rw [show 60 + (m - 1) = 60 + m - 1 by omega] at this
        simp only [this]
      | false =>
        obtain ⟨e, hall⟩ := hF hR
        have := hall 59 (by omega)
        rw [e]
        simp only [show 60 + 60 - 1 = 60 + 59 by omega, this]
    · cases hR : (warmupReversePath dialOk ip port protocol).2 with
      | true =>
        simp only [true_iff]
        exact ⟨60 + (m - 1), by omega, hT hR⟩
      | false =>
        obtain ⟨e, hall⟩ := hF hR
        simp only [Bool.false_eq_true, false_iff, not_exists, not_and, Bool.not_eq_true]
        intro k hk
        by_cases hk60 : k < 60
        · exact hfirst k hk60
        · have := hall (k - 60) (by omega)
          rw [show 60 + (k - 60) = k by omega] at this
          exact this
    · intro hR
      rw [(hF hR).1, if_neg (by omega)]

theorem warmupReversePath_bounded_retry_witness :
    (warmupReversePath (fun k => k == 61) "10.0.0.5" 8080 "tcp").2 = true ∧
      (dials (warmupReversePath (fun k => k == 61) "10.0.0.5" 8080 "tcp").1).length = 62 :=
  ⟨(warmupReversePath_bounded_retry (fun k => k == 61) "10.0.0.5" 8080
      "tcp").2.2.2.2.2.2.2.2.1.2 ⟨61, by decide, rfl⟩, by decide⟩

/-! ## C14: repeated starts are not deduplicated -/

theorem handleStarted_single (w : Watcher) (now : Nat → Int) (sent : Nat → Bool)
    (c : Container) (id : String) (info : ContainerInfo)
    (hw : shouldWatch w c = true) (hx : extractContainerInfo w c = some info)
    (hs : sent 0 = true) :
    handleStarted w now sent (Except.ok [c]) id =
      ({ w with
         knownContainers := mapSet w.knownContainers c.ID info
         events := w.events ++
           [{ Typ := ContainerEventType.ContainerStarted, Container := info,
              Timestamp := now 0 }]
         queries := w.queries ++ [[("id", [id])]] }, Ended.ok) := by
  have hc : ({ w with queries := w.queries ++ [[("id", [id])]] } : Watcher).config = w.config :=
    rfl
  unfold handleStarted
  simp only [processContainers]
  rw [hs, processContainer_of_sent _ _ _ info (by rw [shouldWatch_congr w _ hc]; exact hw)
    (by rw [extractContainerInfo_congr w _ hc]; exact hx)]

theorem mapSet_filter_key {β : Type} (m : List (String × β)) (k : String) (v : β) :
    ((mapSet m k v).filter (fun kv => kv.1 == k)).length = 1 := by
  unfold mapSet
  rw [List.filter_cons]
  simp only [beq_self_eq_true, if_true, List.length_cons, List.filter_filter]
  have : (m.filter (fun a => (a.1 == k) && (a.1 != k))) = [] := by
    rw [List.filter_eq_nil_iff]
    intro a _
    by_cases h : a.1 = k
    · simp [h]
    · simp [h]
  rw [this]
  rfl

theorem issuedInvocations_congr (h : Handler) (d1 x1 d2 x2 : Nat → Bool)
    (ev1 ev2 : ContainerEvent) (hc : ev1.Container = ev2.Container) :
    issuedInvocations (handleContainerStarted h d1 x1 ev1) =
      issuedInvocations (handleContainerStarted h d2 x2 ev2) := by
  cases h1 : handleContainerStarted h d1 x1 ev1 with
  | none =>
    have hid := (handleContainerStarted_eq_none_iff h d1 x1 ev1).1 h1
    rw [hc] at hid
    rw [(handleContainerStarted_eq_none_iff h d2 x2 ev2).2 hid]
  | some t1 =>
    cases h2 : handleContainerStarted h d2 x2 ev2 with
    | none =>
      have hid := (handleContainerStarted_eq_none_iff h d2 x2 ev2).1 h2
      rw [← hc] at hid
      rw [(handleContainerStarted_eq_none_iff h d1 x1 ev1).2 hid] at h1
      cases h1
    | some t2 =>
      simp only [issuedInvocations]
      rw [invocations_handleContainerStarted h d1 x1 ev1 t1 h1,
        invocations_handleContainerStarted h d2 x2 ev2 t2 h2, hc]

/-- C14 (amended): for an eligible container `c` for which a record is built,
two start events handled one after the other without cancellation, the runtime
answering with `c` both times, emit two Started transitions with the same
snapshot, the record built for `c`, while the directory holds exactly one entry
for the ID of `c`; and Started processing of the second transition issues the
same invocations as that of the first, whatever the outcomes, so that each
invocation is issued twice as often by the two calls as by the first. -/
theorem repeated_start_not_deduplicated (w : Watcher) (now1 now2 : Nat → Int)
    (sent1 sent2 : Nat → Bool) (c : Container) (info : ContainerInfo) (e1 e2 : Event)
    (hw : shouldWatch w c = true)
    (hx : extractContainerInfo w c = some info)
    (ht1 : e1.Typ = "container")
    (hs1 : strings.HasPrefix (effectiveAction e1) "start" = true)
    (ht2 : e2.Typ = "container")
    (hs2 : strings.HasPrefix (effectiveAction e2) "start" = true)
    (hsent1 : sent1 0 = true) (hsent2 : sent2 0 = true) :
    (handleEvent w now1 sent1 (Except.ok [c]) e1).2 = Ended.ok ∧
      (handleEvent (handleEvent w now1 sent1 (Except.ok [c]) e1).1 now2 sent2
          (Except.ok [c]) e2).2 = Ended.ok ∧
      (handleEvent (handleEvent w now1 sent1 (Except.ok [c]) e1).1 now2 sent2
          (Except.ok [c]) e2).1.events =
        w.events ++
          [{ Typ := ContainerEventType.ContainerStarted, Container := info,
             Timestamp := now1 0 },
           { Typ := ContainerEventType.ContainerStarted, Container := info,
             Timestamp := now2 0 }] ∧
      (handleEvent (handleEvent w now1 sent1 (Except.ok [c]) e1).1 now2 sent2
          (Except.ok [c]) e2).1.knownContainers.lookup c.ID = some info ∧
      ((handleEvent (handleEvent w now1 sent1 (Except.ok [c]) e1).1 now2 sent2
          (Except.ok [c]) e2).1.knownContainers.filter (fun kv => kv.1 == c.ID)).length = 1 ∧
      ∀ (h : Handler) (d1 x1 d2 x2 : Nat → Bool),
        issuedInvocations (handleContainerStarted h d2 x2
            { Typ := ContainerEventType.ContainerStarted, Container := info,
              Timestamp := now2 0 }) =
          issuedInvocations (handleContainerStarted h d1 x1
            { Typ := ContainerEventType.ContainerStarted, Container := info,
              Timestamp := now1 0 }) ∧
        ∀ a,
          (issuedInvocations (handleContainerStarted h d1 x1
              { Typ := ContainerEventType.ContainerStarted, Container := info,
                Timestamp := now1 0 }) ++
            issuedInvocations (handleContainerStarted h d2 x2
              { Typ := ContainerEventType.ContainerStarted, Container := info,
                Timestamp := now2 0 })).count a =
            2 * (issuedInvocations (handleContainerStarted h d1 x1
              { Typ := ContainerEventType.ContainerStarted, Container := info,
                Timestamp := now1 0 })).count a := by
  have hstep1 := handleStarted_single w now1 sent1 c e1.Actor.ID info hw hx hsent1
  rw [handleEvent_of_start w now1 sent1 _ e1 ht1 hs1, hstep1]
  have hw1 : shouldWatch
      { w with
        knownContainers := mapSet w.knownContainers c.ID info
        events := w.events ++
          [{ Typ := ContainerEventType.ContainerStarted, Container := info,
             Timestamp := now1 0 }]
        queries := w.queries ++ [[("id", [e1.Actor.ID])]] } c = true := by
    exact (shouldWatch_congr w _ rfl c).trans hw
  have hx1 : extractContainerInfo
      { w with
        knownContainers := mapSet w.knownContainers c.ID info
        events := w.events ++
          [{ Typ := ContainerEventType.ContainerStarted, Container := info,
             Timestamp := now1 0 }]
        queries := w.queries ++ [[("id", [e1.Actor.ID])]] } c = some info := by
    exact (extractContainerInfo_congr w _ rfl c).trans hx
  rw [handleEvent_of_start _ now2 sent2 _ e2 ht2 hs2,
    handleStarted_single _ now2 sent2 c e2.Actor.ID info hw1 hx1 hsent2]
  refine ⟨rfl, rfl, ?_, lookup_mapSet_self _ _ _, mapSet_filter_key _ _ _, ?_⟩
  · simp
  · intro h d1 x1 d2 x2
    have e := issuedInvocations_congr h d2 x2 d1 x1
      { Typ := ContainerEventType.ContainerStarted, Container := info, Timestamp := now2 0 }
      { Typ := ContainerEventType.ContainerStarted, Container := info, Timestamp := now1 0 }
      rfl
    refine ⟨e, ?_⟩
    intro a
    rw [e, List.count_append]
    omega

theorem repeated_start_not_deduplicated_witness :
    (handleEvent
        (handleEvent (NewWatcher ⟨"bridge", ""⟩) (fun _ => 1) (fun _ => true)
          (Except.ok
            [{ ID := "0123456789abcdef", Names := ["/web"], Labels := [("dnat", "8080")],
               State := "running", Status := "Up",
               NetworkSettings :=
                 some ⟨some [("bridge", some ⟨"10.0.0.5", "", "", "", 16⟩)]⟩,
               Ports := [⟨"0.0.0.0", 8080, 8080, "tcp"⟩] }])
          ⟨"container", "start", ⟨"0123456789abcdef", []⟩, 1, ""⟩).1
        (fun _ => 2) (fun _ => true)
        (Except.ok
          [{ ID := "0123456789abcdef", Names := ["/web"], Labels := [("dnat", "8080")],
             State := "running", Status := "Up",
             NetworkSettings := some ⟨some [("bridge", some ⟨"10.0.0.5", "", "", "", 16⟩)]⟩,
             Ports := [⟨"0.0.0.0", 8080, 8080, "tcp"⟩] }])
        ⟨"container", "", ⟨"0123456789abcdef", []⟩, 2, "start"⟩).1.events =
      [⟨ContainerEventType.ContainerStarted,
          ⟨"0123456789abcdef", "web", "10.0.0.5", "bridge", [⟨"0.0.0.0", 8080, 8080, "tcp"⟩],
            [("dnat", "8080")]⟩, 1⟩,
       ⟨ContainerEventType.ContainerStarted,
          ⟨"0123456789abcdef", "web", "10.0.0.5", "bridge", [⟨"0.0.0.0", 8080, 8080, "tcp"⟩],
            [("dnat", "8080")]⟩, 2⟩] ∧
      (issuedInvocations (handleContainerStarted ⟨"2", "dnat"⟩ (fun _ => true) (fun _ => true)
          ⟨ContainerEventType.ContainerStarted,
            ⟨"0123456789abcdef", "web", "10.0.0.5", "bridge",
              [⟨"0.0.0.0", 8080, 8080, "tcp"⟩], [("dnat", "8080")]⟩, 1⟩) ++
        issuedInvocations (handleContainerStarted ⟨"2", "dnat"⟩ (fun _ => true)
          (fun _ => false)
          ⟨ContainerEventType.ContainerStarted,
            ⟨"0123456789abcdef", "web", "10.0.0.5", "bridge",
              [⟨"0.0.0.0", 8080, 8080, "tcp"⟩], [("dnat", "8080")]⟩, 2⟩)).count
          ["-t", "nat", "-A", "PREROUTING", "-p", "tcp", "--dport", "8080", "-j", "DNAT",
            "--to-destination", "10.0.0.5:8080"] = 2 :=
  ⟨(repeated_start_not_deduplicated (NewWatcher ⟨"bridge", ""⟩) (fun _ => 1) (fun _ => 2)
      (fun _ => true) (fun _ => true)
      { ID := "0123456789abcdef", Names := ["/web"], Labels := [("dnat", "8080")],
        State := "running", Status := "Up",
        NetworkSettings := some ⟨some [("bridge", some ⟨"10.0.0.5", "", "", "", 16⟩)]⟩,
        Ports := [⟨"0.0.0.0", 8080, 8080, "tcp"⟩] }
      ⟨"0123456789abcdef", "web", "10.0.0.5", "bridge", [⟨"0.0.0.0", 8080, 8080, "tcp"⟩],
        [("dnat", "8080")]⟩
      ⟨"container", "start", ⟨"0123456789abcdef", []⟩, 1, ""⟩
      ⟨"container", "", ⟨"0123456789abcdef", []⟩, 2, "start"⟩
      (by decide) (by decide) rfl (by decide) rfl (by decide) rfl rfl).2.2.1,
    (((repeated_start_not_deduplicated (NewWatcher ⟨"bridge", ""⟩) (fun _ => 1) (fun _ => 2)
      (fun _ => true) (fun _ => true)
      { ID := "0123456789abcdef", Names := ["/web"], Labels := [("dnat", "8080")],
        State := "running", Status := "Up",
        NetworkSettings := some ⟨some [("bridge", some ⟨"10.0.0.5", "", "", "", 16⟩)]⟩,
        Ports := [⟨"0.0.0.0", 8080, 8080, "tcp"⟩] }
      ⟨"0123456789abcdef", "web", "10.0.0.5", "bridge", [⟨"0.0.0.0", 8080, 8080, "tcp"⟩],
        [("dnat", "8080")]⟩
      ⟨"container", "start", ⟨"0123456789abcdef", []⟩, 1, ""⟩
      ⟨"container", "", ⟨"0123456789abcdef", []⟩, 2, "start"⟩
      (by decide) (by decide) rfl (by decide) rfl (by decide) rfl rfl).2.2.2.2.2
        ⟨"2", "dnat"⟩ (fun _ => true) (fun _ => true) (fun _ => true) (fun _ => false)).2
        ["-t", "nat", "-A", "PREROUTING", "-p", "tcp", "--dport", "8080", "-j", "DNAT",
          "--to-destination", "10.0.0.5:8080"]).trans (by decide)⟩

/-- C14 (counterexample): the two start events for the eligible container of
the witness, the `select` of the second call taking the case `<-ctx.Done()`:
the record is in the directory, and the feed holds one Started transition, not
two. -/
theorem repeated_start_cancelled :
    shouldWatch (NewWatcher ⟨"bridge", ""⟩)
        { ID := "0123456789abcdef", Names := ["/web"], Labels := [("dnat", "8080")],
          State := "running", Status := "Up",
          NetworkSettings := some ⟨some [("bridge", some ⟨"10.0.0.5", "", "", "", 16⟩)]⟩,
          Ports := [⟨"0.0.0.0", 8080, 8080, "tcp"⟩] } = true ∧
      (handleEvent
        (handleEvent (NewWatcher ⟨"bridge", ""⟩) (fun _ => 1) (fun _ => true)
          (Except.ok
            [{ ID := "0123456789abcdef", Names := ["/web"], Labels := [("dnat", "8080")],
               State := "running", Status := "Up",
               NetworkSettings :=
                 some ⟨some [("bridge", some ⟨"10.0.0.5", "", "", "", 16⟩)]⟩,
               Ports := [⟨"0.0.0.0", 8080, 8080, "tcp"⟩] }])
          ⟨"container", "start", ⟨"0123456789abcdef", []⟩, 1, ""⟩).1
        (fun _ => 2) (fun _ => false)
        (Except.ok
          [{ ID := "0123456789abcdef", Names := ["/web"], Labels := [("dnat", "8080")],
             State := "running", Status := "Up",
             NetworkSettings := some ⟨some [("bridge", some ⟨"10.0.0.5", "", "", "", 16⟩)]⟩,
             Ports := [⟨"0.0.0.0", 8080, 8080, "tcp"⟩] }])
        ⟨"container", "", ⟨"0123456789abcdef", []⟩, 2, "start"⟩).1.events =
      [⟨ContainerEventType.ContainerStarted,
          ⟨"0123456789abcdef", "web", "10.0.0.5", "bridge", [⟨"0.0.0.0", 8080, 8080, "tcp"⟩],
            [("dnat", "8080")]⟩, 1⟩] := by
  decide
